import Mathlib

/-!
minigbm: i915 and rockchip buffer-object allocation policy.

A shallow embedding of `src/i915.c` and `src/rockchip.c`.

Conventions of the embedding.

* `uint32_t` values are natural numbers; every operation that C performs in
  `unsigned int` arithmetic is followed by an explicit `% UINT32`.
* `int` values (`gen`, `bpp`, return values, `errno`) are integers.
* `size_t` has a width that depends on the platform: the number of its values
  is a parameter (`size_mod`), 2^32 on ILP32 and 2^64 on LP64.
* Undefined or aborting behaviour (integer division by zero, a failed
  `assert`) and an exhausted loop budget are explicit faults.
* `drmIoctl` is an oracle: a kernel is any function from the ioctls issued so
  far and the current request to a reply. Every ioctl issued is appended to
  a trace.
* Constants of headers that are not among the sources (`drv.h`) are taken as
  a parameter (`DrvHeader`).
* `fprintf` writes a diagnostic and may change `errno`. Where the code goes on
  to read `errno` (`drv_i915_bo_create`) that effect is an oracle of its own
  (`Stderr`); in `rockchip_bo_create`, which never reads `errno`, the call is
  left out.
* `drv_i915_init` takes what `malloc` and the chipset-id ioctl yielded as
  arguments; the capability tables are lists of (format, usage mask) pairs.
-/

set_option autoImplicit false

namespace Minigbm

/-! ## Machine arithmetic -/

/-- Number of values of a `uint32_t`: 2^32. -/
abbrev UINT32 : Nat := 4294967296

/-- Number of values of a `size_t` on an ILP32 platform: 2^32. -/
abbrev SIZE_T_ILP32 : Nat := 4294967296

/-- Number of values of a `size_t` on an LP64 platform: 2^64. -/
abbrev SIZE_T_LP64 : Nat := 18446744073709551616

/-- Conversion of an `int` (or of an exact integer result) to `uint32_t`. -/
def toU32 (i : Int) : Nat := (i % 4294967296).toNat

/-- Ways in which a run fails to return. -/
inductive Fault where
  /-- integer division by zero (undefined behaviour in C) -/
  | divByZero
  /-- an `assert` failed with assertions compiled in: the process aborts -/
  | assertFail
  /-- the loop budget of the model ran out: the loop is still running -/
  | outOfFuel
  deriving DecidableEq, Repr

/-- Modelled from the spec: the `ALIGN(A, B)` macro of `util.h`, which is not
among the sources. "Round A up to the nearest multiple of B", computed as
`(A + B - 1) / B * B` in `uint32_t` arithmetic; `B = 0` divides by zero. -/
def ALIGN (a b : Nat) : Except Fault Nat :=
  if b = 0 then .error .divByZero
  else .ok ((a + b - 1) % UINT32 / b * b % UINT32)

/-! ## Constants -/

/-- The constant `I915_TILING_NONE` of the kernel's `i915_drm.h`. -/
def I915_TILING_NONE : Nat := 0
/-- The constant `I915_TILING_X` of the kernel's `i915_drm.h`. -/
def I915_TILING_X : Nat := 1
/-- The constant `I915_TILING_Y` of the kernel's `i915_drm.h`. -/
def I915_TILING_Y : Nat := 2

/-- The constant `EINTR` of `errno.h` (Linux). -/
def EINTR : Int := 4
/-- The constant `EAGAIN` of `errno.h` (Linux). -/
def EAGAIN : Int := 11
/-- The constant `EINVAL` of `errno.h` (Linux). -/
def EINVAL : Int := 22

/-- The constants of `drv.h` that the two backends use. The header is not
among the sources, so its values are a parameter: the usage bits are
arbitrary masks, the format codes are arbitrary pairwise distinct codes
(distinct format names denote distinct four-character codes). -/
structure DrvHeader where
  DRV_BO_USE_SCANOUT : Nat
  DRV_BO_USE_CURSOR : Nat
  DRV_BO_USE_RENDERING : Nat
  DRV_BO_USE_LINEAR : Nat
  DRV_BO_USE_HW_TEXTURE : Nat
  DRV_BO_USE_HW_RENDER : Nat
  DRV_BO_USE_HW_2D : Nat
  DRV_BO_USE_SW_READ_RARELY : Nat
  DRV_BO_USE_SW_READ_OFTEN : Nat
  DRV_BO_USE_SW_WRITE_RARELY : Nat
  DRV_BO_USE_SW_WRITE_OFTEN : Nat
  DRV_FORMAT_XRGB8888 : Nat
  DRV_FORMAT_ARGB8888 : Nat
  DRV_FORMAT_XBGR8888 : Nat
  DRV_FORMAT_ABGR8888 : Nat
  DRV_FORMAT_XRGB1555 : Nat
  DRV_FORMAT_ARGB1555 : Nat
  DRV_FORMAT_RGB565 : Nat
  DRV_FORMAT_UYVY : Nat
  DRV_FORMAT_YUYV : Nat
  DRV_FORMAT_R8 : Nat
  DRV_FORMAT_GR88 : Nat
  DRV_FORMAT_NV12 : Nat
  DRV_FORMAT_FLEX_IMPLEMENTATION_DEFINED : Nat
  DRV_FORMAT_FLEX_YCbCr_420_888 : Nat
  formats_distinct :
    [DRV_FORMAT_XRGB8888, DRV_FORMAT_ARGB8888, DRV_FORMAT_XBGR8888,
     DRV_FORMAT_ABGR8888, DRV_FORMAT_XRGB1555, DRV_FORMAT_ARGB1555,
     DRV_FORMAT_RGB565, DRV_FORMAT_UYVY, DRV_FORMAT_YUYV, DRV_FORMAT_R8,
     DRV_FORMAT_GR88, DRV_FORMAT_NV12,
     DRV_FORMAT_FLEX_IMPLEMENTATION_DEFINED,
     DRV_FORMAT_FLEX_YCbCr_420_888].Nodup

/-- The four-character code `a b c d`, packed little-endian. -/
def fourcc_code (a b c d : Char) : Nat :=
  a.toNat ||| (b.toNat <<< 8) ||| (c.toNat <<< 16) ||| (d.toNat <<< 24)

/-- One concrete header: usage bits at consecutive positions from bit 0, and
the format codes of the DRM four-character-code convention. It is used for
the concrete examples only. -/
def drv_h : DrvHeader where
  DRV_BO_USE_SCANOUT := 1 <<< 0
  DRV_BO_USE_CURSOR := 1 <<< 1
  DRV_BO_USE_RENDERING := 1 <<< 2
  DRV_BO_USE_LINEAR := 1 <<< 3
  DRV_BO_USE_HW_TEXTURE := 1 <<< 4
  DRV_BO_USE_HW_RENDER := 1 <<< 5
  DRV_BO_USE_HW_2D := 1 <<< 6
  DRV_BO_USE_SW_READ_RARELY := 1 <<< 7
  DRV_BO_USE_SW_READ_OFTEN := 1 <<< 8
  DRV_BO_USE_SW_WRITE_RARELY := 1 <<< 9
  DRV_BO_USE_SW_WRITE_OFTEN := 1 <<< 10
  DRV_FORMAT_XRGB8888 := fourcc_code 'X' 'R' '2' '4'
  DRV_FORMAT_ARGB8888 := fourcc_code 'A' 'R' '2' '4'
  DRV_FORMAT_XBGR8888 := fourcc_code 'X' 'B' '2' '4'
  DRV_FORMAT_ABGR8888 := fourcc_code 'A' 'B' '2' '4'
  DRV_FORMAT_XRGB1555 := fourcc_code 'X' 'R' '1' '5'
  DRV_FORMAT_ARGB1555 := fourcc_code 'A' 'R' '1' '5'
  DRV_FORMAT_RGB565 := fourcc_code 'R' 'G' '1' '6'
  DRV_FORMAT_UYVY := fourcc_code 'U' 'Y' 'V' 'Y'
  DRV_FORMAT_YUYV := fourcc_code 'Y' 'U' 'Y' 'V'
  DRV_FORMAT_R8 := fourcc_code 'R' '8' ' ' ' '
  DRV_FORMAT_GR88 := fourcc_code 'G' 'R' '8' '8'
  DRV_FORMAT_NV12 := fourcc_code 'N' 'V' '1' '2'
  DRV_FORMAT_FLEX_IMPLEMENTATION_DEFINED := fourcc_code '9' '9' '9' '8'
  DRV_FORMAT_FLEX_YCbCr_420_888 := fourcc_code '9' '9' '9' '9'
  formats_distinct := by decide

/-- The format codes of a header, in the order of `formats_distinct`. -/
def DrvHeader.formats (c : DrvHeader) : List Nat :=
  [c.DRV_FORMAT_XRGB8888, c.DRV_FORMAT_ARGB8888, c.DRV_FORMAT_XBGR8888,
   c.DRV_FORMAT_ABGR8888, c.DRV_FORMAT_XRGB1555, c.DRV_FORMAT_ARGB1555,
   c.DRV_FORMAT_RGB565, c.DRV_FORMAT_UYVY, c.DRV_FORMAT_YUYV, c.DRV_FORMAT_R8,
   c.DRV_FORMAT_GR88, c.DRV_FORMAT_NV12,
   c.DRV_FORMAT_FLEX_IMPLEMENTATION_DEFINED,
   c.DRV_FORMAT_FLEX_YCbCr_420_888]

/-! ## Format descriptor (helpers.c, not among the sources) -/

/-- Modelled from the spec: `drv_num_planes_from_format` of `helpers.c`, which
is not among the sources. 1 for the packed RGB and packed YUV formats, 2 for
NV12, 0 for an unknown format. -/
def drv_num_planes_from_format (c : DrvHeader) (format : Nat) : Nat :=
  if format = c.DRV_FORMAT_NV12 then 2
  else if format ∈ [c.DRV_FORMAT_UYVY, c.DRV_FORMAT_YUYV, c.DRV_FORMAT_R8,
      c.DRV_FORMAT_GR88, c.DRV_FORMAT_RGB565, c.DRV_FORMAT_XRGB8888,
      c.DRV_FORMAT_ARGB8888, c.DRV_FORMAT_XBGR8888, c.DRV_FORMAT_ABGR8888,
      c.DRV_FORMAT_XRGB1555, c.DRV_FORMAT_ARGB1555] then 1
  else 0

/-- Modelled from the spec: `drv_bpp_from_format` of `helpers.c`, which is not
among the sources: bytes per pixel of a plane. 4 for the 8888 formats, 2 for
RGB565, the 1555 formats, UYVY, YUYV and GR88, 1 for R8, 1 and 2 for the two
planes of NV12, and 0 for an unknown format or a plane out of range. -/
def drv_bpp_from_format (c : DrvHeader) (format plane : Nat) : Int :=
  if format = c.DRV_FORMAT_NV12 then
    (if plane = 0 then 1 else if plane = 1 then 2 else 0)
  else if plane ≠ 0 then 0
  else if format ∈ [c.DRV_FORMAT_XRGB8888, c.DRV_FORMAT_ARGB8888,
      c.DRV_FORMAT_XBGR8888, c.DRV_FORMAT_ABGR8888] then 4
  else if format ∈ [c.DRV_FORMAT_RGB565, c.DRV_FORMAT_XRGB1555,
      c.DRV_FORMAT_ARGB1555, c.DRV_FORMAT_UYVY, c.DRV_FORMAT_YUYV,
      c.DRV_FORMAT_GR88] then 2
  else if format = c.DRV_FORMAT_R8 then 1
  else 0

/-- Modelled from the spec: `drv_stride_from_format` of `helpers.c`, which is
not among the sources: `width × bpp(format, plane)` with no alignment added,
as an `int` whose conversion to `uint32_t` is `toU32`. The backends call it
with two arguments, `(format, width)`: that is plane 0. -/
def drv_stride_from_format (c : DrvHeader) (format width : Nat) : Int :=
  (width : Int) * drv_bpp_from_format c format 0

/-! ## The kernel as an oracle -/

/-- The ioctls the two `bo_create` functions issue, with the request fields
they fill in. -/
inductive Ioctl where
  | I915_GEM_CREATE (size : Nat)
  | I915_GEM_SET_TILING (handle tiling_mode stride : Nat)
  | GEM_CLOSE (handle : Nat)
  | ROCKCHIP_GEM_CREATE (size : Nat)
  deriving DecidableEq, Repr

/-- What one `drmIoctl` call yields: its return value, the value the call
stores in `errno` (`none`: it leaves `errno` as it was), and the handle a
create ioctl writes back. -/
structure IoctlReply where
  ret : Int
  errno : Option Int
  handle : Nat

/-- A kernel answers a request given the requests issued before it. -/
abbrev Kernel := List Ioctl → Ioctl → IoctlReply

/-- What a run observes outside the BO: the ioctls issued so far (oldest
first) and the current `errno`. -/
structure World where
  trace : List Ioctl
  errno : Int

/-- The call `drmIoctl(fd, request, arg)`: the request is recorded, `errno` is updated
as the kernel's reply says, and the reply is handed back. -/
def drmIoctl (k : Kernel) (w : World) (req : Ioctl) : World × IoctlReply :=
  let r := k w.trace req
  ({ trace := w.trace ++ [req], errno := r.errno.getD w.errno }, r)

/-- What a `fprintf(stderr, ...)` call does to `errno`, given the ioctls
issued so far: the value it stores there, or `none` when it leaves `errno` as
it was. -/
abbrev Stderr := List Ioctl → Option Int

/-- The call `fprintf(stderr, ...)`: no ioctl is issued, `errno` is updated
as the oracle says. -/
def fprintf (lg : Stderr) (w : World) : World :=
  { w with errno := (lg w.trace).getD w.errno }

/-! ## Buffer objects -/

/-- The fields of `struct bo` that `bo_create` reads or writes. The per-plane
arrays are functions of the plane index; `handles[p].u32`, `offsets`, `sizes`
and `strides` hold `uint32_t` values, `num_planes` is a `size_t`. -/
structure Bo where
  num_planes : Nat
  handles : Nat → Nat
  offsets : Nat → Nat
  sizes : Nat → Nat
  strides : Nat → Nat

/-- Array store `a[i] = v`. -/
def store (a : Nat → Nat) (i v : Nat) : Nat → Nat :=
  fun j => if j = i then v else a j

/-- How a call ends: it returns an `int`, or it faults. -/
inductive Outcome where
  | returned (ret : Int)
  | fault (f : Fault)
  deriving DecidableEq, Repr

/-- A finished (or faulted) call: how it ended, the BO and the world as it
left them. -/
structure Run where
  outcome : Outcome
  bo : Bo
  world : World

/-! ## i915 backend (src/i915.c) -/

/-- The loop `for (w = width_alignment; w < *width; w <<= 1) ;` of
`i915_align_dimensions`, started at `w`, with a budget of `fuel` tests of the
loop condition. `none`: the budget ran out with the loop still running. -/
def i915_align_dimensions_loop : Nat → Nat → Nat → Option Nat
  | 0, _, _ => none
  | fuel + 1, w, width =>
    if w < width then i915_align_dimensions_loop fuel ((w <<< 1) % UINT32) width
    else some w

/-- The `switch (tiling_mode)` of `i915_align_dimensions`: the pair
`(width_alignment, height_alignment)`. `bpp` is not zero here. -/
def i915_alignment (gen : Int) (tiling_mode : Nat) (bpp : Int) : Nat × Nat :=
  if tiling_mode = I915_TILING_X then (toU32 (Int.tdiv 512 bpp), 8)
  else if tiling_mode = I915_TILING_Y then
    (if gen = 3 then (toU32 (Int.tdiv 512 bpp), 8)
     else (toU32 (Int.tdiv 128 bpp), 32))
  else (toU32 (Int.tdiv 64 bpp), 4)

/-- The function `i915_align_dimensions(drv, tiling_mode, &width, &height, bpp)` with
`gen` the generation stored in `drv->priv`: the new `(*width, *height)`.
Every branch of the switch divides by `bpp`. -/
def i915_align_dimensions (fuel : Nat) (gen : Int) (tiling_mode width height : Nat)
    (bpp : Int) : Except Fault (Nat × Nat) :=
  if bpp = 0 then .error .divByZero
  else
    let width_alignment := (i915_alignment gen tiling_mode bpp).1
    let height_alignment := (i915_alignment gen tiling_mode bpp).2
    if gen > 3 then
      match ALIGN width width_alignment, ALIGN height height_alignment with
      | .ok w, .ok h => .ok (w, h)
      | .error f, _ => .error f
      | _, .error f => .error f
    else
      match i915_align_dimensions_loop fuel width_alignment width,
          ALIGN height height_alignment with
      | some w, .ok h => .ok (w, h)
      | none, _ => .error .outOfFuel
      | _, .error f => .error f

/-- The function `i915_verify_dimensions(drv, stride, height)`. -/
def i915_verify_dimensions (gen : Int) (stride _height : Nat) : Int :=
  if gen ≤ 3 ∧ stride > 8192 then 0 else 1

/-- The tiling choice at the head of `drv_i915_bo_create`
(`tiling_mode` starts as `I915_TILING_NONE`, then the `if`/`else if` chain on
`flags`). -/
def drv_i915_bo_create_tiling (c : DrvHeader) (flags : Nat) : Nat :=
  if flags &&& (c.DRV_BO_USE_CURSOR ||| c.DRV_BO_USE_LINEAR) ≠ 0 then I915_TILING_NONE
  else if flags &&& c.DRV_BO_USE_SCANOUT ≠ 0 then I915_TILING_X
  else if flags &&& c.DRV_BO_USE_RENDERING ≠ 0 then I915_TILING_Y
  else I915_TILING_NONE

/-- The `do { ... } while (ret == -1 && (errno == EINTR || errno == EAGAIN))`
loop of `drv_i915_bo_create` that issues the set-tiling ioctl, with a budget
of `fuel` iterations: the world after it and the last `ret`, or `none` when
the budget ran out with the loop still running. -/
def drv_i915_bo_create_set_tiling (k : Kernel) :
    Nat → World → Nat → Nat → Nat → World × Option Int
  | 0, w, _, _, _ => (w, none)
  | fuel + 1, w, handle, tiling_mode, stride =>
    let p := drmIoctl k w (.I915_GEM_SET_TILING handle tiling_mode stride)
    if p.2.ret = -1 ∧ (p.1.errno = EINTR ∨ p.1.errno = EAGAIN) then
      drv_i915_bo_create_set_tiling k fuel p.1 handle tiling_mode stride
    else (p.1, some p.2.ret)

/-- The function `drv_i915_bo_create(bo, width, height, format, flags)`, with `gen` the
generation stored in `bo->drv->priv`, run from world `w` against kernel `k`
and diagnostic stream `lg`. -/
def drv_i915_bo_create (c : DrvHeader) (k : Kernel) (lg : Stderr) (fuel : Nat) (gen : Int)
    (w : World) (bo : Bo) (width height format flags : Nat) : Run :=
  let bpp := drv_stride_from_format c format 1
  let tiling_mode := drv_i915_bo_create_tiling c flags
  match i915_align_dimensions fuel gen tiling_mode width height bpp with
  | .error f => ⟨.fault f, bo, w⟩
  | .ok (width, height) =>
    let bo := { bo with strides := store bo.strides 0 (width * toU32 bpp % UINT32) }
    if i915_verify_dimensions gen (bo.strides 0) height = 0 then
      ⟨.returned EINVAL, bo, w⟩
    else
      let size := width * height % UINT32 * toU32 bpp % UINT32
      let p := drmIoctl k w (.I915_GEM_CREATE size)
      if p.2.ret ≠ 0 then ⟨.returned p.2.ret, bo, fprintf lg p.1⟩
      else
        let bo := { bo with
          handles := store bo.handles 0 (p.2.handle % UINT32)
          sizes := store bo.sizes 0 size
          offsets := store bo.offsets 0 0 }
        match drv_i915_bo_create_set_tiling k fuel p.1 (bo.handles 0) tiling_mode
            (bo.strides 0) with
        | (w, none) => ⟨.fault .outOfFuel, bo, w⟩
        | (w, some ret) =>
          if ret = -1 then
            let q := drmIoctl k (fprintf lg w) (.GEM_CLOSE (bo.handles 0))
            ⟨.returned (-q.1.errno), bo, q.1⟩
          else ⟨.returned 0, bo, w⟩

/-- The array `gen3_ids` of `get_gen`: `uint16_t` values, promoted to `int`
when they are compared with `device_id`. -/
def gen3_ids : List Int :=
  [0x2582, 0x2592, 0x2772, 0x27A2, 0x27AE, 0x29C2, 0x29B2, 0x29D2, 0xA001, 0xA011]

/-- The loop `for (i = 0; i < ARRAY_SIZE(gen3_ids); i++) if (gen3_ids[i] ==
device_id) return 3;` of `get_gen` over the ids still to be tested, followed
by `return 4`. -/
def get_gen_loop (device_id : Int) : List Int → Int
  | [] => 4
  | id :: rest => if id = device_id then 3 else get_gen_loop device_id rest

/-- The function `get_gen(device_id)`. -/
def get_gen (device_id : Int) : Int := get_gen_loop device_id gen3_ids

/-- The function `drv_i915_init(drv)`: the return value and the generation it
stores in `drv->priv` (`none`: `priv` is not set). `malloc_ok` tells whether
`malloc` returned memory; `getparam_ret` and `device_id` are what the
chipset-id ioctl returned and wrote. -/
def drv_i915_init (malloc_ok : Bool) (getparam_ret device_id : Int) : Int × Option Int :=
  if malloc_ok = false then (-1, none)
  else if getparam_ret ≠ 0 then (-1, none)
  else (0, some (get_gen device_id))

/-- The initialiser of `backend_i915.format_list`. -/
def backend_i915_format_list (c : DrvHeader) : List (Nat × Nat) :=
  [(c.DRV_FORMAT_XRGB8888,
      c.DRV_BO_USE_SCANOUT ||| c.DRV_BO_USE_CURSOR ||| c.DRV_BO_USE_RENDERING),
   (c.DRV_FORMAT_XRGB8888,
      c.DRV_BO_USE_SCANOUT ||| c.DRV_BO_USE_CURSOR ||| c.DRV_BO_USE_LINEAR),
   (c.DRV_FORMAT_ARGB8888,
      c.DRV_BO_USE_SCANOUT ||| c.DRV_BO_USE_CURSOR ||| c.DRV_BO_USE_RENDERING),
   (c.DRV_FORMAT_ARGB8888,
      c.DRV_BO_USE_SCANOUT ||| c.DRV_BO_USE_CURSOR ||| c.DRV_BO_USE_LINEAR),
   (c.DRV_FORMAT_XBGR8888,
      c.DRV_BO_USE_SCANOUT ||| c.DRV_BO_USE_CURSOR ||| c.DRV_BO_USE_RENDERING),
   (c.DRV_FORMAT_ABGR8888,
      c.DRV_BO_USE_SCANOUT ||| c.DRV_BO_USE_CURSOR ||| c.DRV_BO_USE_RENDERING),
   (c.DRV_FORMAT_XRGB1555,
      c.DRV_BO_USE_SCANOUT ||| c.DRV_BO_USE_CURSOR ||| c.DRV_BO_USE_RENDERING),
   (c.DRV_FORMAT_ARGB1555,
      c.DRV_BO_USE_SCANOUT ||| c.DRV_BO_USE_CURSOR ||| c.DRV_BO_USE_RENDERING),
   (c.DRV_FORMAT_RGB565,
      c.DRV_BO_USE_SCANOUT ||| c.DRV_BO_USE_CURSOR ||| c.DRV_BO_USE_RENDERING),
   (c.DRV_FORMAT_UYVY, c.DRV_BO_USE_SCANOUT ||| c.DRV_BO_USE_RENDERING),
   (c.DRV_FORMAT_UYVY, c.DRV_BO_USE_SCANOUT ||| c.DRV_BO_USE_LINEAR),
   (c.DRV_FORMAT_YUYV, c.DRV_BO_USE_SCANOUT ||| c.DRV_BO_USE_RENDERING),
   (c.DRV_FORMAT_YUYV, c.DRV_BO_USE_SCANOUT ||| c.DRV_BO_USE_LINEAR),
   (c.DRV_FORMAT_R8, c.DRV_BO_USE_RENDERING ||| c.DRV_BO_USE_LINEAR),
   (c.DRV_FORMAT_GR88, c.DRV_BO_USE_RENDERING ||| c.DRV_BO_USE_LINEAR)]

/-! ## rockchip backend (src/rockchip.c) -/

/-- The loop `for (plane = 0; plane < bo->num_planes; plane++)
size += bo->sizes[plane];` of `rockchip_bo_create`, from `size = 0`: the plane
sizes below `num_planes`, added up in `size_t`, a type of `size_mod`
values. -/
def rockchip_request_size (size_mod : Nat) (bo : Bo) : Nat :=
  (List.range bo.num_planes).foldl (fun size plane => (size + bo.sizes plane) % size_mod) 0

/-- The tail of `rockchip_bo_create` after the `switch`: sum the plane sizes,
issue the gem-create ioctl, and on success store its handle in every plane
below `num_planes`. -/
def rockchip_bo_create_alloc (size_mod : Nat) (k : Kernel) (w : World) (bo : Bo) : Run :=
  let size := rockchip_request_size size_mod bo
  let p := drmIoctl k w (.ROCKCHIP_GEM_CREATE size)
  if p.2.ret ≠ 0 then ⟨.returned p.2.ret, bo, p.1⟩
  else
    let handles := (List.range bo.num_planes).foldl
      (fun handles plane => store handles plane (p.2.handle % UINT32)) bo.handles
    ⟨.returned p.2.ret, { bo with handles := handles }, p.1⟩

/-- The function `rockchip_bo_create(bo, width, height, format, flags)`, run from world `w`
against kernel `k`. `ndebug` tells whether the file is compiled with `NDEBUG`,
which removes `assert(0)` from the `default:` branch; `size_mod` is the number
of values of `size_t` on the platform. -/
def rockchip_bo_create (c : DrvHeader) (ndebug : Bool) (size_mod : Nat) (k : Kernel)
    (w : World) (bo : Bo) (width height format _flags : Nat) : Run :=
  if format = c.DRV_FORMAT_NV12 then
    match ALIGN width 4, ALIGN height 4 with
    | .ok width, .ok height =>
      let strides := store (store bo.strides 1 width) 0 width
      let sizes := store bo.sizes 0 (height * strides 0 % UINT32)
      let sizes := store sizes 1 (height * strides 1 % UINT32 / 2)
      let offsets := store bo.offsets 0 0
      let offsets := store offsets 1 (height * strides 0 % UINT32)
      rockchip_bo_create_alloc size_mod k w
        { bo with strides := strides, sizes := sizes, offsets := offsets }
    | .error f, _ => ⟨.fault f, bo, w⟩
    | _, .error f => ⟨.fault f, bo, w⟩
  else if format = c.DRV_FORMAT_XRGB8888 ∨ format = c.DRV_FORMAT_ARGB8888
      ∨ format = c.DRV_FORMAT_ABGR8888 then
    let strides := store bo.strides 0 (toU32 (drv_stride_from_format c format width))
    let sizes := store bo.sizes 0 (height * strides 0 % UINT32)
    let offsets := store bo.offsets 0 0
    rockchip_bo_create_alloc size_mod k w
      { bo with strides := strides, sizes := sizes, offsets := offsets }
  else if ndebug then ⟨.returned (-EINVAL), bo, w⟩
  else ⟨.fault .assertFail, bo, w⟩

/-- The function `rockchip_resolve_format(format)`. -/
def rockchip_resolve_format (c : DrvHeader) (format : Nat) : Nat :=
  if format = c.DRV_FORMAT_FLEX_IMPLEMENTATION_DEFINED then c.DRV_FORMAT_XBGR8888
  else if format = c.DRV_FORMAT_FLEX_YCbCr_420_888 then c.DRV_FORMAT_NV12
  else format

/-- The initialiser of `backend_rockchip.format_list`. -/
def backend_rockchip_format_list (c : DrvHeader) : List (Nat × Nat) :=
  [(c.DRV_FORMAT_XRGB8888,
      c.DRV_BO_USE_SCANOUT ||| c.DRV_BO_USE_CURSOR ||| c.DRV_BO_USE_RENDERING |||
      c.DRV_BO_USE_HW_TEXTURE ||| c.DRV_BO_USE_HW_RENDER ||| c.DRV_BO_USE_HW_2D |||
      c.DRV_BO_USE_SW_READ_RARELY ||| c.DRV_BO_USE_SW_WRITE_RARELY),
   (c.DRV_FORMAT_XRGB8888,
      c.DRV_BO_USE_SCANOUT ||| c.DRV_BO_USE_CURSOR ||| c.DRV_BO_USE_LINEAR |||
      c.DRV_BO_USE_SW_READ_OFTEN ||| c.DRV_BO_USE_SW_WRITE_OFTEN),
   (c.DRV_FORMAT_ARGB8888,
      c.DRV_BO_USE_SCANOUT ||| c.DRV_BO_USE_CURSOR ||| c.DRV_BO_USE_RENDERING |||
      c.DRV_BO_USE_HW_TEXTURE ||| c.DRV_BO_USE_HW_RENDER ||| c.DRV_BO_USE_HW_2D |||
      c.DRV_BO_USE_SW_READ_RARELY ||| c.DRV_BO_USE_SW_WRITE_RARELY),
   (c.DRV_FORMAT_ARGB8888,
      c.DRV_BO_USE_SCANOUT ||| c.DRV_BO_USE_CURSOR ||| c.DRV_BO_USE_LINEAR |||
      c.DRV_BO_USE_SW_READ_OFTEN ||| c.DRV_BO_USE_SW_WRITE_OFTEN),
   (c.DRV_FORMAT_ABGR8888,
      c.DRV_BO_USE_SCANOUT ||| c.DRV_BO_USE_CURSOR ||| c.DRV_BO_USE_RENDERING |||
      c.DRV_BO_USE_HW_TEXTURE ||| c.DRV_BO_USE_HW_RENDER ||| c.DRV_BO_USE_HW_2D |||
      c.DRV_BO_USE_SW_READ_RARELY ||| c.DRV_BO_USE_SW_WRITE_RARELY),
   (c.DRV_FORMAT_NV12,
      c.DRV_BO_USE_SCANOUT ||| c.DRV_BO_USE_RENDERING |||
      c.DRV_BO_USE_HW_TEXTURE ||| c.DRV_BO_USE_HW_RENDER |||
      c.DRV_BO_USE_HW_2D ||| c.DRV_BO_USE_SW_READ_RARELY |||
      c.DRV_BO_USE_SW_WRITE_RARELY),
   (c.DRV_FORMAT_NV12,
      c.DRV_BO_USE_SCANOUT ||| c.DRV_BO_USE_LINEAR |||
      c.DRV_BO_USE_SW_READ_OFTEN ||| c.DRV_BO_USE_SW_WRITE_OFTEN)]

/-! ## Kernels and initial states used in the examples -/

/-- A kernel on which every ioctl succeeds; create ioctls hand out handle 7. -/
def kernel_ok : Kernel := fun _ _ => ⟨0, none, 7⟩

/-- A diagnostic stream whose writes leave `errno` as it was. -/
def stderr_quiet : Stderr := fun _ => none

/-- A diagnostic stream whose writes set `errno` to `ENOTTY` (25), as a first
write to a stream that is not a terminal can. -/
def stderr_enotty : Stderr := fun _ => some 25

/-- A world in which no ioctl has been issued yet. -/
def world0 : World := ⟨[], 0⟩

/-- A zeroed BO with `num_planes` planes. -/
def bo0 (num_planes : Nat) : Bo :=
  ⟨num_planes, fun _ => 0, fun _ => 0, fun _ => 0, fun _ => 0⟩

/-- A kernel on which gem-create succeeds with handle 7, set-tiling fails
with `EINVAL`, and the close that follows fails too, with `EBADF` (9). -/
def kernel_close_fails : Kernel := fun _ req =>
  match req with
  | .I915_GEM_SET_TILING _ _ _ => ⟨-1, some EINVAL, 0⟩
  | .GEM_CLOSE _ => ⟨-1, some 9, 0⟩
  | _ => ⟨0, none, 7⟩

/-- A kernel on which gem-create succeeds with handle 7, the first two
set-tiling requests fail with `EINTR` and `EAGAIN`, the third fails with
`EINVAL`, and the close succeeds leaving `errno` as it was. -/
def kernel_retry_then_fail : Kernel := fun trace req =>
  match req with
  | .I915_GEM_SET_TILING _ _ _ =>
    if trace.length = 1 then ⟨-1, some EINTR, 0⟩
    else if trace.length = 2 then ⟨-1, some EAGAIN, 0⟩
    else ⟨-1, some EINVAL, 0⟩
  | _ => ⟨0, none, 7⟩

/-- A kernel on which every ioctl fails with return value -1 and `ENOMEM`
(12). -/
def kernel_fail : Kernel := fun _ _ => ⟨-1, some 12, 0⟩

/-! ## Specification-side definitions -/

/-- Following the spec's words ("Tiling selection (first match wins)"): none
if the cursor bit or the linear bit is set, else X if the scanout bit is set,
else Y if the rendering bit is set, else none. A bit is set in `flags` when
`flags &&& bit ≠ 0`. -/
def spec_tiling (c : DrvHeader) (flags : Nat) : Nat :=
  if flags &&& c.DRV_BO_USE_CURSOR ≠ 0 ∨ flags &&& c.DRV_BO_USE_LINEAR ≠ 0 then
    I915_TILING_NONE
  else if flags &&& c.DRV_BO_USE_SCANOUT ≠ 0 then I915_TILING_X
  else if flags &&& c.DRV_BO_USE_RENDERING ≠ 0 then I915_TILING_Y
  else I915_TILING_NONE

/-- The number `r` is the least multiple of `b` that is at least `a`. -/
def IsLeastMultiple (r b a : Nat) : Prop :=
  b ∣ r ∧ a ≤ r ∧ ∀ m, b ∣ m → a ≤ m → r ≤ m

/-- The value `a` rounded up to a multiple of `b` fits in 32 bits: some
multiple of `b` that is at least `a` is below 2^32. -/
def RoundsIn32 (b a : Nat) : Prop :=
  ∃ m, m < UINT32 ∧ b ∣ m ∧ a ≤ m

/-- Following the spec's words (alignment table, column "Gen ≥ 4"):
`(width-alignment, height-alignment)` in pixels. -/
def spec_alignment_gen4 (tiling_mode bpp : Nat) : Nat × Nat :=
  if tiling_mode = I915_TILING_X then (512 / bpp, 8)
  else if tiling_mode = I915_TILING_Y then (128 / bpp, 32)
  else (64 / bpp, 4)

/-- Following the spec's words (alignment table, column "Gen 3"):
`(width-alignment, height-alignment)` in pixels. -/
def spec_alignment_gen3 (tiling_mode bpp : Nat) : Nat × Nat :=
  if tiling_mode = I915_TILING_X then (512 / bpp, 8)
  else if tiling_mode = I915_TILING_Y then (512 / bpp, 8)
  else (64 / bpp, 4)

/-- Following the spec's words (capability tables, i915): XRGB8888 and
ARGB8888 each with {scanout|cursor|rendering} and separately with
{scanout|cursor|linear}; XBGR8888 and ABGR8888 with
{scanout|cursor|rendering}; XRGB1555 and ARGB1555 with
{scanout|cursor|rendering}; RGB565 with {scanout|cursor|rendering}; UYVY and
YUYV each with {scanout|rendering} and separately with {scanout|linear}; R8
and GR88 with {rendering|linear}. -/
def spec_i915_capabilities (c : DrvHeader) : List (Nat × Nat) :=
  ([c.DRV_FORMAT_XRGB8888, c.DRV_FORMAT_ARGB8888].flatMap fun f =>
    [(f, c.DRV_BO_USE_SCANOUT ||| c.DRV_BO_USE_CURSOR ||| c.DRV_BO_USE_RENDERING),
     (f, c.DRV_BO_USE_SCANOUT ||| c.DRV_BO_USE_CURSOR ||| c.DRV_BO_USE_LINEAR)]) ++
  ([c.DRV_FORMAT_XBGR8888, c.DRV_FORMAT_ABGR8888].map fun f =>
    (f, c.DRV_BO_USE_SCANOUT ||| c.DRV_BO_USE_CURSOR ||| c.DRV_BO_USE_RENDERING)) ++
  ([c.DRV_FORMAT_XRGB1555, c.DRV_FORMAT_ARGB1555].map fun f =>
    (f, c.DRV_BO_USE_SCANOUT ||| c.DRV_BO_USE_CURSOR ||| c.DRV_BO_USE_RENDERING)) ++
  [(c.DRV_FORMAT_RGB565,
    c.DRV_BO_USE_SCANOUT ||| c.DRV_BO_USE_CURSOR ||| c.DRV_BO_USE_RENDERING)] ++
  ([c.DRV_FORMAT_UYVY, c.DRV_FORMAT_YUYV].flatMap fun f =>
    [(f, c.DRV_BO_USE_SCANOUT ||| c.DRV_BO_USE_RENDERING),
     (f, c.DRV_BO_USE_SCANOUT ||| c.DRV_BO_USE_LINEAR)]) ++
  ([c.DRV_FORMAT_R8, c.DRV_FORMAT_GR88].map fun f =>
    (f, c.DRV_BO_USE_RENDERING ||| c.DRV_BO_USE_LINEAR))

/-- Following the spec's words (capability tables, Rockchip): XRGB8888,
ARGB8888, ABGR8888 each with {scanout|cursor|rendering|hw-texture|hw-render|
hw-2D|sw-read-rarely|sw-write-rarely} and XRGB8888/ARGB8888 additionally with
{scanout|cursor|linear|sw-read-often|sw-write-often}; NV12 with
{scanout|rendering|hw-texture|hw-render|hw-2D|sw-read-rarely|sw-write-rarely}
and with {scanout|linear|sw-read-often|sw-write-often}. -/
def spec_rockchip_capabilities (c : DrvHeader) : List (Nat × Nat) :=
  ([c.DRV_FORMAT_XRGB8888, c.DRV_FORMAT_ARGB8888, c.DRV_FORMAT_ABGR8888].map fun f =>
    (f, c.DRV_BO_USE_SCANOUT ||| c.DRV_BO_USE_CURSOR ||| c.DRV_BO_USE_RENDERING |||
      c.DRV_BO_USE_HW_TEXTURE ||| c.DRV_BO_USE_HW_RENDER ||| c.DRV_BO_USE_HW_2D |||
      c.DRV_BO_USE_SW_READ_RARELY ||| c.DRV_BO_USE_SW_WRITE_RARELY)) ++
  ([c.DRV_FORMAT_XRGB8888, c.DRV_FORMAT_ARGB8888].map fun f =>
    (f, c.DRV_BO_USE_SCANOUT ||| c.DRV_BO_USE_CURSOR ||| c.DRV_BO_USE_LINEAR |||
      c.DRV_BO_USE_SW_READ_OFTEN ||| c.DRV_BO_USE_SW_WRITE_OFTEN)) ++
  [(c.DRV_FORMAT_NV12,
      c.DRV_BO_USE_SCANOUT ||| c.DRV_BO_USE_RENDERING ||| c.DRV_BO_USE_HW_TEXTURE |||
      c.DRV_BO_USE_HW_RENDER ||| c.DRV_BO_USE_HW_2D ||| c.DRV_BO_USE_SW_READ_RARELY |||
      c.DRV_BO_USE_SW_WRITE_RARELY),
   (c.DRV_FORMAT_NV12,
      c.DRV_BO_USE_SCANOUT ||| c.DRV_BO_USE_LINEAR ||| c.DRV_BO_USE_SW_READ_OFTEN |||
      c.DRV_BO_USE_SW_WRITE_OFTEN)]

/-- The eleven usage bits of the header are pairwise disjoint masks. -/
def UsageBitsDisjoint (c : DrvHeader) : Prop :=
  List.Pairwise (fun a b => a &&& b = 0)
    [c.DRV_BO_USE_SCANOUT, c.DRV_BO_USE_CURSOR, c.DRV_BO_USE_RENDERING,
     c.DRV_BO_USE_LINEAR, c.DRV_BO_USE_HW_TEXTURE, c.DRV_BO_USE_HW_RENDER,
     c.DRV_BO_USE_HW_2D, c.DRV_BO_USE_SW_READ_RARELY, c.DRV_BO_USE_SW_READ_OFTEN,
     c.DRV_BO_USE_SW_WRITE_RARELY, c.DRV_BO_USE_SW_WRITE_OFTEN]

/-- Following the spec's words (dispatcher): an entry covers a request when
its format matches and its mask is a superset of the requested flags. -/
def Covers (entry : Nat × Nat) (format flags : Nat) : Prop :=
  entry.1 = format ∧ flags &&& entry.2 = flags

/-! ## Auxiliary lemmas -/

theorem lor_eq_zero_iff (a b : Nat) : a ||| b = 0 ↔ a = 0 ∧ b = 0 := by
  constructor
  · intro h
    have key : ∀ i, (a.testBit i || b.testBit i) = false := by
      intro i
      rw [← Nat.testBit_or, h]
      simp
    constructor
    · apply Nat.eq_of_testBit_eq
      intro i
      have := key i
      simp at this ⊢
      exact this.1
    · apply Nat.eq_of_testBit_eq
      intro i
      have := key i
      simp at this ⊢
      exact this.2
  · rintro ⟨rfl, rfl⟩
    simp

theorem tiling_eq_spec (c : DrvHeader) (flags : Nat) :
    drv_i915_bo_create_tiling c flags = spec_tiling c flags := by
  unfold drv_i915_bo_create_tiling spec_tiling
  have h : (flags &&& (c.DRV_BO_USE_CURSOR ||| c.DRV_BO_USE_LINEAR) ≠ 0) ↔
      (flags &&& c.DRV_BO_USE_CURSOR ≠ 0 ∨ flags &&& c.DRV_BO_USE_LINEAR ≠ 0) := by
    rw [Nat.and_or_distrib_left, Ne, lor_eq_zero_iff]
    tauto
  simp only [h]

/-- The set-tiling loop only appends set-tiling requests, all with the
handle, tiling mode and stride it was given; when it ends with a return value
it has issued at least one. -/
theorem set_tiling_trace (k : Kernel) (h t s : Nat) :
    ∀ (fuel : Nat) (w : World), ∃ n, n ≤ fuel ∧
      (drv_i915_bo_create_set_tiling k fuel w h t s).1.trace
        = w.trace ++ List.replicate n (Ioctl.I915_GEM_SET_TILING h t s) ∧
      ((drv_i915_bo_create_set_tiling k fuel w h t s).2 ≠ none → 0 < n) := by
  intro fuel
  induction fuel with
  | zero =>
    intro w
    exact ⟨0, le_refl _, by simp [drv_i915_bo_create_set_tiling], by
      simp [drv_i915_bo_create_set_tiling]⟩
  | succ fuel ih =>
    intro w
    unfold drv_i915_bo_create_set_tiling
    simp only
    split
    · obtain ⟨n, hn, htr, _⟩ := ih (drmIoctl k w (.I915_GEM_SET_TILING h t s)).1
      refine ⟨n + 1, by omega, ?_, by intro _; omega⟩
      rw [htr]
      simp [drmIoctl, List.replicate_succ]
    · exact ⟨1, by omega, by simp [drmIoctl], by intro _; omega⟩

@[simp] theorem store_same (a : Nat → Nat) (i v : Nat) : store a i v i = v := by
  simp [store]

theorem store_other (a : Nat → Nat) (i v j : Nat) (h : j ≠ i) : store a i v j = a j := by
  simp [store, h]

theorem verify_eq_zero_iff (gen : Int) (stride height : Nat) :
    i915_verify_dimensions gen stride height = 0 ↔ gen ≤ 3 ∧ stride > 8192 := by
  unfold i915_verify_dimensions
  split_ifs with h
  · simp [h]
  · simp [h]

/-- Every way a call of `drv_i915_bo_create` can go once the dimensions have
been aligned to `(W, H)`: rejected for its stride, failed gem-create, or
gem-create followed by set-tiling requests (and a close when the last of
them failed). -/
theorem bo_create_cases (c : DrvHeader) (k : Kernel) (lg : Stderr) (fuel : Nat) (gen : Int) (w : World)
    (bo : Bo) (width height format flags W H : Nat)
    (hal : i915_align_dimensions fuel gen (spec_tiling c flags) width height
      (drv_stride_from_format c format 1) = .ok (W, H)) :
    let stride := W * toU32 (drv_stride_from_format c format 1) % UINT32
    let size := W * H % UINT32 * toU32 (drv_stride_from_format c format 1) % UINT32
    let rep := k w.trace (.I915_GEM_CREATE size)
    let st := Ioctl.I915_GEM_SET_TILING (rep.handle % UINT32) (spec_tiling c flags) stride
    let r := drv_i915_bo_create c k lg fuel gen w bo width height format flags
    r.bo.num_planes = bo.num_planes ∧ r.bo.strides = store bo.strides 0 stride ∧
    ((gen ≤ 3 ∧ stride > 8192 ∧ r.outcome = .returned EINVAL ∧ r.world = w ∧
        r.bo.handles = bo.handles ∧ r.bo.sizes = bo.sizes ∧ r.bo.offsets = bo.offsets) ∨
     (¬ (gen ≤ 3 ∧ stride > 8192) ∧ rep.ret ≠ 0 ∧ r.outcome = .returned rep.ret ∧
        r.world.trace = w.trace ++ [.I915_GEM_CREATE size] ∧
        r.bo.handles = bo.handles ∧ r.bo.sizes = bo.sizes ∧ r.bo.offsets = bo.offsets) ∨
     (¬ (gen ≤ 3 ∧ stride > 8192) ∧ rep.ret = 0 ∧
        r.bo.handles = store bo.handles 0 (rep.handle % UINT32) ∧
        r.bo.sizes = store bo.sizes 0 size ∧ r.bo.offsets = store bo.offsets 0 0 ∧
        ∃ n, n ≤ fuel ∧
          ((r.outcome = .fault .outOfFuel ∧
              r.world.trace = w.trace ++ .I915_GEM_CREATE size :: List.replicate n st) ∨
           (0 < n ∧ r.outcome = .returned 0 ∧
              r.world.trace = w.trace ++ .I915_GEM_CREATE size :: List.replicate n st) ∨
           (0 < n ∧ r.outcome = .returned (- r.world.errno) ∧
              r.world.trace = w.trace ++ .I915_GEM_CREATE size ::
                (List.replicate n st ++ [.GEM_CLOSE (rep.handle % UINT32)]))))) := by
  intro stride size rep st r
  have hr : r = drv_i915_bo_create c k lg fuel gen w bo width height format flags := rfl
  unfold drv_i915_bo_create at hr
  simp only [tiling_eq_spec, hal, store_same, verify_eq_zero_iff] at hr
  by_cases hv : gen ≤ 3 ∧ W * toU32 (drv_stride_from_format c format 1) % UINT32 > 8192
  · rw [if_pos hv] at hr
    rw [hr]
    exact ⟨rfl, rfl, Or.inl ⟨hv.1, hv.2, rfl, rfl, rfl, rfl, rfl⟩⟩
  · rw [if_neg hv] at hr
    by_cases hc : rep.ret = 0
    · have hc2 : ¬ (drmIoctl k w (Ioctl.I915_GEM_CREATE
          (W * H % UINT32 * toU32 (drv_stride_from_format c format 1) % UINT32))).2.ret ≠ 0 :=
        not_not.mpr hc
      rw [if_neg hc2] at hr
      obtain ⟨n, hn, htr, hpos⟩ := set_tiling_trace k (rep.handle % UINT32)
        (spec_tiling c flags) stride fuel (drmIoctl k w (Ioctl.I915_GEM_CREATE size)).1
      have hres : ∀ res : World × Option Int,
          drv_i915_bo_create_set_tiling k fuel (drmIoctl k w (Ioctl.I915_GEM_CREATE size)).1
            (rep.handle % UINT32) (spec_tiling c flags) stride = res →
          res.1.trace = w.trace ++ Ioctl.I915_GEM_CREATE size :: List.replicate n st ∧
          (res.2 ≠ none → 0 < n) := by
        intro res hres
        rw [hres] at htr hpos
        refine ⟨?_, hpos⟩
        rw [htr]
        simp only [drmIoctl, List.append_assoc, List.singleton_append]
      revert hr
      generalize hg : drv_i915_bo_create_set_tiling k fuel
        (drmIoctl k w (Ioctl.I915_GEM_CREATE
          (W * H % UINT32 * toU32 (drv_stride_from_format c format 1) % UINT32))).1
        ((drmIoctl k w (Ioctl.I915_GEM_CREATE
          (W * H % UINT32 * toU32 (drv_stride_from_format c format 1) % UINT32))).2.handle
            % UINT32)
        (spec_tiling c flags)
        (W * toU32 (drv_stride_from_format c format 1) % UINT32) = res
      intro hr
      obtain ⟨h1, h2⟩ := hres res hg
      obtain ⟨w1, _ | ret⟩ := res
      · simp only at hr
        rw [hr]
        exact ⟨rfl, rfl, Or.inr (Or.inr ⟨hv, hc, rfl, rfl, rfl, n, hn, Or.inl ⟨rfl, h1⟩⟩)⟩
      · simp only at hr
        have hn0 : 0 < n := h2 (by simp)
        by_cases hret : ret = -1
        · rw [if_pos hret] at hr
          rw [hr]
          refine ⟨rfl, rfl, Or.inr (Or.inr ⟨hv, hc, rfl, rfl, rfl, n, hn,
            Or.inr (Or.inr ⟨hn0, rfl, ?_⟩)⟩)⟩
          show (drmIoctl k w1 _).1.trace = _
          simp only [drmIoctl]
          simp only at h1
          rw [h1]
          simp only [List.append_assoc, List.cons_append]
        · rw [if_neg hret] at hr
          rw [hr]
          exact ⟨rfl, rfl, Or.inr (Or.inr ⟨hv, hc, rfl, rfl, rfl, n, hn,
            Or.inr (Or.inl ⟨hn0, rfl, h1⟩)⟩)⟩
    · have hc2 : (drmIoctl k w (Ioctl.I915_GEM_CREATE
          (W * H % UINT32 * toU32 (drv_stride_from_format c format 1) % UINT32))).2.ret ≠ 0 := hc
      rw [if_pos hc2] at hr
      rw [hr]
      exact ⟨rfl, rfl, Or.inr (Or.inl ⟨hv, hc, rfl, rfl, rfl, rfl, rfl⟩)⟩

/-- A fault while aligning the dimensions ends `drv_i915_bo_create` at once. -/
theorem bo_create_fault (c : DrvHeader) (k : Kernel) (lg : Stderr) (fuel : Nat) (gen : Int) (w : World)
    (bo : Bo) (width height format flags : Nat) (f : Fault)
    (hal : i915_align_dimensions fuel gen (spec_tiling c flags) width height
      (drv_stride_from_format c format 1) = .error f) :
    drv_i915_bo_create c k lg fuel gen w bo width height format flags = ⟨.fault f, bo, w⟩ := by
  unfold drv_i915_bo_create
  simp only [tiling_eq_spec, hal]

/-- The macro `ALIGN` returns the least multiple of `b` that is at least `a` whenever
`b` divides 2^32 and that multiple fits in 32 bits. -/
theorem ALIGN_least (a b : Nat) (hb : 0 < b) (hdiv : b ∣ UINT32) (hfit : RoundsIn32 b a) :
    ∃ r, ALIGN a b = .ok r ∧ IsLeastMultiple r b a := by
  obtain ⟨m, hm, ⟨j, rfl⟩, ham⟩ := hfit
  obtain ⟨K, hK⟩ := hdiv
  have hjK : j < K := by
    have : b * j < b * K := by rw [← hK]; exact hm
    exact Nat.lt_of_mul_lt_mul_left this
  have hbig : b * j + b ≤ UINT32 := by
    have : b * (j + 1) ≤ b * K := Nat.mul_le_mul_left b hjK
    rw [hK]
    calc b * j + b = b * (j + 1) := by ring
      _ ≤ b * K := this
  have h1 : b * ((a + b - 1) / b) ≤ a + b - 1 := Nat.mul_div_le _ _
  have h2 : a + b - 1 < b * ((a + b - 1) / b + 1) := Nat.lt_mul_div_succ _ hb
  have h2' : a + b - 1 < b * ((a + b - 1) / b) + b := by
    calc a + b - 1 < b * ((a + b - 1) / b + 1) := h2
      _ = b * ((a + b - 1) / b) + b := by ring
  have hmin : ∀ j', a ≤ b * j' → b * ((a + b - 1) / b) ≤ b * j' := by
    intro j' hj'
    have : b * ((a + b - 1) / b) < b * (j' + 1) := by
      calc b * ((a + b - 1) / b) ≤ a + b - 1 := h1
        _ < b * j' + b := by omega
        _ = b * (j' + 1) := by ring
    have := Nat.lt_of_mul_lt_mul_left this
    exact Nat.mul_le_mul_left b (by omega)
  have hlt : a + b - 1 < UINT32 := by omega
  have hr : (a + b - 1) % UINT32 / b * b % UINT32 = b * ((a + b - 1) / b) := by
    rw [Nat.mod_eq_of_lt hlt, Nat.mul_comm]
    exact Nat.mod_eq_of_lt (by omega)
  refine ⟨b * ((a + b - 1) / b), ?_, ⟨_, rfl⟩, by omega, ?_⟩
  · unfold ALIGN
    rw [if_neg (by omega), hr]
  · rintro m' ⟨j', rfl⟩ hj'
    exact hmin j' hj'

/-- For generation ≥ 4 and bpp 1, 2 or 4 the switch of `i915_align_dimensions`
yields the alignments of the spec's table; they are positive and divide
2^32. -/
theorem alignment_gen4 (gen : Int) (hgen : 4 ≤ gen) (tiling_mode bpp : Nat)
    (hbpp : bpp = 1 ∨ bpp = 2 ∨ bpp = 4) :
    i915_alignment gen tiling_mode (bpp : Int) = spec_alignment_gen4 tiling_mode bpp ∧
    0 < (spec_alignment_gen4 tiling_mode bpp).1 ∧
    (spec_alignment_gen4 tiling_mode bpp).1 ∣ UINT32 ∧
    0 < (spec_alignment_gen4 tiling_mode bpp).2 ∧
    (spec_alignment_gen4 tiling_mode bpp).2 ∣ UINT32 := by
  have hg3 : gen ≠ 3 := by omega
  unfold i915_alignment spec_alignment_gen4
  rcases hbpp with rfl | rfl | rfl <;> split_ifs <;>
    exact ⟨rfl, by decide, by decide, by decide, by decide⟩

/-- For generation 3 and bpp 1, 2 or 4 the switch of `i915_align_dimensions`
yields the alignments of the spec's table; the width alignment is a power of
two, at most 2^9, and the height alignment is positive and divides 2^32. -/
theorem alignment_gen3 (tiling_mode bpp : Nat) (hbpp : bpp = 1 ∨ bpp = 2 ∨ bpp = 4) :
    i915_alignment 3 tiling_mode (bpp : Int) = spec_alignment_gen3 tiling_mode bpp ∧
    (∃ j, j ≤ 9 ∧ (spec_alignment_gen3 tiling_mode bpp).1 = 2 ^ j) ∧
    0 < (spec_alignment_gen3 tiling_mode bpp).2 ∧
    (spec_alignment_gen3 tiling_mode bpp).2 ∣ UINT32 := by
  unfold i915_alignment spec_alignment_gen3
  rcases hbpp with rfl | rfl | rfl <;> split_ifs <;>
    first
    | contradiction
    | exact ⟨rfl, ⟨9, by decide, by decide⟩, by decide, by decide⟩
    | exact ⟨rfl, ⟨8, by decide, by decide⟩, by decide, by decide⟩
    | exact ⟨rfl, ⟨7, by decide, by decide⟩, by decide, by decide⟩
    | exact ⟨rfl, ⟨6, by decide, by decide⟩, by decide, by decide⟩
    | exact ⟨rfl, ⟨5, by decide, by decide⟩, by decide, by decide⟩
    | exact ⟨rfl, ⟨4, by decide, by decide⟩, by decide, by decide⟩

/-- The width loop, started at a power of two `2^j` with `j ≤ 31`, on a
requested width of at most 2^31 and with enough budget, stops at a power of
two `2^k ≥ width` without wrapping; it has doubled only while below `width`. -/
theorem loop_pow2 (width : Nat) (hw : width ≤ 2 ^ 31) :
    ∀ (fuel j : Nat), j ≤ 31 → 31 - j < fuel →
      ∃ k, j ≤ k ∧ k ≤ 31 ∧ i915_align_dimensions_loop fuel (2 ^ j) width = some (2 ^ k) ∧
        width ≤ 2 ^ k ∧ (k = j ∨ 2 ^ (k - 1) < width) := by
  intro fuel
  induction fuel with
  | zero => intro j _ h; omega
  | succ fuel ih =>
    intro j hj hf
    unfold i915_align_dimensions_loop
    by_cases hlt : 2 ^ j < width
    · have hj31 : j < 31 := by
        by_contra hcon
        have : j = 31 := by omega
        subst this
        omega
      have hstep : (2 ^ j <<< 1) % UINT32 = 2 ^ (j + 1) := by
        rw [Nat.shiftLeft_eq, pow_one, ← pow_succ]
        apply Nat.mod_eq_of_lt
        calc 2 ^ (j + 1) ≤ 2 ^ 31 := Nat.pow_le_pow_right (by decide) (by omega)
          _ < UINT32 := by decide
      obtain ⟨k, hk1, hk2, hk3, hk4, hk5⟩ := ih (j + 1) (by omega) (by omega)
      refine ⟨k, by omega, hk2, ?_, hk4, Or.inr ?_⟩
      · rw [if_pos hlt, hstep]
        exact hk3
      · rcases hk5 with rfl | h
        · simpa using hlt
        · exact h
    · exact ⟨j, le_refl _, hj, by rw [if_neg hlt], by omega, Or.inl rfl⟩

/-! ## C1: tiling selection -/

/-- C1. For every usage-flags bitmask, `drv_i915_bo_create` chooses the tiling
mode by first match (none if the cursor or the linear bit is set, else X if
the scanout bit is set, else Y if the rendering bit is set, else none). That
mode is the one the dimensions are aligned with (the stride stored is the one
of the width aligned under that mode, and a fault of that alignment ends the
call), every set-tiling ioctl the call issues carries that mode, and a call
that returns 0 has issued one. -/
theorem C1_tiling_first_match (c : DrvHeader) (k : Kernel) (lg : Stderr) (fuel : Nat) (gen : Int)
    (w : World) (bo : Bo) (width height format flags : Nat) :
    drv_i915_bo_create_tiling c flags = spec_tiling c flags ∧
    (∀ W H, i915_align_dimensions fuel gen (spec_tiling c flags) width height
        (drv_stride_from_format c format 1) = .ok (W, H) →
      (drv_i915_bo_create c k lg fuel gen w bo width height format flags).bo.strides 0
        = W * toU32 (drv_stride_from_format c format 1) % UINT32) ∧
    (∀ f, i915_align_dimensions fuel gen (spec_tiling c flags) width height
        (drv_stride_from_format c format 1) = .error f →
      (drv_i915_bo_create c k lg fuel gen w bo width height format flags).outcome
        = .fault f) ∧
    (∃ l, (drv_i915_bo_create c k lg fuel gen w bo width height format flags).world.trace
        = w.trace ++ l ∧
      (∀ h tm s, Ioctl.I915_GEM_SET_TILING h tm s ∈ l → tm = spec_tiling c flags) ∧
      ((drv_i915_bo_create c k lg fuel gen w bo width height format flags).outcome
          = .returned 0 →
        ∃ h s, Ioctl.I915_GEM_SET_TILING h (spec_tiling c flags) s ∈ l)) := by
  refine ⟨tiling_eq_spec c flags, ?_, ?_, ?_⟩
  · intro W H hal
    have h := (bo_create_cases c k lg fuel gen w bo width height format flags W H hal).2.1
    simp only at h
    rw [h, store_same]
  · intro f hal
    rw [bo_create_fault c k lg fuel gen w bo width height format flags f hal]
  · rcases hal : i915_align_dimensions fuel gen (spec_tiling c flags) width height
        (drv_stride_from_format c format 1) with f | ⟨W, H⟩
    · rw [bo_create_fault c k lg fuel gen w bo width height format flags f hal]
      exact ⟨[], by simp, by simp, by simp⟩
    · have h := (bo_create_cases c k lg fuel gen w bo width height format flags W H hal).2.2
      simp only at h
      rcases h with h | h | h
      · obtain ⟨-, -, ho, hw, -⟩ := h
        refine ⟨[], by rw [hw]; simp, by simp, ?_⟩
        rw [ho]
        simp [EINVAL]
      · obtain ⟨-, hne, ho, hw, -⟩ := h
        refine ⟨_, hw, by simp, ?_⟩
        rw [ho]
        intro h0
        simp only [Outcome.returned.injEq] at h0
        exact absurd h0 hne
      · obtain ⟨-, -, -, -, -, n, -, h⟩ := h
        rcases h with ⟨ho, hw⟩ | ⟨hn, -, hw⟩ | ⟨hn, -, hw⟩
        · refine ⟨_, hw, ?_, ?_⟩
          · intro h tm s hm
            simp at hm
            exact hm.2.2.1
          · rw [ho]
            intro h0
            cases h0
        · refine ⟨_, hw, ?_, ?_⟩
          · intro h tm s hm
            simp at hm
            exact hm.2.2.1
          · intro _
            exact ⟨_, _, by
              simp only [List.mem_cons, List.mem_replicate]
              exact Or.inr ⟨by omega, rfl⟩⟩
        · refine ⟨_, hw, ?_, ?_⟩
          · intro h tm s hm
            simp at hm
            exact hm.2.2.1
          · intro _
            exact ⟨_, _, by
              simp only [List.mem_cons, List.mem_append, List.mem_replicate]
              exact Or.inr (Or.inl ⟨by omega, rfl⟩)⟩

/-- Concrete instance of C1: with the scanout bit alone the mode is X, and
the one set-tiling request of a 1920x1080 XRGB8888 create carries it. -/
theorem C1_tiling_first_match_witness :
    drv_i915_bo_create_tiling drv_h drv_h.DRV_BO_USE_SCANOUT = I915_TILING_X ∧
    drv_i915_bo_create_tiling drv_h
      (drv_h.DRV_BO_USE_SCANOUT ||| drv_h.DRV_BO_USE_CURSOR) = I915_TILING_NONE ∧
    drv_i915_bo_create_tiling drv_h drv_h.DRV_BO_USE_RENDERING = I915_TILING_Y ∧
    (drv_i915_bo_create drv_h kernel_ok stderr_quiet 1 4 world0 (bo0 1) 1920 1080
      drv_h.DRV_FORMAT_XRGB8888 drv_h.DRV_BO_USE_SCANOUT).world.trace
      = [.I915_GEM_CREATE 8294400, .I915_GEM_SET_TILING 7 I915_TILING_X 7680] :=
  ⟨(C1_tiling_first_match drv_h kernel_ok stderr_quiet 1 4 world0 (bo0 1) 1920 1080
      drv_h.DRV_FORMAT_XRGB8888 drv_h.DRV_BO_USE_SCANOUT).1.trans (by decide),
    by decide, by decide, by decide⟩

/-! ## C2: alignment on generation ≥ 4 -/

/-- C2. For generation ≥ 4, every bpp in {1, 2, 4}, every tiling mode and
every width and height whose rounded value fits in 32 bits,
`i915_align_dimensions` returns the least multiple of the width-alignment that
is ≥ width and the least multiple of the height-alignment that is ≥ height,
where the alignments are (64/bpp, 4) for no tiling, (512/bpp, 8) for X tiling
and (128/bpp, 32) for Y tiling. -/
theorem C2_align_gen4 (fuel : Nat) (gen : Int) (tiling_mode width height bpp : Nat)
    (hgen : 4 ≤ gen) (hbpp : bpp = 1 ∨ bpp = 2 ∨ bpp = 4)
    (hw : RoundsIn32 (spec_alignment_gen4 tiling_mode bpp).1 width)
    (hh : RoundsIn32 (spec_alignment_gen4 tiling_mode bpp).2 height) :
    (spec_alignment_gen4 I915_TILING_NONE bpp = (64 / bpp, 4) ∧
     spec_alignment_gen4 I915_TILING_X bpp = (512 / bpp, 8) ∧
     spec_alignment_gen4 I915_TILING_Y bpp = (128 / bpp, 32)) ∧
    ∃ W H, i915_align_dimensions fuel gen tiling_mode width height bpp = .ok (W, H) ∧
      IsLeastMultiple W (spec_alignment_gen4 tiling_mode bpp).1 width ∧
      IsLeastMultiple H (spec_alignment_gen4 tiling_mode bpp).2 height := by
  refine ⟨⟨rfl, rfl, rfl⟩, ?_⟩
  obtain ⟨hal, hw0, hwd, hh0, hhd⟩ := alignment_gen4 gen hgen tiling_mode bpp hbpp
  obtain ⟨W, hW, hWl⟩ := ALIGN_least width _ hw0 hwd hw
  obtain ⟨H, hH, hHl⟩ := ALIGN_least height _ hh0 hhd hh
  refine ⟨W, H, ?_, hWl, hHl⟩
  have hb0 : (bpp : Int) ≠ 0 := by omega
  unfold i915_align_dimensions
  rw [if_neg hb0]
  simp only [hal]
  rw [if_pos (by omega), hW, hH]

/-- Concrete instance of C2: XRGB8888 (bpp 4), Y tiling, generation 4: 1x1
becomes 32x32. -/
theorem C2_align_gen4_witness :
    i915_align_dimensions 0 4 I915_TILING_Y 1 1 4 = .ok (32, 32) ∧
    ∃ W H, i915_align_dimensions 0 4 I915_TILING_Y 1 1 ((4 : Nat) : Int) = .ok (W, H) ∧
      IsLeastMultiple W (spec_alignment_gen4 I915_TILING_Y 4).1 1 ∧
      IsLeastMultiple H (spec_alignment_gen4 I915_TILING_Y 4).2 1 :=
  ⟨rfl, (C2_align_gen4 0 4 I915_TILING_Y 1 1 4 (by decide) (by decide)
    ⟨32, by decide, by decide, by decide⟩ ⟨32, by decide, by decide, by decide⟩).2⟩

/-! ## C3: alignment on generation 3 -/

/-- C3, as stated, fails: it promises, for every height, the least multiple of
the height-alignment that is ≥ height. For height 2^32 - 1 (generation 3, no
tiling, bpp 4, width 1) the code returns height 0, which is not ≥ the
requested height; no 32-bit value could be. -/
theorem C3_counterexample :
    i915_align_dimensions 33 3 I915_TILING_NONE 1 4294967295 4 = .ok (16, 0) ∧
    ¬ ∃ W H, i915_align_dimensions 33 3 I915_TILING_NONE 1 4294967295 4 = .ok (W, H) ∧
      IsLeastMultiple H (spec_alignment_gen3 I915_TILING_NONE 4).2 4294967295 := by
  refine ⟨rfl, ?_⟩
  rintro ⟨W, H, hal, -, hle, -⟩
  have h : i915_align_dimensions 33 3 I915_TILING_NONE 1 4294967295 4 = .ok (16, 0) := rfl
  rw [h] at hal
  injection hal with hal
  injection hal with _ hH
  omega

/-- C3, amended. For generation 3, every bpp in {1, 2, 4}, every tiling mode,
every width ≤ 2^31 and every height whose rounded value fits in 32 bits,
`i915_align_dimensions` (given a loop budget of at least 33) returns as width
the smallest power of two that is ≥ the width-alignment and ≥ the requested
width (width-alignment 64/bpp for no tiling, 512/bpp for X and for Y tiling),
and as height the least multiple of the height-alignment (4 for none, 8 for X
and Y) that is ≥ height. -/
theorem C3_align_gen3 (fuel tiling_mode width height bpp : Nat) (hfuel : 33 ≤ fuel)
    (hbpp : bpp = 1 ∨ bpp = 2 ∨ bpp = 4) (hwidth : width ≤ 2 ^ 31)
    (hh : RoundsIn32 (spec_alignment_gen3 tiling_mode bpp).2 height) :
    (spec_alignment_gen3 I915_TILING_NONE bpp = (64 / bpp, 4) ∧
     spec_alignment_gen3 I915_TILING_X bpp = (512 / bpp, 8) ∧
     spec_alignment_gen3 I915_TILING_Y bpp = (512 / bpp, 8)) ∧
    ∃ W H, i915_align_dimensions fuel 3 tiling_mode width height bpp = .ok (W, H) ∧
      (∃ k, W = 2 ^ k) ∧
      (spec_alignment_gen3 tiling_mode bpp).1 ≤ W ∧ width ≤ W ∧
      (∀ m, (spec_alignment_gen3 tiling_mode bpp).1 ≤ 2 ^ m → width ≤ 2 ^ m → W ≤ 2 ^ m) ∧
      IsLeastMultiple H (spec_alignment_gen3 tiling_mode bpp).2 height := by
  refine ⟨⟨rfl, rfl, rfl⟩, ?_⟩
  obtain ⟨hal, ⟨j, hj, hwa⟩, hh0, hhd⟩ := alignment_gen3 tiling_mode bpp hbpp
  obtain ⟨H, hH, hHl⟩ := ALIGN_least height _ hh0 hhd hh
  obtain ⟨k, hk1, hk2, hk3, hk4, hk5⟩ := loop_pow2 width hwidth fuel j (by omega) (by omega)
  refine ⟨2 ^ k, H, ?_, ⟨k, rfl⟩, ?_, hk4, ?_, hHl⟩
  · have hb0 : (bpp : Int) ≠ 0 := by omega
    unfold i915_align_dimensions
    rw [if_neg hb0]
    simp only [hal]
    rw [if_neg (by decide), hwa, hk3, hH]
  · rw [hwa]
    exact Nat.pow_le_pow_right (by decide) hk1
  · intro m hm1 hm2
    rw [hwa] at hm1
    rcases hk5 with rfl | h
    · exact hm1
    · have hlt : 2 ^ (k - 1) < 2 ^ m := lt_of_lt_of_le h hm2
      have : k - 1 < m := (Nat.pow_lt_pow_iff_right (by decide)).mp hlt
      exact Nat.pow_le_pow_right (by decide) (by omega)

/-- Concrete instances of C3 (amended): XRGB8888 (bpp 4), generation 3: no
tiling, 1x1 becomes 16x4; Y tiling, width 100 becomes width 128. -/
theorem C3_align_gen3_witness :
    i915_align_dimensions 33 3 I915_TILING_NONE 1 1 4 = .ok (16, 4) ∧
    i915_align_dimensions 33 3 I915_TILING_Y 100 1 4 = .ok (128, 8) ∧
    ∃ W H, i915_align_dimensions 33 3 I915_TILING_Y 100 1 ((4 : Nat) : Int) = .ok (W, H) ∧
      (∃ k, W = 2 ^ k) ∧
      (spec_alignment_gen3 I915_TILING_Y 4).1 ≤ W ∧ 100 ≤ W ∧
      (∀ m, (spec_alignment_gen3 I915_TILING_Y 4).1 ≤ 2 ^ m → 100 ≤ 2 ^ m → W ≤ 2 ^ m) ∧
      IsLeastMultiple H (spec_alignment_gen3 I915_TILING_Y 4).2 1 :=
  ⟨rfl, rfl, (C3_align_gen3 33 I915_TILING_Y 100 1 4 (by decide) (by decide) (by decide)
    ⟨8, by decide, by decide, by decide⟩).2⟩

/-! ## C4: the stride ceiling of generation ≤ 3 -/

/-- C4, as stated, fails: generation 3, XRGB8888 (bpp 4), no usage bit, width
2^30. The aligned width is 2^30 and aligned width × bpp is 2^32 > 8192, yet
the request is not rejected: the stride is computed in 32 bits and is 0, so
the call goes on to the ioctls and returns 0. -/
theorem C4_counterexample :
    i915_align_dimensions 33 3 (spec_tiling drv_h 0) 1073741824 1
      (drv_stride_from_format drv_h drv_h.DRV_FORMAT_XRGB8888 1) = .ok (1073741824, 4) ∧
    drv_stride_from_format drv_h drv_h.DRV_FORMAT_XRGB8888 1 = 4 ∧
    1073741824 * 4 > 8192 ∧
    (drv_i915_bo_create drv_h kernel_ok stderr_quiet 33 3 world0 (bo0 1) 1073741824 1
      drv_h.DRV_FORMAT_XRGB8888 0).outcome = .returned 0 ∧
    (drv_i915_bo_create drv_h kernel_ok stderr_quiet 33 3 world0 (bo0 1) 1073741824 1
      drv_h.DRV_FORMAT_XRGB8888 0).bo.strides 0 = 0 ∧
    (drv_i915_bo_create drv_h kernel_ok stderr_quiet 33 3 world0 (bo0 1) 1073741824 1
      drv_h.DRV_FORMAT_XRGB8888 0).world.trace
      = [.I915_GEM_CREATE 0, .I915_GEM_SET_TILING 7 I915_TILING_NONE 0] :=
  ⟨rfl, rfl, by decide, rfl, rfl, rfl⟩

/-- C4, amended. With `(W, H)` the aligned dimensions, `drv_i915_bo_create`
rejects a request with the invalid-argument error, before issuing any ioctl,
if and only if the generation is ≤ 3 and the stride as computed in 32-bit
arithmetic, `W × bpp mod 2^32`, is greater than 8192; on generation ≥ 4 no
request is rejected for its stride. -/
theorem C4_stride_rejection (c : DrvHeader) (k : Kernel) (lg : Stderr) (fuel : Nat) (gen : Int)
    (w : World) (bo : Bo) (width height format flags W H : Nat)
    (hal : i915_align_dimensions fuel gen (spec_tiling c flags) width height
      (drv_stride_from_format c format 1) = .ok (W, H)) :
    (((drv_i915_bo_create c k lg fuel gen w bo width height format flags).outcome
          = .returned EINVAL ∧
        (drv_i915_bo_create c k lg fuel gen w bo width height format flags).world.trace
          = w.trace) ↔
      (gen ≤ 3 ∧ W * toU32 (drv_stride_from_format c format 1) % UINT32 > 8192)) ∧
    (4 ≤ gen →
      ¬ ((drv_i915_bo_create c k lg fuel gen w bo width height format flags).outcome
          = .returned EINVAL ∧
        (drv_i915_bo_create c k lg fuel gen w bo width height format flags).world.trace
          = w.trace)) := by
  have h := (bo_create_cases c k lg fuel gen w bo width height format flags W H hal).2.2
  simp only at h
  have key : ((drv_i915_bo_create c k lg fuel gen w bo width height format flags).outcome
          = .returned EINVAL ∧
        (drv_i915_bo_create c k lg fuel gen w bo width height format flags).world.trace
          = w.trace) ↔
      (gen ≤ 3 ∧ W * toU32 (drv_stride_from_format c format 1) % UINT32 > 8192) := by
    constructor
    · rintro ⟨-, htr⟩
      rcases h with h | h | h
      · exact ⟨h.1, h.2.1⟩
      · obtain ⟨-, -, -, hw, -⟩ := h
        rw [htr] at hw
        simp at hw
      · obtain ⟨-, -, -, -, -, n, -, h⟩ := h
        rcases h with ⟨-, hw⟩ | ⟨-, -, hw⟩ | ⟨-, -, hw⟩ <;>
        · rw [htr] at hw
          simp at hw
    · intro hrej
      rcases h with h | h | h
      · obtain ⟨-, -, ho, hw, -⟩ := h
        exact ⟨ho, by rw [hw]⟩
      · exact absurd hrej h.1
      · exact absurd hrej h.1
  refine ⟨key, fun hgen hrej => ?_⟩
  have := (key.mp hrej).1
  omega

/-- Concrete instance of C4 (amended): generation 3, X tiling (scanout),
XRGB8888, width 2049: the width is aligned to 4096, the stride is 16384, and
the request is rejected before any ioctl. -/
theorem C4_stride_rejection_witness :
    i915_align_dimensions 33 3 (spec_tiling drv_h drv_h.DRV_BO_USE_SCANOUT) 2049 1
      (drv_stride_from_format drv_h drv_h.DRV_FORMAT_XRGB8888 1) = .ok (4096, 8) ∧
    spec_tiling drv_h drv_h.DRV_BO_USE_SCANOUT = I915_TILING_X ∧
    4096 * toU32 (drv_stride_from_format drv_h drv_h.DRV_FORMAT_XRGB8888 1) % UINT32 = 16384 ∧
    (drv_i915_bo_create drv_h kernel_ok stderr_quiet 33 3 world0 (bo0 1) 2049 1
      drv_h.DRV_FORMAT_XRGB8888 drv_h.DRV_BO_USE_SCANOUT).outcome = .returned EINVAL ∧
    (drv_i915_bo_create drv_h kernel_ok stderr_quiet 33 3 world0 (bo0 1) 2049 1
      drv_h.DRV_FORMAT_XRGB8888 drv_h.DRV_BO_USE_SCANOUT).world.trace = world0.trace :=
  have h := (C4_stride_rejection drv_h kernel_ok stderr_quiet 33 3 world0 (bo0 1) 2049 1
    drv_h.DRV_FORMAT_XRGB8888 drv_h.DRV_BO_USE_SCANOUT 4096 8 rfl).1.mpr
    ⟨by decide, by decide⟩
  ⟨rfl, rfl, rfl, h.1, h.2⟩

/-! ## C5: unknown format on i915 -/

/-- When the format descriptor yields 0 bytes per pixel, `drv_i915_bo_create`
divides by zero in `i915_align_dimensions`; it neither returns nor issues an
ioctl. -/
theorem bo_create_bpp_zero (c : DrvHeader) (k : Kernel) (lg : Stderr) (fuel : Nat) (gen : Int)
    (w : World) (bo : Bo) (width height format flags : Nat)
    (hbpp : drv_stride_from_format c format 1 = 0) :
    drv_i915_bo_create c k lg fuel gen w bo width height format flags
      = ⟨.fault .divByZero, bo, w⟩ := by
  apply bo_create_fault
  unfold i915_align_dimensions
  rw [if_pos hbpp]

/-- The bytes per pixel `drv_i915_bo_create` works with is 0, 1, 2 or 4. -/
theorem bpp_values (c : DrvHeader) (format : Nat) :
    drv_stride_from_format c format 1 = 0 ∨ drv_stride_from_format c format 1 = 1 ∨
    drv_stride_from_format c format 1 = 2 ∨ drv_stride_from_format c format 1 = 4 := by
  unfold drv_stride_from_format drv_bpp_from_format
  split_ifs <;> simp

/-- Every entry of `backend_i915.format_list` names a format of 1, 2 or 4
bytes per pixel. -/
theorem i915_table_bpp (c : DrvHeader) (entry : Nat × Nat)
    (h : entry ∈ backend_i915_format_list c) :
    drv_stride_from_format c entry.1 1 = 1 ∨ drv_stride_from_format c entry.1 1 = 2 ∨
    drv_stride_from_format c entry.1 1 = 4 := by
  have hmem : entry.1 ∈ [c.DRV_FORMAT_XRGB8888, c.DRV_FORMAT_ARGB8888,
      c.DRV_FORMAT_XBGR8888, c.DRV_FORMAT_ABGR8888, c.DRV_FORMAT_RGB565,
      c.DRV_FORMAT_XRGB1555, c.DRV_FORMAT_ARGB1555, c.DRV_FORMAT_UYVY,
      c.DRV_FORMAT_YUYV, c.DRV_FORMAT_GR88, c.DRV_FORMAT_R8] := by
    unfold backend_i915_format_list at h
    simp only [List.mem_cons, List.mem_singleton, List.not_mem_nil, or_false] at h ⊢
    rcases h with h | h | h | h | h | h | h | h | h | h | h | h | h | h | h <;>
      rw [h] <;> simp
  rcases bpp_values c entry.1 with h0 | h1 | h2 | h4
  · exfalso
    unfold drv_stride_from_format drv_bpp_from_format at h0
    by_cases a : entry.1 = c.DRV_FORMAT_NV12
    · rw [if_pos a, if_pos rfl] at h0
      simp at h0
    · rw [if_neg a, if_neg (by decide : ¬ (0 : Nat) ≠ 0)] at h0
      by_cases d : entry.1 ∈ [c.DRV_FORMAT_XRGB8888, c.DRV_FORMAT_ARGB8888,
          c.DRV_FORMAT_XBGR8888, c.DRV_FORMAT_ABGR8888]
      · rw [if_pos d] at h0
        simp at h0
      · rw [if_neg d] at h0
        by_cases e : entry.1 ∈ [c.DRV_FORMAT_RGB565, c.DRV_FORMAT_XRGB1555,
            c.DRV_FORMAT_ARGB1555, c.DRV_FORMAT_UYVY, c.DRV_FORMAT_YUYV,
            c.DRV_FORMAT_GR88]
        · rw [if_pos e] at h0
          simp at h0
        · by_cases f : entry.1 = c.DRV_FORMAT_R8
          · rw [if_neg e, if_pos f] at h0
            simp at h0
          · simp only [List.mem_cons, List.mem_singleton, List.not_mem_nil, or_false,
              not_or] at d e hmem
            tauto
  · exact Or.inl h1
  · exact Or.inr (Or.inl h2)
  · exact Or.inr (Or.inr h4)

/-- For 1, 2 or 4 bytes per pixel the two alignments the switch of
`i915_align_dimensions` yields are not zero. -/
theorem alignment_ne_zero (gen : Int) (tiling_mode : Nat) (bpp : Int)
    (hbpp : bpp = 1 ∨ bpp = 2 ∨ bpp = 4) :
    (i915_alignment gen tiling_mode bpp).1 ≠ 0 ∧ (i915_alignment gen tiling_mode bpp).2 ≠ 0 := by
  unfold i915_alignment
  rcases hbpp with rfl | rfl | rfl <;> split_ifs <;> exact ⟨by decide, by decide⟩

/-- For 1, 2 or 4 bytes per pixel `i915_align_dimensions` does not divide by
zero. -/
theorem align_no_division_by_zero (fuel : Nat) (gen : Int) (tiling_mode width height : Nat)
    (bpp : Int) (hbpp : bpp = 1 ∨ bpp = 2 ∨ bpp = 4) :
    i915_align_dimensions fuel gen tiling_mode width height bpp ≠ .error .divByZero := by
  obtain ⟨h1, h2⟩ := alignment_ne_zero gen tiling_mode bpp hbpp
  have h0 : bpp ≠ 0 := by
    rcases hbpp with rfl | rfl | rfl <;> decide
  unfold i915_align_dimensions ALIGN
  rw [if_neg h0]
  simp only [if_neg h1, if_neg h2]
  split_ifs
  · simp
  · cases i915_align_dimensions_loop fuel (i915_alignment gen tiling_mode bpp).1 width <;> simp

/-- For a format of 1, 2 or 4 bytes per pixel `drv_i915_bo_create` does not
divide by zero. -/
theorem bo_create_no_division_by_zero (c : DrvHeader) (k : Kernel) (lg : Stderr) (fuel : Nat)
    (gen : Int) (w : World) (bo : Bo) (width height format flags : Nat)
    (hbpp : drv_stride_from_format c format 1 = 1 ∨ drv_stride_from_format c format 1 = 2 ∨
      drv_stride_from_format c format 1 = 4) :
    (drv_i915_bo_create c k lg fuel gen w bo width height format flags).outcome
      ≠ .fault .divByZero := by
  have hne := align_no_division_by_zero fuel gen (spec_tiling c flags) width height
    (drv_stride_from_format c format 1) hbpp
  cases hal : i915_align_dimensions fuel gen (spec_tiling c flags) width height
    (drv_stride_from_format c format 1) with
  | error f =>
    rw [bo_create_fault c k lg fuel gen w bo width height format flags f hal]
    intro h
    apply hne
    rw [hal]
    simp only at h
    cases h
    rfl
  | ok p =>
    obtain ⟨W, H⟩ := p
    obtain ⟨-, -, h | h | h⟩ := bo_create_cases c k lg fuel gen w bo width height format flags
      W H hal
    · rw [h.2.2.1]
      simp
    · rw [h.2.2.1]
      simp
    · obtain ⟨-, -, -, -, -, n, -, h | h | h⟩ := h
      · rw [h.1]
        simp
      · rw [h.2.1]
        simp
      · rw [h.2.1]
        simp

/-- Counterexample to C5 as stated: format code 0 is unknown to the format
descriptor (its stride query yields 0); on generation 4, for a 1x1 request
with no usage bit, `drv_i915_bo_create` does not return the invalid-argument
error: it divides 64 by zero. The same happens on generation 3. -/
theorem C5_counterexample :
    drv_stride_from_format drv_h 0 1 = 0 ∧
    (drv_i915_bo_create drv_h kernel_ok stderr_quiet 33 4 world0 (bo0 1) 1 1 0 0).outcome
      = .fault .divByZero ∧
    (drv_i915_bo_create drv_h kernel_ok stderr_quiet 33 4 world0 (bo0 1) 1 1 0 0).outcome
      ≠ .returned EINVAL ∧
    (drv_i915_bo_create drv_h kernel_ok stderr_quiet 33 3 world0 (bo0 1) 1 1 0 0).outcome
      = .fault .divByZero :=
  ⟨rfl, rfl, by decide, rfl⟩

/-- C5 (amended). The function `drv_i915_bo_create` has no format check of its
own. Called with a format unknown to the format descriptor (its
stride/bytes-per-pixel query yields 0), for every width, height, flags and
generation it issues no ioctl and leaves the BO as it was, but it does not
return the invalid-argument error: it divides by zero in
`i915_align_dimensions`. Such a format has no entry in
`backend_i915.format_list`, so no entry of that table covers a request for it,
whatever the flags: the refusal of an unknown format is left to the capability
check made before `bo_create` is called. Conversely a request that an entry of
the table covers never divides by zero in `drv_i915_bo_create`. -/
theorem C5_unknown_format (c : DrvHeader) (k : Kernel) (lg : Stderr) (fuel : Nat) (gen : Int)
    (w : World) (bo : Bo) (width height format flags : Nat)
    (hbpp : drv_stride_from_format c format 1 = 0) :
    drv_i915_bo_create c k lg fuel gen w bo width height format flags
      = ⟨.fault .divByZero, bo, w⟩ ∧
    (drv_i915_bo_create c k lg fuel gen w bo width height format flags).outcome
      ≠ .returned EINVAL ∧
    (drv_i915_bo_create c k lg fuel gen w bo width height format flags).world.trace
      = w.trace ∧
    (∀ entry, entry ∈ backend_i915_format_list c → ∀ fl, ¬ Covers entry format fl) ∧
    (∀ entry, entry ∈ backend_i915_format_list c → ∀ width2 height2 format2 flags2,
      Covers entry format2 flags2 →
      (drv_i915_bo_create c k lg fuel gen w bo width2 height2 format2 flags2).outcome
        ≠ .fault .divByZero) := by
  have hrun := bo_create_bpp_zero c k lg fuel gen w bo width height format flags hbpp
  refine ⟨hrun, ?_, ?_, ?_, ?_⟩
  · rw [hrun]
    simp
  · rw [hrun]
  · intro entry hmem fl hcov
    have hb := i915_table_bpp c entry hmem
    rw [hcov.1, hbpp] at hb
    rcases hb with hb | hb | hb <;> cases hb
  · intro entry hmem width2 height2 format2 flags2 hcov
    apply bo_create_no_division_by_zero
    rw [← hcov.1]
    exact i915_table_bpp c entry hmem

/-- Concrete instance of C5: format code 0 has no bytes per pixel; a 1x1
request for it on generation 4 divides by zero with no ioctl issued, and the
XRGB8888 entry of the table does not cover it. -/
theorem C5_unknown_format_witness :
    drv_stride_from_format drv_h 0 1 = 0 ∧
    (drv_i915_bo_create drv_h kernel_ok stderr_quiet 33 4 world0 (bo0 1) 1 1 0 0).world.trace
      = [] ∧
    ¬ Covers (drv_h.DRV_FORMAT_XRGB8888,
        drv_h.DRV_BO_USE_SCANOUT ||| drv_h.DRV_BO_USE_CURSOR ||| drv_h.DRV_BO_USE_RENDERING)
      0 0 :=
  ⟨rfl,
    (C5_unknown_format drv_h kernel_ok stderr_quiet 33 4 world0 (bo0 1) 1 1 0 0 rfl).2.2.1,
    (C5_unknown_format drv_h kernel_ok stderr_quiet 33 4 world0 (bo0 1) 1 1 0 0 rfl).2.2.2.1
      _ (List.mem_cons_self _ _) 0⟩

/-! ## C6: stride, size and offset of a created i915 BO -/

/-- Conversion of that bytes-per-pixel value to `uint32_t` keeps its value. -/
theorem toU32_bpp (c : DrvHeader) (format : Nat) :
    toU32 (drv_stride_from_format c format 1) = (drv_stride_from_format c format 1).toNat := by
  rcases bpp_values c format with h | h | h | h <;> rw [h] <;> rfl

/-- C6, as stated, fails: generation 4, XRGB8888 (bpp 4), no usage bit,
2^30 x 1. The create succeeds with aligned width W = 2^30 and H = 4, but
strides[0] is 0, not W × bpp = 2^32, and sizes[0] is 0, not W × H × bpp. -/
theorem C6_counterexample :
    (drv_i915_bo_create drv_h kernel_ok stderr_quiet 1 4 world0 (bo0 1) 1073741824 1
      drv_h.DRV_FORMAT_XRGB8888 0).outcome = .returned 0 ∧
    i915_align_dimensions 1 4 (spec_tiling drv_h 0) 1073741824 1
      (drv_stride_from_format drv_h drv_h.DRV_FORMAT_XRGB8888 1) = .ok (1073741824, 4) ∧
    drv_stride_from_format drv_h drv_h.DRV_FORMAT_XRGB8888 1 = 4 ∧
    (drv_i915_bo_create drv_h kernel_ok stderr_quiet 1 4 world0 (bo0 1) 1073741824 1
      drv_h.DRV_FORMAT_XRGB8888 0).bo.strides 0 = 0 ∧
    (drv_i915_bo_create drv_h kernel_ok stderr_quiet 1 4 world0 (bo0 1) 1073741824 1
      drv_h.DRV_FORMAT_XRGB8888 0).bo.strides 0 ≠ 1073741824 * 4 ∧
    (drv_i915_bo_create drv_h kernel_ok stderr_quiet 1 4 world0 (bo0 1) 1073741824 1
      drv_h.DRV_FORMAT_XRGB8888 0).bo.sizes 0 ≠ 1073741824 * 4 * 4 :=
  ⟨rfl, rfl, rfl, rfl, by decide, by decide⟩

/-- C6, amended. For every request on which `drv_i915_bo_create` succeeds
(returns 0), with `(W, H)` the aligned width and height, the BO has
strides[0] = W × bpp mod 2^32, sizes[0] = W × H × bpp mod 2^32 (the same value
is the size of the first ioctl issued, the GEM-create) and offsets[0] = 0; the
stride is exactly W × bpp when that is below 2^32, and the size exactly
W × H × bpp when that is below 2^32. -/
theorem C6_stride_size_offset (c : DrvHeader) (k : Kernel) (lg : Stderr) (fuel : Nat) (gen : Int)
    (w : World) (bo : Bo) (width height format flags : Nat)
    (hok : (drv_i915_bo_create c k lg fuel gen w bo width height format flags).outcome
      = .returned 0) :
    ∃ W H, i915_align_dimensions fuel gen (drv_i915_bo_create_tiling c flags) width height
        (drv_stride_from_format c format 1) = .ok (W, H) ∧
      (drv_i915_bo_create c k lg fuel gen w bo width height format flags).bo.strides 0
        = W * (drv_stride_from_format c format 1).toNat % UINT32 ∧
      (drv_i915_bo_create c k lg fuel gen w bo width height format flags).bo.sizes 0
        = W * H * (drv_stride_from_format c format 1).toNat % UINT32 ∧
      (drv_i915_bo_create c k lg fuel gen w bo width height format flags).bo.offsets 0 = 0 ∧
      (∃ l, (drv_i915_bo_create c k lg fuel gen w bo width height format flags).world.trace
        = w.trace ++ Ioctl.I915_GEM_CREATE
            (W * H * (drv_stride_from_format c format 1).toNat % UINT32) :: l) ∧
      (W * (drv_stride_from_format c format 1).toNat < UINT32 →
        (drv_i915_bo_create c k lg fuel gen w bo width height format flags).bo.strides 0
          = W * (drv_stride_from_format c format 1).toNat) ∧
      (W * H * (drv_stride_from_format c format 1).toNat < UINT32 →
        (drv_i915_bo_create c k lg fuel gen w bo width height format flags).bo.sizes 0
          = W * H * (drv_stride_from_format c format 1).toNat) := by
  rw [tiling_eq_spec]
  rcases hal : i915_align_dimensions fuel gen (spec_tiling c flags) width height
      (drv_stride_from_format c format 1) with f | ⟨W, H⟩
  · rw [bo_create_fault c k lg fuel gen w bo width height format flags f hal] at hok
    cases hok
  · obtain ⟨-, hstr, h⟩ := bo_create_cases c k lg fuel gen w bo width height format flags W H hal
    rw [toU32_bpp] at hstr h
    have hsz : W * H % UINT32 * (drv_stride_from_format c format 1).toNat % UINT32
        = W * H * (drv_stride_from_format c format 1).toNat % UINT32 := by
      rw [Nat.mul_mod, Nat.mod_mod, ← Nat.mul_mod]
    rw [hsz] at h
    have main : (drv_i915_bo_create c k lg fuel gen w bo width height format flags).bo.sizes 0
          = W * H * (drv_stride_from_format c format 1).toNat % UINT32 ∧
        (drv_i915_bo_create c k lg fuel gen w bo width height format flags).bo.offsets 0 = 0 ∧
        ∃ l, (drv_i915_bo_create c k lg fuel gen w bo width height format flags).world.trace
          = w.trace ++ Ioctl.I915_GEM_CREATE
              (W * H * (drv_stride_from_format c format 1).toNat % UINT32) :: l := by
      rcases h with h | h | h
      · rw [h.2.2.1] at hok
        cases hok
      · obtain ⟨-, hne, ho, -⟩ := h
        rw [ho] at hok
        simp only [Outcome.returned.injEq] at hok
        exact absurd hok hne
      · obtain ⟨-, -, -, hs, hof, n, -, h⟩ := h
        refine ⟨by rw [hs, store_same], by rw [hof, store_same], ?_⟩
        rcases h with ⟨ho, -⟩ | ⟨-, -, hw⟩ | ⟨-, -, hw⟩
        · rw [ho] at hok
          cases hok
        · exact ⟨_, hw⟩
        · exact ⟨_, hw⟩
    have hs0 : (drv_i915_bo_create c k lg fuel gen w bo width height format flags).bo.strides 0
        = W * (drv_stride_from_format c format 1).toNat % UINT32 := by
      rw [hstr, store_same]
    refine ⟨W, H, rfl, hs0, main.1, main.2.1, main.2.2, ?_, ?_⟩
    · intro hlt
      rw [hs0, Nat.mod_eq_of_lt hlt]
    · intro hlt
      rw [main.1, Nat.mod_eq_of_lt hlt]

/-- Concrete instances of C6 (amended), generation 4: XRGB8888 1920x1080 with
flags = scanout gives X tiling, W = 1920, H = 1080, stride 7680, size 8294400;
ARGB8888 64x64 with flags = cursor gives no tiling, stride 256, size 16384. -/
theorem C6_stride_size_offset_witness :
    (drv_i915_bo_create_tiling drv_h drv_h.DRV_BO_USE_SCANOUT = I915_TILING_X ∧
     i915_align_dimensions 1 4 I915_TILING_X 1920 1080 4 = .ok (1920, 1080) ∧
     (drv_i915_bo_create drv_h kernel_ok stderr_quiet 1 4 world0 (bo0 1) 1920 1080
       drv_h.DRV_FORMAT_XRGB8888 drv_h.DRV_BO_USE_SCANOUT).bo.strides 0 = 7680 ∧
     (drv_i915_bo_create drv_h kernel_ok stderr_quiet 1 4 world0 (bo0 1) 1920 1080
       drv_h.DRV_FORMAT_XRGB8888 drv_h.DRV_BO_USE_SCANOUT).bo.sizes 0 = 8294400) ∧
    (drv_i915_bo_create_tiling drv_h drv_h.DRV_BO_USE_CURSOR = I915_TILING_NONE ∧
     i915_align_dimensions 1 4 I915_TILING_NONE 64 64 4 = .ok (64, 64) ∧
     (drv_i915_bo_create drv_h kernel_ok stderr_quiet 1 4 world0 (bo0 1) 64 64
       drv_h.DRV_FORMAT_ARGB8888 drv_h.DRV_BO_USE_CURSOR).bo.strides 0 = 256 ∧
     (drv_i915_bo_create drv_h kernel_ok stderr_quiet 1 4 world0 (bo0 1) 64 64
       drv_h.DRV_FORMAT_ARGB8888 drv_h.DRV_BO_USE_CURSOR).bo.sizes 0 = 16384) ∧
    ∃ W H, i915_align_dimensions 1 4
        (drv_i915_bo_create_tiling drv_h drv_h.DRV_BO_USE_SCANOUT) 1920 1080
        (drv_stride_from_format drv_h drv_h.DRV_FORMAT_XRGB8888 1) = .ok (W, H) ∧
      (drv_i915_bo_create drv_h kernel_ok stderr_quiet 1 4 world0 (bo0 1) 1920 1080
        drv_h.DRV_FORMAT_XRGB8888 drv_h.DRV_BO_USE_SCANOUT).bo.strides 0
        = W * (drv_stride_from_format drv_h drv_h.DRV_FORMAT_XRGB8888 1).toNat % UINT32 :=
  ⟨⟨rfl, rfl, rfl, rfl⟩, ⟨rfl, rfl, rfl, rfl⟩,
    (C6_stride_size_offset drv_h kernel_ok stderr_quiet 1 4 world0 (bo0 1) 1920 1080
      drv_h.DRV_FORMAT_XRGB8888 drv_h.DRV_BO_USE_SCANOUT rfl).imp
      fun _ h => h.imp fun _ h => ⟨h.1, h.2.1⟩⟩

/-! ## rockchip: auxiliary lemmas -/

/-- The loop `for (plane = 0; plane < n; plane++) handles[plane] = v`. -/
theorem foldl_store_range (v : Nat) (n : Nat) (a : Nat → Nat) :
    (List.range n).foldl (fun handles plane => store handles plane v) a
      = fun j => if j < n then v else a j := by
  induction n with
  | zero => simp
  | succ n ih =>
    rw [List.range_succ, List.foldl_append, ih]
    funext j
    simp only [List.foldl_cons, List.foldl_nil, store]
    by_cases h1 : j = n
    · simp [h1]
    · by_cases h2 : j < n
      · simp [h1, h2, Nat.lt_succ_of_lt h2]
      · have : ¬ j < n + 1 := by omega
        simp [h1, h2, this]

/-- What the tail of `rockchip_bo_create` does: one gem-create request for
the summed size; strides, sizes, offsets and the plane count are kept; the
return value is the ioctl's; on success every plane below `num_planes` gets
the returned handle, on failure no handle changes. -/
theorem alloc_spec (size_mod : Nat) (k : Kernel) (w : World) (bo : Bo) :
    (rockchip_bo_create_alloc size_mod k w bo).world.trace
      = w.trace ++ [Ioctl.ROCKCHIP_GEM_CREATE (rockchip_request_size size_mod bo)] ∧
    (rockchip_bo_create_alloc size_mod k w bo).outcome
      = .returned (k w.trace (.ROCKCHIP_GEM_CREATE (rockchip_request_size size_mod bo))).ret ∧
    (rockchip_bo_create_alloc size_mod k w bo).bo.num_planes = bo.num_planes ∧
    (rockchip_bo_create_alloc size_mod k w bo).bo.strides = bo.strides ∧
    (rockchip_bo_create_alloc size_mod k w bo).bo.sizes = bo.sizes ∧
    (rockchip_bo_create_alloc size_mod k w bo).bo.offsets = bo.offsets ∧
    ((k w.trace (.ROCKCHIP_GEM_CREATE (rockchip_request_size size_mod bo))).ret = 0 →
      (rockchip_bo_create_alloc size_mod k w bo).bo.handles = fun p =>
        if p < bo.num_planes then
          (k w.trace (.ROCKCHIP_GEM_CREATE (rockchip_request_size size_mod bo))).handle % UINT32
        else bo.handles p) ∧
    ((k w.trace (.ROCKCHIP_GEM_CREATE (rockchip_request_size size_mod bo))).ret ≠ 0 →
      (rockchip_bo_create_alloc size_mod k w bo).bo.handles = bo.handles) := by
  unfold rockchip_bo_create_alloc
  simp only [drmIoctl]
  generalize rockchip_request_size size_mod bo = S
  by_cases h : (k w.trace (.ROCKCHIP_GEM_CREATE S)).ret = 0
  · rw [if_neg (not_not.mpr h)]
    refine ⟨rfl, by rw [h], rfl, rfl, rfl, rfl, fun _ => ?_, fun h' => absurd h h'⟩
    exact foldl_store_range _ _ _
  · rw [if_pos h]
    exact ⟨rfl, rfl, rfl, rfl, rfl, rfl, fun h' => absurd h' h, fun _ => rfl⟩

/-- Distinct format names denote distinct codes: the inequalities between the
format codes that the rockchip backend relies on. -/
theorem formats_ne (c : DrvHeader) :
    (c.DRV_FORMAT_XRGB8888 ≠ c.DRV_FORMAT_NV12 ∧ c.DRV_FORMAT_ARGB8888 ≠ c.DRV_FORMAT_NV12 ∧
      c.DRV_FORMAT_ABGR8888 ≠ c.DRV_FORMAT_NV12) ∧
    (c.DRV_FORMAT_YUYV ≠ c.DRV_FORMAT_NV12 ∧ c.DRV_FORMAT_YUYV ≠ c.DRV_FORMAT_XRGB8888 ∧
      c.DRV_FORMAT_YUYV ≠ c.DRV_FORMAT_ARGB8888 ∧
      c.DRV_FORMAT_YUYV ≠ c.DRV_FORMAT_ABGR8888) ∧
    c.DRV_FORMAT_FLEX_YCbCr_420_888 ≠ c.DRV_FORMAT_FLEX_IMPLEMENTATION_DEFINED := by
  refine ⟨⟨?_, ?_, ?_⟩, ⟨?_, ?_, ?_, ?_⟩, ?_⟩ <;>
  · intro heq
    have h := c.formats_distinct
    rw [heq] at h
    simp [List.nodup_cons] at h

/-- The NV12 branch of `rockchip_bo_create`, once width and height have been
aligned to `W` and `H`. -/
theorem rockchip_nv12 (c : DrvHeader) (ndebug : Bool) (size_mod : Nat) (k : Kernel) (w : World) (bo : Bo)
    (width height flags W H : Nat) (hW : ALIGN width 4 = .ok W) (hH : ALIGN height 4 = .ok H) :
    rockchip_bo_create c ndebug size_mod k w bo width height c.DRV_FORMAT_NV12 flags
      = rockchip_bo_create_alloc size_mod k w
          { bo with
            strides := store (store bo.strides 1 W) 0 W
            sizes := store (store bo.sizes 0 (H * W % UINT32)) 1 (H * W % UINT32 / 2)
            offsets := store (store bo.offsets 0 0) 1 (H * W % UINT32) } := by
  unfold rockchip_bo_create
  rw [if_pos rfl]
  simp only [hW, hH, store_same, store_other _ 0 _ 1 (by decide)]

/-- The single-plane branch of `rockchip_bo_create`. -/
theorem rockchip_rgb (c : DrvHeader) (ndebug : Bool) (size_mod : Nat) (k : Kernel) (w : World) (bo : Bo)
    (width height format flags : Nat)
    (hfmt : format = c.DRV_FORMAT_XRGB8888 ∨ format = c.DRV_FORMAT_ARGB8888
      ∨ format = c.DRV_FORMAT_ABGR8888) :
    rockchip_bo_create c ndebug size_mod k w bo width height format flags
      = rockchip_bo_create_alloc size_mod k w
          { bo with
            strides := store bo.strides 0 (toU32 (drv_stride_from_format c format width))
            sizes := store bo.sizes 0
              (height * toU32 (drv_stride_from_format c format width) % UINT32)
            offsets := store bo.offsets 0 0 } := by
  have hne : format ≠ c.DRV_FORMAT_NV12 := by
    obtain ⟨⟨h1, h2, h3⟩, -, -⟩ := formats_ne c
    rcases hfmt with rfl | rfl | rfl <;> assumption
  unfold rockchip_bo_create
  rw [if_neg hne, if_pos hfmt]
  simp only [store_same]

/-! ## C7: NV12 layout on rockchip -/

/-- C7, as stated, fails: for the NV12 request 65536 x 65536 (already
multiples of 4, so W = H = 65536) sizes[0] is 0, not H × W = 2^32, and
offsets[1] is 0; and for width 2^32 - 1 the stored stride is 0, not a
multiple of 4 that is ≥ the width. -/
theorem C7_counterexample :
    (rockchip_bo_create drv_h true SIZE_T_LP64 kernel_ok world0 (bo0 2) 65536 65536
      drv_h.DRV_FORMAT_NV12 0).bo.strides 0 = 65536 ∧
    (rockchip_bo_create drv_h true SIZE_T_LP64 kernel_ok world0 (bo0 2) 65536 65536
      drv_h.DRV_FORMAT_NV12 0).bo.sizes 0 = 0 ∧
    (rockchip_bo_create drv_h true SIZE_T_LP64 kernel_ok world0 (bo0 2) 65536 65536
      drv_h.DRV_FORMAT_NV12 0).bo.sizes 0 ≠ 65536 * 65536 ∧
    (rockchip_bo_create drv_h true SIZE_T_LP64 kernel_ok world0 (bo0 2) 65536 65536
      drv_h.DRV_FORMAT_NV12 0).bo.offsets 1 = 0 ∧
    (rockchip_bo_create drv_h true SIZE_T_LP64 kernel_ok world0 (bo0 2) 4294967295 4
      drv_h.DRV_FORMAT_NV12 0).bo.strides 0 = 0 :=
  ⟨rfl, rfl, by decide, rfl, rfl⟩

/-- C7, amended. For every NV12 request (width, height) whose values rounded
up to a multiple of 4 fit in 32 bits, `rockchip_bo_create` rounds width and
height up to the next multiple of 4 (W, H) and fills strides[0] = strides[1]
= W, sizes[0] = H × W mod 2^32, sizes[1] = (H × W mod 2^32) / 2, offsets[0] = 0
and offsets[1] = sizes[0]; when H × W is below 2^32 the sizes are exactly
H × W and H × W / 2. -/
theorem C7_nv12_layout (c : DrvHeader) (ndebug : Bool) (size_mod : Nat) (k : Kernel) (w : World) (bo : Bo)
    (width height flags : Nat) (hw : RoundsIn32 4 width) (hh : RoundsIn32 4 height) :
    ∃ W H, IsLeastMultiple W 4 width ∧ IsLeastMultiple H 4 height ∧
      (rockchip_bo_create c ndebug size_mod k w bo width height c.DRV_FORMAT_NV12 flags).bo.strides 0
        = W ∧
      (rockchip_bo_create c ndebug size_mod k w bo width height c.DRV_FORMAT_NV12 flags).bo.strides 1
        = W ∧
      (rockchip_bo_create c ndebug size_mod k w bo width height c.DRV_FORMAT_NV12 flags).bo.sizes 0
        = H * W % UINT32 ∧
      (rockchip_bo_create c ndebug size_mod k w bo width height c.DRV_FORMAT_NV12 flags).bo.sizes 1
        = H * W % UINT32 / 2 ∧
      (rockchip_bo_create c ndebug size_mod k w bo width height c.DRV_FORMAT_NV12 flags).bo.offsets 0
        = 0 ∧
      (rockchip_bo_create c ndebug size_mod k w bo width height c.DRV_FORMAT_NV12 flags).bo.offsets 1
        = (rockchip_bo_create c ndebug size_mod k w bo width height c.DRV_FORMAT_NV12 flags).bo.sizes 0 ∧
      (H * W < UINT32 →
        (rockchip_bo_create c ndebug size_mod k w bo width height c.DRV_FORMAT_NV12 flags).bo.sizes 0
          = H * W ∧
        (rockchip_bo_create c ndebug size_mod k w bo width height c.DRV_FORMAT_NV12 flags).bo.sizes 1
          = H * W / 2) := by
  obtain ⟨W, hW, hWl⟩ := ALIGN_least width 4 (by decide) (by decide) hw
  obtain ⟨H, hH, hHl⟩ := ALIGN_least height 4 (by decide) (by decide) hh
  rw [rockchip_nv12 c ndebug size_mod k w bo width height flags W H hW hH]
  obtain ⟨-, -, -, hst, hsz, hof, -, -⟩ := alloc_spec size_mod k w
    { bo with
      strides := store (store bo.strides 1 W) 0 W
      sizes := store (store bo.sizes 0 (H * W % UINT32)) 1 (H * W % UINT32 / 2)
      offsets := store (store bo.offsets 0 0) 1 (H * W % UINT32) }
  rw [hst, hsz, hof]
  refine ⟨W, H, hWl, hHl, by simp [store], by simp [store], by simp [store], by simp [store],
    by simp [store], by simp [store], fun hlt => ?_⟩
  simp only [store_same, store_other _ 1 _ 0 (by decide), Nat.mod_eq_of_lt hlt, and_self]

/-- Concrete instances of C7 (amended): 5x5 gives W = H = 8, strides 8 and 8,
sizes 64 and 32, offsets[1] = 64; 1280x720 gives strides 1280, sizes 921600
and 460800, offsets[1] = 921600. -/
theorem C7_nv12_layout_witness :
    (ALIGN 5 4 = .ok 8 ∧
     (rockchip_bo_create drv_h true SIZE_T_LP64 kernel_ok world0 (bo0 2) 5 5
       drv_h.DRV_FORMAT_NV12 0).bo.strides 0 = 8 ∧
     (rockchip_bo_create drv_h true SIZE_T_LP64 kernel_ok world0 (bo0 2) 5 5
       drv_h.DRV_FORMAT_NV12 0).bo.strides 1 = 8 ∧
     (rockchip_bo_create drv_h true SIZE_T_LP64 kernel_ok world0 (bo0 2) 5 5
       drv_h.DRV_FORMAT_NV12 0).bo.sizes 0 = 64 ∧
     (rockchip_bo_create drv_h true SIZE_T_LP64 kernel_ok world0 (bo0 2) 5 5
       drv_h.DRV_FORMAT_NV12 0).bo.sizes 1 = 32 ∧
     (rockchip_bo_create drv_h true SIZE_T_LP64 kernel_ok world0 (bo0 2) 5 5
       drv_h.DRV_FORMAT_NV12 0).bo.offsets 1 = 64) ∧
    ((rockchip_bo_create drv_h true SIZE_T_LP64 kernel_ok world0 (bo0 2) 1280 720
       drv_h.DRV_FORMAT_NV12 0).bo.strides 0 = 1280 ∧
     (rockchip_bo_create drv_h true SIZE_T_LP64 kernel_ok world0 (bo0 2) 1280 720
       drv_h.DRV_FORMAT_NV12 0).bo.strides 1 = 1280 ∧
     (rockchip_bo_create drv_h true SIZE_T_LP64 kernel_ok world0 (bo0 2) 1280 720
       drv_h.DRV_FORMAT_NV12 0).bo.sizes 0 = 921600 ∧
     (rockchip_bo_create drv_h true SIZE_T_LP64 kernel_ok world0 (bo0 2) 1280 720
       drv_h.DRV_FORMAT_NV12 0).bo.sizes 1 = 460800 ∧
     (rockchip_bo_create drv_h true SIZE_T_LP64 kernel_ok world0 (bo0 2) 1280 720
       drv_h.DRV_FORMAT_NV12 0).bo.offsets 1 = 921600) ∧
    ∃ W H, IsLeastMultiple W 4 5 ∧ IsLeastMultiple H 4 5 ∧
      (rockchip_bo_create drv_h true SIZE_T_LP64 kernel_ok world0 (bo0 2) 5 5
        drv_h.DRV_FORMAT_NV12 0).bo.strides 0 = W :=
  ⟨⟨rfl, rfl, rfl, rfl, rfl, rfl⟩, ⟨rfl, rfl, rfl, rfl, rfl⟩,
    (C7_nv12_layout drv_h true SIZE_T_LP64 kernel_ok world0 (bo0 2) 5 5 0
      ⟨8, by decide, by decide, by decide⟩ ⟨8, by decide, by decide, by decide⟩).imp
      fun _ h => h.imp fun _ h => ⟨h.1, h.2.1, h.2.2.1⟩⟩

/-! ## C8: unsupported formats on rockchip -/

/-- C8, as stated, fails: compiled without `NDEBUG`, the `default:` branch of
`rockchip_bo_create` reaches `assert(0)` and the process aborts; for YUYV the
call does not return the invalid-argument error (nor anything else) to its
caller. No ioctl is issued. -/
theorem C8_counterexample :
    (rockchip_bo_create drv_h false SIZE_T_LP64 kernel_ok world0 (bo0 1) 16 16
      drv_h.DRV_FORMAT_YUYV 0).outcome = .fault .assertFail ∧
    (rockchip_bo_create drv_h false SIZE_T_LP64 kernel_ok world0 (bo0 1) 16 16
      drv_h.DRV_FORMAT_YUYV 0).outcome ≠ .returned (-EINVAL) ∧
    (rockchip_bo_create drv_h false SIZE_T_LP64 kernel_ok world0 (bo0 1) 16 16
      drv_h.DRV_FORMAT_YUYV 0).world.trace = [] :=
  ⟨rfl, by decide, rfl⟩

/-- C8, amended. For every format other than NV12, XRGB8888, ARGB8888 and
ABGR8888 (for example YUYV), and every width, height and flags,
`rockchip_bo_create` issues no ioctl and leaves the BO as it was; compiled
with `NDEBUG` it fails by returning the invalid-argument error (`-EINVAL`)
to its caller, and compiled without it the call aborts at `assert(0)`. -/
theorem C8_unsupported_format (c : DrvHeader) (ndebug : Bool) (size_mod : Nat) (k : Kernel) (w : World)
    (bo : Bo) (width height format flags : Nat)
    (h1 : format ≠ c.DRV_FORMAT_NV12) (h2 : format ≠ c.DRV_FORMAT_XRGB8888)
    (h3 : format ≠ c.DRV_FORMAT_ARGB8888) (h4 : format ≠ c.DRV_FORMAT_ABGR8888) :
    (rockchip_bo_create c ndebug size_mod k w bo width height format flags).world = w ∧
    (rockchip_bo_create c ndebug size_mod k w bo width height format flags).bo = bo ∧
    (ndebug = true →
      (rockchip_bo_create c ndebug size_mod k w bo width height format flags).outcome
        = .returned (-EINVAL)) ∧
    (ndebug = false →
      (rockchip_bo_create c ndebug size_mod k w bo width height format flags).outcome
        = .fault .assertFail) := by
  unfold rockchip_bo_create
  rw [if_neg h1, if_neg (by simp [h2, h3, h4])]
  cases ndebug <;> simp

/-- Concrete instance of C8 (amended): YUYV is none of the four supported
formats; compiled with `NDEBUG` the call returns `-EINVAL` = -22 and issues
no ioctl. -/
theorem C8_unsupported_format_witness :
    (rockchip_bo_create drv_h true SIZE_T_LP64 kernel_ok world0 (bo0 1) 16 16
      drv_h.DRV_FORMAT_YUYV 0).outcome = .returned (-22) ∧
    (rockchip_bo_create drv_h true SIZE_T_LP64 kernel_ok world0 (bo0 1) 16 16
      drv_h.DRV_FORMAT_YUYV 0).world = world0 :=
  have h := C8_unsupported_format drv_h true SIZE_T_LP64 kernel_ok world0 (bo0 1) 16 16
    drv_h.DRV_FORMAT_YUYV 0 (by decide) (by decide) (by decide) (by decide)
  ⟨h.2.2.1 rfl, h.1⟩

/-! ## C9: the rockchip format resolver -/

/-- C9. `rockchip_resolve_format` maps the implementation-defined flex format
to XBGR8888, maps the flex YCbCr 4:2:0 format to NV12, and is the identity on
every other (non-flex) format code. -/
theorem C9_resolve_format (c : DrvHeader) :
    rockchip_resolve_format c c.DRV_FORMAT_FLEX_IMPLEMENTATION_DEFINED
      = c.DRV_FORMAT_XBGR8888 ∧
    rockchip_resolve_format c c.DRV_FORMAT_FLEX_YCbCr_420_888 = c.DRV_FORMAT_NV12 ∧
    ∀ format, format ≠ c.DRV_FORMAT_FLEX_IMPLEMENTATION_DEFINED →
      format ≠ c.DRV_FORMAT_FLEX_YCbCr_420_888 →
      rockchip_resolve_format c format = format := by
  refine ⟨?_, ?_, ?_⟩
  · unfold rockchip_resolve_format
    rw [if_pos rfl]
  · unfold rockchip_resolve_format
    rw [if_neg (formats_ne c).2.2, if_pos rfl]
  · intro format h1 h2
    unfold rockchip_resolve_format
    rw [if_neg h1, if_neg h2]

/-- Concrete instance of C9: NV12 is not a flex format and resolves to
itself. -/
theorem C9_resolve_format_witness :
    rockchip_resolve_format drv_h drv_h.DRV_FORMAT_NV12 = drv_h.DRV_FORMAT_NV12 :=
  (C9_resolve_format drv_h).2.2 drv_h.DRV_FORMAT_NV12 (by decide) (by decide)

/-- The requested size is the sum of the plane sizes reduced modulo the range
of `size_t`: every addition of the loop is an addition in `size_t`. -/
theorem request_size_eq_sum (size_mod : Nat) (bo : Bo) :
    rockchip_request_size size_mod bo
      = (∑ p in Finset.range bo.num_planes, bo.sizes p) % size_mod := by
  unfold rockchip_request_size
  have key : ∀ n,
      (List.range n).foldl (fun size plane => (size + bo.sizes plane) % size_mod) 0
        = (∑ p in Finset.range n, bo.sizes p) % size_mod := by
    intro n
    induction n with
    | zero => simp
    | succ n ih =>
      rw [List.range_succ, List.foldl_append, ih, Finset.sum_range_succ]
      simp only [List.foldl_cons, List.foldl_nil]
      exact Nat.mod_add_mod _ _ _
  exact key bo.num_planes

/-- The tail of `rockchip_bo_create`: one gem-create for the sum of the plane
sizes reduced modulo the range of `size_t`, and on success the handle in
every plane. -/
theorem alloc_sum (size_mod : Nat) (k : Kernel) (w : World) (bo : Bo) :
    (rockchip_bo_create_alloc size_mod k w bo).bo.sizes = bo.sizes ∧
    (rockchip_bo_create_alloc size_mod k w bo).world.trace
      = w.trace ++ [Ioctl.ROCKCHIP_GEM_CREATE
          ((∑ p in Finset.range bo.num_planes, bo.sizes p) % size_mod)] ∧
    ((k w.trace (.ROCKCHIP_GEM_CREATE
          ((∑ p in Finset.range bo.num_planes, bo.sizes p) % size_mod))).ret = 0 →
      (rockchip_bo_create_alloc size_mod k w bo).outcome = .returned 0 ∧
      ∀ p, p < bo.num_planes → (rockchip_bo_create_alloc size_mod k w bo).bo.handles p
        = (k w.trace (.ROCKCHIP_GEM_CREATE
            ((∑ p in Finset.range bo.num_planes, bo.sizes p) % size_mod))).handle
          % UINT32) := by
  obtain ⟨htr, ho, -, -, hsz, -, hh, -⟩ := alloc_spec size_mod k w bo
  rw [request_size_eq_sum size_mod bo] at htr ho hh
  refine ⟨hsz, htr, fun hret => ⟨by rw [ho, hret], fun p hp => ?_⟩⟩
  rw [hh hret]
  simp only [if_pos hp]

/-- The sum of the sizes of a two-plane BO whose planes 0 and 1 were just
stored. -/
theorem sum_two_planes (f : Nat → Nat) (a b : Nat) :
    ∑ p in Finset.range 2, store (store f 0 a) 1 b p = a + b := by
  rw [Finset.sum_range_succ, Finset.sum_range_one, store_other _ 1 _ 0 (by decide),
    store_same, store_same]

/-- The sum of the sizes of a one-plane BO whose plane 0 was just stored. -/
theorem sum_one_plane (f : Nat → Nat) (a : Nat) :
    ∑ p in Finset.range 1, store f 0 a p = a := by
  rw [Finset.sum_range_one, store_same]

/-! ## C10: the single rockchip allocation -/

/-- The plane count of the four formats `rockchip_bo_create` supports. -/
theorem num_planes_supported (c : DrvHeader) :
    drv_num_planes_from_format c c.DRV_FORMAT_NV12 = 2 ∧
    drv_num_planes_from_format c c.DRV_FORMAT_XRGB8888 = 1 ∧
    drv_num_planes_from_format c c.DRV_FORMAT_ARGB8888 = 1 ∧
    drv_num_planes_from_format c c.DRV_FORMAT_ABGR8888 = 1 := by
  obtain ⟨⟨h1, h2, h3⟩, -, -⟩ := formats_ne c
  unfold drv_num_planes_from_format
  refine ⟨by rw [if_pos rfl], ?_, ?_, ?_⟩
  · rw [if_neg h1, if_pos (by simp)]
  · rw [if_neg h2, if_pos (by simp)]
  · rw [if_neg h3, if_pos (by simp)]

/-- Counterexample to C10 as stated: with a 32-bit `size_t` (ILP32), NV12
65536x49152 on a two-plane BO gets sizes[0] = 3221225472 and
sizes[1] = 1610612736, whose sum 4831838208 does not fit `size_t`; the single
gem-create asks for 536870912 bytes, not for the sum, and the call still
succeeds and returns 0. -/
theorem C10_counterexample :
    (rockchip_bo_create drv_h true SIZE_T_ILP32 kernel_ok world0 (bo0 2) 65536 49152
      drv_h.DRV_FORMAT_NV12 0).bo.sizes 0 = 3221225472 ∧
    (rockchip_bo_create drv_h true SIZE_T_ILP32 kernel_ok world0 (bo0 2) 65536 49152
      drv_h.DRV_FORMAT_NV12 0).bo.sizes 1 = 1610612736 ∧
    (rockchip_bo_create drv_h true SIZE_T_ILP32 kernel_ok world0 (bo0 2) 65536 49152
      drv_h.DRV_FORMAT_NV12 0).world.trace = [.ROCKCHIP_GEM_CREATE 536870912] ∧
    (rockchip_bo_create drv_h true SIZE_T_ILP32 kernel_ok world0 (bo0 2) 65536 49152
      drv_h.DRV_FORMAT_NV12 0).outcome = .returned 0 ∧
    (rockchip_bo_create drv_h true SIZE_T_ILP32 kernel_ok world0 (bo0 2) 65536 49152
      drv_h.DRV_FORMAT_NV12 0).world.trace
      ≠ [.ROCKCHIP_GEM_CREATE (3221225472 + 1610612736)] := by
  refine ⟨rfl, rfl, rfl, rfl, ?_⟩
  decide

/-- C10 (amended). For every supported format, when the BO's num_planes equals
the format's plane count, `rockchip_bo_create` issues exactly one ioctl, a
gem-create whose requested size is the sum of sizes[p] over p < num_planes
(sizes[0] + sizes[1] for NV12) reduced modulo the range of `size_t`. The sum
is below 2^33, so the request is the exact sum on every platform whose
`size_t` has at least 33 bits (LP64 in particular); with a 32-bit `size_t` it
is the sum modulo 2^32. When that ioctl succeeds the single returned kernel
handle is stored in handles[p] for every p < num_planes (so both NV12 plane
handles are equal) and the call returns 0. -/
theorem C10_single_allocation (c : DrvHeader) (ndebug : Bool) (size_mod : Nat) (k : Kernel)
    (w : World) (bo : Bo) (width height format flags : Nat)
    (hfmt : format = c.DRV_FORMAT_NV12 ∨ format = c.DRV_FORMAT_XRGB8888 ∨
      format = c.DRV_FORMAT_ARGB8888 ∨ format = c.DRV_FORMAT_ABGR8888)
    (hnp : bo.num_planes = drv_num_planes_from_format c format) :
    (rockchip_bo_create c ndebug size_mod k w bo width height format flags).world.trace
      = w.trace ++ [Ioctl.ROCKCHIP_GEM_CREATE ((∑ p in Finset.range bo.num_planes,
          (rockchip_bo_create c ndebug size_mod k w bo width height format flags).bo.sizes p)
            % size_mod)] ∧
    ∑ p in Finset.range bo.num_planes,
        (rockchip_bo_create c ndebug size_mod k w bo width height format flags).bo.sizes p
      < 2 * UINT32 ∧
    (2 * UINT32 ≤ size_mod →
      (∑ p in Finset.range bo.num_planes,
          (rockchip_bo_create c ndebug size_mod k w bo width height format flags).bo.sizes p)
            % size_mod
        = ∑ p in Finset.range bo.num_planes,
          (rockchip_bo_create c ndebug size_mod k w bo width height format flags).bo.sizes p) ∧
    (format = c.DRV_FORMAT_NV12 →
      ∑ p in Finset.range bo.num_planes,
          (rockchip_bo_create c ndebug size_mod k w bo width height format flags).bo.sizes p
        = (rockchip_bo_create c ndebug size_mod k w bo width height format flags).bo.sizes 0
          + (rockchip_bo_create c ndebug size_mod k w bo width height format flags).bo.sizes 1) ∧
    ((k w.trace (.ROCKCHIP_GEM_CREATE ((∑ p in Finset.range bo.num_planes,
          (rockchip_bo_create c ndebug size_mod k w bo width height format flags).bo.sizes p)
            % size_mod))).ret = 0 →
      (rockchip_bo_create c ndebug size_mod k w bo width height format flags).outcome
        = .returned 0 ∧
      (∀ p, p < bo.num_planes →
        (rockchip_bo_create c ndebug size_mod k w bo width height format flags).bo.handles p
          = (k w.trace (.ROCKCHIP_GEM_CREATE ((∑ p in Finset.range bo.num_planes,
              (rockchip_bo_create c ndebug size_mod k w bo width height format flags).bo.sizes p)
                % size_mod))).handle % UINT32) ∧
      (format = c.DRV_FORMAT_NV12 →
        (rockchip_bo_create c ndebug size_mod k w bo width height format flags).bo.handles 0
          = (rockchip_bo_create c ndebug size_mod k w bo width height format flags).bo.handles 1))
    := by
  rcases hfmt with rfl | hrgb
  · have hW : ALIGN width 4 = .ok ((width + 4 - 1) % UINT32 / 4 * 4 % UINT32) := by
      unfold ALIGN
      rw [if_neg (by decide)]
    have hH : ALIGN height 4 = .ok ((height + 4 - 1) % UINT32 / 4 * 4 % UINT32) := by
      unfold ALIGN
      rw [if_neg (by decide)]
    rw [rockchip_nv12 c ndebug size_mod k w bo width height flags _ _ hW hH]
    rw [(num_planes_supported c).1] at hnp
    obtain ⟨hsz, htr, hret⟩ := alloc_sum size_mod k w
      { bo with
        strides := store (store bo.strides 1 ((width + 4 - 1) % UINT32 / 4 * 4 % UINT32)) 0
          ((width + 4 - 1) % UINT32 / 4 * 4 % UINT32)
        sizes := store (store bo.sizes 0
            ((height + 4 - 1) % UINT32 / 4 * 4 % UINT32 *
              ((width + 4 - 1) % UINT32 / 4 * 4 % UINT32) % UINT32)) 1
            ((height + 4 - 1) % UINT32 / 4 * 4 % UINT32 *
              ((width + 4 - 1) % UINT32 / 4 * 4 % UINT32) % UINT32 / 2)
        offsets := store (store bo.offsets 0 0) 1
            ((height + 4 - 1) % UINT32 / 4 * 4 % UINT32 *
              ((width + 4 - 1) % UINT32 / 4 * 4 % UINT32) % UINT32) }
    rw [hsz]
    simp only at htr hret ⊢
    have hlt := Nat.mod_lt ((height + 4 - 1) % UINT32 / 4 * 4 % UINT32 *
      ((width + 4 - 1) % UINT32 / 4 * 4 % UINT32)) (by decide : UINT32 > 0)
    have hbound : ∑ p in Finset.range bo.num_planes,
        store (store bo.sizes 0
            ((height + 4 - 1) % UINT32 / 4 * 4 % UINT32 *
              ((width + 4 - 1) % UINT32 / 4 * 4 % UINT32) % UINT32)) 1
            ((height + 4 - 1) % UINT32 / 4 * 4 % UINT32 *
              ((width + 4 - 1) % UINT32 / 4 * 4 % UINT32) % UINT32 / 2) p < 2 * UINT32 := by
      rw [hnp, sum_two_planes]
      omega
    refine ⟨htr, hbound, fun hle => Nat.mod_eq_of_lt (lt_of_lt_of_le hbound hle), fun _ => ?_,
      fun hk => ⟨(hret hk).1, (hret hk).2, fun _ => ?_⟩⟩
    · rw [hnp, Finset.sum_range_succ, Finset.sum_range_one]
    · rw [(hret hk).2 0 (by rw [hnp]; decide), (hret hk).2 1 (by rw [hnp]; decide)]
  · have hne : format ≠ c.DRV_FORMAT_NV12 := by
      obtain ⟨⟨h1, h2, h3⟩, -, -⟩ := formats_ne c
      rcases hrgb with rfl | rfl | rfl <;> assumption
    have hnp1 : bo.num_planes = 1 := by
      rw [hnp]
      rcases hrgb with rfl | rfl | rfl
      · exact (num_planes_supported c).2.1
      · exact (num_planes_supported c).2.2.1
      · exact (num_planes_supported c).2.2.2
    rw [rockchip_rgb c ndebug size_mod k w bo width height format flags hrgb]
    obtain ⟨hsz, htr, hret⟩ := alloc_sum size_mod k w
      { bo with
        strides := store bo.strides 0 (toU32 (drv_stride_from_format c format width))
        sizes := store bo.sizes 0
          (height * toU32 (drv_stride_from_format c format width) % UINT32)
        offsets := store bo.offsets 0 0 }
    rw [hsz]
    simp only at htr hret ⊢
    have hlt := Nat.mod_lt (height * toU32 (drv_stride_from_format c format width))
      (by decide : UINT32 > 0)
    have hbound : ∑ p in Finset.range bo.num_planes,
        store bo.sizes 0
          (height * toU32 (drv_stride_from_format c format width) % UINT32) p
          < 2 * UINT32 := by
      rw [hnp1, sum_one_plane]
      omega
    exact ⟨htr, hbound, fun hle => Nat.mod_eq_of_lt (lt_of_lt_of_le hbound hle),
      fun h => absurd h hne, fun hk => ⟨(hret hk).1, (hret hk).2, fun h => absurd h hne⟩⟩

/-- Concrete instance of C10: NV12 1280x720 on a two-plane BO with a 64-bit
`size_t`: one gem-create for 921600 + 460800 = 1382400 bytes, both plane
handles are the returned handle 7, and the call returns 0. -/
theorem C10_single_allocation_witness :
    (rockchip_bo_create drv_h true SIZE_T_LP64 kernel_ok world0 (bo0 2) 1280 720
      drv_h.DRV_FORMAT_NV12 0).world.trace = [.ROCKCHIP_GEM_CREATE 1382400] ∧
    (rockchip_bo_create drv_h true SIZE_T_LP64 kernel_ok world0 (bo0 2) 1280 720
      drv_h.DRV_FORMAT_NV12 0).bo.handles 0 = 7 ∧
    (rockchip_bo_create drv_h true SIZE_T_LP64 kernel_ok world0 (bo0 2) 1280 720
      drv_h.DRV_FORMAT_NV12 0).bo.handles 1 = 7 ∧
    (rockchip_bo_create drv_h true SIZE_T_LP64 kernel_ok world0 (bo0 2) 1280 720
      drv_h.DRV_FORMAT_NV12 0).outcome = .returned 0 ∧
    (rockchip_bo_create drv_h true SIZE_T_LP64 kernel_ok world0 (bo0 2) 1280 720
      drv_h.DRV_FORMAT_NV12 0).world.trace
      = world0.trace ++ [Ioctl.ROCKCHIP_GEM_CREATE ((∑ p in Finset.range (bo0 2).num_planes,
          (rockchip_bo_create drv_h true SIZE_T_LP64 kernel_ok world0 (bo0 2) 1280 720
            drv_h.DRV_FORMAT_NV12 0).bo.sizes p) % SIZE_T_LP64)] :=
  ⟨rfl, rfl, rfl, rfl,
    (C10_single_allocation drv_h true SIZE_T_LP64 kernel_ok world0 (bo0 2) 1280 720
      drv_h.DRV_FORMAT_NV12 0 (Or.inl rfl) rfl).1⟩

/-! ## C11: a failed rockchip allocation -/

/-- Rounding up to a multiple of 4 never divides by zero. -/
theorem ALIGN_four (a : Nat) : ALIGN a 4 = .ok ((a + 4 - 1) % UINT32 / 4 * 4 % UINT32) := by
  unfold ALIGN
  rw [if_neg (by decide)]

/-- For a supported format `rockchip_bo_create` is its tail run on a BO that
differs from the given one only in the strides, sizes and offsets of the
planes below the format's plane count. -/
theorem rockchip_supported (c : DrvHeader) (ndebug : Bool) (size_mod : Nat) (k : Kernel) (w : World)
    (bo : Bo) (width height format flags : Nat)
    (hfmt : format = c.DRV_FORMAT_NV12 ∨ format = c.DRV_FORMAT_XRGB8888 ∨
      format = c.DRV_FORMAT_ARGB8888 ∨ format = c.DRV_FORMAT_ABGR8888) :
    ∃ bo1 : Bo, rockchip_bo_create c ndebug size_mod k w bo width height format flags
        = rockchip_bo_create_alloc size_mod k w bo1 ∧
      bo1.num_planes = bo.num_planes ∧ bo1.handles = bo.handles ∧
      ∀ p, drv_num_planes_from_format c format ≤ p →
        bo1.strides p = bo.strides p ∧ bo1.sizes p = bo.sizes p ∧
        bo1.offsets p = bo.offsets p := by
  rcases hfmt with rfl | hrgb
  · refine ⟨_, rockchip_nv12 c ndebug size_mod k w bo width height flags _ _ (ALIGN_four width)
      (ALIGN_four height), rfl, rfl, ?_⟩
    intro p hp
    rw [(num_planes_supported c).1] at hp
    have h0 : p ≠ 0 := by omega
    have h1 : p ≠ 1 := by omega
    simp only [store_other _ _ _ p h0, store_other _ _ _ p h1, and_self]
  · refine ⟨_, rockchip_rgb c ndebug size_mod k w bo width height format flags hrgb, rfl, rfl, ?_⟩
    intro p hp
    have hnp : drv_num_planes_from_format c format = 1 := by
      rcases hrgb with rfl | rfl | rfl
      · exact (num_planes_supported c).2.1
      · exact (num_planes_supported c).2.2.1
      · exact (num_planes_supported c).2.2.2
    rw [hnp] at hp
    have h0 : p ≠ 0 := by omega
    simp only [store_other _ _ _ p h0, and_self]

/-- The requested size depends on the plane count and the plane sizes only. -/
theorem request_size_congr (size_mod : Nat) (a b : Bo) (hn : a.num_planes = b.num_planes)
    (hs : a.sizes = b.sizes) : rockchip_request_size size_mod a = rockchip_request_size size_mod b := by
  unfold rockchip_request_size
  rw [hn, hs]

/-- C11. When the Rockchip gem-create ioctl fails (its return value is not
0), `rockchip_bo_create`, called for a supported format, returns the ioctl's
non-zero return value, has issued that one ioctl only, and leaves every BO
field unchanged except the strides, sizes and offsets of the planes below the
format's plane count: the plane count, every handles[p], and the strides,
sizes and offsets of all other planes are as before. -/
theorem C11_failed_allocation_frame (c : DrvHeader) (ndebug : Bool) (size_mod : Nat) (k : Kernel)
    (w : World) (bo : Bo) (width height format flags : Nat)
    (hfmt : format = c.DRV_FORMAT_NV12 ∨ format = c.DRV_FORMAT_XRGB8888 ∨
      format = c.DRV_FORMAT_ARGB8888 ∨ format = c.DRV_FORMAT_ABGR8888)
    (hfail : (k w.trace (.ROCKCHIP_GEM_CREATE (rockchip_request_size size_mod
      (rockchip_bo_create c ndebug size_mod k w bo width height format flags).bo))).ret ≠ 0) :
    (rockchip_bo_create c ndebug size_mod k w bo width height format flags).outcome
      = .returned (k w.trace (.ROCKCHIP_GEM_CREATE (rockchip_request_size size_mod
          (rockchip_bo_create c ndebug size_mod k w bo width height format flags).bo))).ret ∧
    (rockchip_bo_create c ndebug size_mod k w bo width height format flags).world.trace
      = w.trace ++ [Ioctl.ROCKCHIP_GEM_CREATE (rockchip_request_size size_mod
          (rockchip_bo_create c ndebug size_mod k w bo width height format flags).bo)] ∧
    (rockchip_bo_create c ndebug size_mod k w bo width height format flags).bo.num_planes
      = bo.num_planes ∧
    (∀ p, (rockchip_bo_create c ndebug size_mod k w bo width height format flags).bo.handles p
      = bo.handles p) ∧
    (∀ p, drv_num_planes_from_format c format ≤ p →
      (rockchip_bo_create c ndebug size_mod k w bo width height format flags).bo.strides p
        = bo.strides p ∧
      (rockchip_bo_create c ndebug size_mod k w bo width height format flags).bo.sizes p
        = bo.sizes p ∧
      (rockchip_bo_create c ndebug size_mod k w bo width height format flags).bo.offsets p
        = bo.offsets p) := by
  obtain ⟨bo1, heq, hn, hh, hframe⟩ :=
    rockchip_supported c ndebug size_mod k w bo width height format flags hfmt
  rw [heq] at hfail ⊢
  obtain ⟨htr, ho, hnp, hst, hsz, hof, -, hkeep⟩ := alloc_spec size_mod k w bo1
  have hS : rockchip_request_size size_mod (rockchip_bo_create_alloc size_mod k w bo1).bo
      = rockchip_request_size size_mod bo1 := request_size_congr size_mod _ _ hnp hsz
  rw [hS] at hfail ⊢
  refine ⟨ho, htr, by rw [hnp, hn], fun p => by rw [hkeep hfail, hh], fun p hp => ?_⟩
  rw [hst, hsz, hof]
  exact hframe p hp

/-- Concrete instance of C11: an NV12 5x5 request against a kernel whose
gem-create fails with return value -1: the call returns -1, both handles stay
0, and the strides, sizes and offsets of planes 0 and 1 are the ones filled
in before the ioctl. -/
theorem C11_failed_allocation_frame_witness :
    (rockchip_bo_create drv_h true SIZE_T_LP64 kernel_fail world0 (bo0 2) 5 5
      drv_h.DRV_FORMAT_NV12 0).outcome = .returned (-1) ∧
    (rockchip_bo_create drv_h true SIZE_T_LP64 kernel_fail world0 (bo0 2) 5 5
      drv_h.DRV_FORMAT_NV12 0).bo.strides 1 = 8 ∧
    (rockchip_bo_create drv_h true SIZE_T_LP64 kernel_fail world0 (bo0 2) 5 5
      drv_h.DRV_FORMAT_NV12 0).bo.sizes 1 = 32 ∧
    (rockchip_bo_create drv_h true SIZE_T_LP64 kernel_fail world0 (bo0 2) 5 5
      drv_h.DRV_FORMAT_NV12 0).world.trace = [.ROCKCHIP_GEM_CREATE 96] ∧
    (∀ p, (rockchip_bo_create drv_h true SIZE_T_LP64 kernel_fail world0 (bo0 2) 5 5
      drv_h.DRV_FORMAT_NV12 0).bo.handles p = (bo0 2).handles p) :=
  ⟨rfl, rfl, rfl, rfl,
    (C11_failed_allocation_frame drv_h true SIZE_T_LP64 kernel_fail world0 (bo0 2) 5 5
      drv_h.DRV_FORMAT_NV12 0 (Or.inl rfl) (by decide)).2.2.2.1⟩

/-! ## C12: a failed set-tiling on i915 -/

/-- When the set-tiling loop ends, its last request did not fail with a
transient error: not (`ret == -1` and `errno` is `EINTR` or `EAGAIN`). -/
theorem set_tiling_exit (k : Kernel) (h t s : Nat) :
    ∀ (fuel : Nat) (w w1 : World) (ret : Int),
      drv_i915_bo_create_set_tiling k fuel w h t s = (w1, some ret) →
      ¬ (ret = -1 ∧ (w1.errno = EINTR ∨ w1.errno = EAGAIN)) := by
  intro fuel
  induction fuel with
  | zero =>
    intro w w1 ret hl
    simp [drv_i915_bo_create_set_tiling] at hl
  | succ fuel ih =>
    intro w w1 ret hl
    unfold drv_i915_bo_create_set_tiling at hl
    simp only at hl
    split at hl
    · exact ih _ w1 ret hl
    · rename_i hcond
      simp only [Prod.mk.injEq, Option.some.injEq] at hl
      rw [← hl.1, ← hl.2]
      exact hcond

/-- The path of `drv_i915_bo_create` on which gem-create succeeds and the
set-tiling loop ends with `ret == -1`: one close request for the handle
gem-create returned is issued after the loop, and the value returned is the
negation of `errno` as it stands after that close: the `errno` of the close
when the close sets it, else the one `fprintf` left, else the one the loop
ended with. -/
theorem bo_create_set_tiling_failed (c : DrvHeader) (k : Kernel) (lg : Stderr) (fuel : Nat)
    (gen : Int) (w : World) (bo : Bo) (width height format flags W H : Nat) (w1 : World)
    (hal : i915_align_dimensions fuel gen (spec_tiling c flags) width height
      (drv_stride_from_format c format 1) = .ok (W, H))
    (hv : ¬ (gen ≤ 3 ∧ W * toU32 (drv_stride_from_format c format 1) % UINT32 > 8192))
    (hc : (k w.trace (.I915_GEM_CREATE
      (W * H % UINT32 * toU32 (drv_stride_from_format c format 1) % UINT32))).ret = 0)
    (hloop : drv_i915_bo_create_set_tiling k fuel
      (drmIoctl k w (.I915_GEM_CREATE
        (W * H % UINT32 * toU32 (drv_stride_from_format c format 1) % UINT32))).1
      ((k w.trace (.I915_GEM_CREATE
        (W * H % UINT32 * toU32 (drv_stride_from_format c format 1) % UINT32))).handle
          % UINT32)
      (spec_tiling c flags)
      (W * toU32 (drv_stride_from_format c format 1) % UINT32) = (w1, some (-1))) :
    (drv_i915_bo_create c k lg fuel gen w bo width height format flags).world.trace
      = w1.trace ++ [Ioctl.GEM_CLOSE ((k w.trace (.I915_GEM_CREATE
          (W * H % UINT32 * toU32 (drv_stride_from_format c format 1) % UINT32))).handle
            % UINT32)] ∧
    (drv_i915_bo_create c k lg fuel gen w bo width height format flags).outcome
      = .returned (-((k w1.trace (.GEM_CLOSE ((k w.trace (.I915_GEM_CREATE
          (W * H % UINT32 * toU32 (drv_stride_from_format c format 1) % UINT32))).handle
            % UINT32))).errno.getD ((lg w1.trace).getD w1.errno))) ∧
    w1.errno ≠ EINTR ∧ w1.errno ≠ EAGAIN := by
  have hexit := set_tiling_exit k _ _ _ fuel _ w1 (-1) hloop
  have hr : drv_i915_bo_create c k lg fuel gen w bo width height format flags
      = drv_i915_bo_create c k lg fuel gen w bo width height format flags := rfl
  conv at hr => rhs; unfold drv_i915_bo_create
  simp only [tiling_eq_spec, hal, store_same, verify_eq_zero_iff] at hr
  rw [if_neg hv] at hr
  have hc2 : ¬ (drmIoctl k w (Ioctl.I915_GEM_CREATE
      (W * H % UINT32 * toU32 (drv_stride_from_format c format 1) % UINT32))).2.ret ≠ 0 :=
    not_not.mpr hc
  rw [if_neg hc2] at hr
  have hloop2 : drv_i915_bo_create_set_tiling k fuel
      (drmIoctl k w (Ioctl.I915_GEM_CREATE
        (W * H % UINT32 * toU32 (drv_stride_from_format c format 1) % UINT32))).1
      ((drmIoctl k w (Ioctl.I915_GEM_CREATE
        (W * H % UINT32 * toU32 (drv_stride_from_format c format 1) % UINT32))).2.handle
          % UINT32)
      (spec_tiling c flags)
      (W * toU32 (drv_stride_from_format c format 1) % UINT32) = (w1, some (-1)) := hloop
  rw [hloop2] at hr
  simp only [if_true] at hr
  rw [hr]
  refine ⟨rfl, rfl, ?_, ?_⟩
  · intro h
    exact hexit ⟨rfl, Or.inl h⟩
  · intro h
    exact hexit ⟨rfl, Or.inr h⟩

/-- C12 at a failing input: generation 4, XRGB8888 64x64, flags = scanout,
against a kernel on which gem-create succeeds with handle 7, set-tiling fails
with `EINVAL` (22) and the close of handle 7 fails with `EBADF` (9). One
set-tiling and one close for handle 7 are issued, but the call returns -9,
the negated `errno` of the close, not -22, the negated `errno` of the failed
set-tiling call. Against a kernel whose set-tiling fails with `EINTR`, then
`EAGAIN`, then `EINVAL` and whose close leaves `errno` alone, the same
request is issued three times, one close follows, and the call returns -22
as long as the `fprintf` between the loop and the close leaves `errno` alone;
when that `fprintf` fails with `ENOTTY` (25) the same run returns -25, and a
failing close still has the last word (-9). -/
theorem C12_return_value_follows_close :
    (drv_i915_bo_create drv_h kernel_close_fails stderr_quiet 5 4 world0 (bo0 1) 64 64
      drv_h.DRV_FORMAT_XRGB8888 drv_h.DRV_BO_USE_SCANOUT).world.trace
      = [.I915_GEM_CREATE 32768, .I915_GEM_SET_TILING 7 I915_TILING_X 512, .GEM_CLOSE 7] ∧
    (drv_i915_bo_create drv_h kernel_close_fails stderr_quiet 5 4 world0 (bo0 1) 64 64
      drv_h.DRV_FORMAT_XRGB8888 drv_h.DRV_BO_USE_SCANOUT).outcome = .returned (-9) ∧
    (drv_i915_bo_create drv_h kernel_close_fails stderr_quiet 5 4 world0 (bo0 1) 64 64
      drv_h.DRV_FORMAT_XRGB8888 drv_h.DRV_BO_USE_SCANOUT).outcome ≠ .returned (-EINVAL) ∧
    (drv_i915_bo_create drv_h kernel_retry_then_fail stderr_quiet 5 4 world0 (bo0 1) 64 64
      drv_h.DRV_FORMAT_XRGB8888 drv_h.DRV_BO_USE_SCANOUT).world.trace
      = [.I915_GEM_CREATE 32768, .I915_GEM_SET_TILING 7 I915_TILING_X 512,
         .I915_GEM_SET_TILING 7 I915_TILING_X 512,
         .I915_GEM_SET_TILING 7 I915_TILING_X 512, .GEM_CLOSE 7] ∧
    (drv_i915_bo_create drv_h kernel_retry_then_fail stderr_quiet 5 4 world0 (bo0 1) 64 64
      drv_h.DRV_FORMAT_XRGB8888 drv_h.DRV_BO_USE_SCANOUT).outcome = .returned (-EINVAL) ∧
    (drv_i915_bo_create drv_h kernel_retry_then_fail stderr_enotty 5 4 world0 (bo0 1) 64 64
      drv_h.DRV_FORMAT_XRGB8888 drv_h.DRV_BO_USE_SCANOUT).world.trace
      = [.I915_GEM_CREATE 32768, .I915_GEM_SET_TILING 7 I915_TILING_X 512,
         .I915_GEM_SET_TILING 7 I915_TILING_X 512,
         .I915_GEM_SET_TILING 7 I915_TILING_X 512, .GEM_CLOSE 7] ∧
    (drv_i915_bo_create drv_h kernel_retry_then_fail stderr_enotty 5 4 world0 (bo0 1) 64 64
      drv_h.DRV_FORMAT_XRGB8888 drv_h.DRV_BO_USE_SCANOUT).outcome = .returned (-25) ∧
    (drv_i915_bo_create drv_h kernel_close_fails stderr_enotty 5 4 world0 (bo0 1) 64 64
      drv_h.DRV_FORMAT_XRGB8888 drv_h.DRV_BO_USE_SCANOUT).outcome = .returned (-9) :=
  ⟨rfl, rfl, by decide, rfl, rfl, rfl, rfl, rfl⟩

/-! ## C13: the capability tables -/

/-- Format codes at different positions of the header's list differ. -/
theorem format_ne_of_index (c : DrvHeader) {x y : Nat} (i j : Fin 14)
    (hx : c.formats.get i = x) (hy : c.formats.get j = y) (hij : i ≠ j) : x ≠ y := by
  intro e
  have hinj : Function.Injective c.formats.get :=
    List.nodup_iff_injective_get.mp c.formats_distinct
  have : c.formats.get i = c.formats.get j := by rw [hx, hy, e]
  exact hij (hinj this)

/-- XBGR8888 differs from every other format of the i915 table. -/
theorem xbgr_ne (c : DrvHeader) :
    c.DRV_FORMAT_XBGR8888 ≠ c.DRV_FORMAT_XRGB8888 ∧
    c.DRV_FORMAT_XBGR8888 ≠ c.DRV_FORMAT_ARGB8888 ∧
    c.DRV_FORMAT_XBGR8888 ≠ c.DRV_FORMAT_ABGR8888 ∧
    c.DRV_FORMAT_XBGR8888 ≠ c.DRV_FORMAT_XRGB1555 ∧
    c.DRV_FORMAT_XBGR8888 ≠ c.DRV_FORMAT_ARGB1555 ∧
    c.DRV_FORMAT_XBGR8888 ≠ c.DRV_FORMAT_RGB565 ∧
    c.DRV_FORMAT_XBGR8888 ≠ c.DRV_FORMAT_UYVY ∧
    c.DRV_FORMAT_XBGR8888 ≠ c.DRV_FORMAT_YUYV ∧
    c.DRV_FORMAT_XBGR8888 ≠ c.DRV_FORMAT_R8 ∧
    c.DRV_FORMAT_XBGR8888 ≠ c.DRV_FORMAT_GR88 ∧
    c.DRV_FORMAT_XBGR8888 ≠ c.DRV_FORMAT_NV12 :=
  ⟨format_ne_of_index c 2 0 rfl rfl (by decide), format_ne_of_index c 2 1 rfl rfl (by decide),
   format_ne_of_index c 2 3 rfl rfl (by decide), format_ne_of_index c 2 4 rfl rfl (by decide),
   format_ne_of_index c 2 5 rfl rfl (by decide), format_ne_of_index c 2 6 rfl rfl (by decide),
   format_ne_of_index c 2 7 rfl rfl (by decide), format_ne_of_index c 2 8 rfl rfl (by decide),
   format_ne_of_index c 2 9 rfl rfl (by decide), format_ne_of_index c 2 10 rfl rfl (by decide),
   format_ne_of_index c 2 11 rfl rfl (by decide)⟩

/-- ABGR8888 differs from every other format of the two tables. -/
theorem abgr_ne (c : DrvHeader) :
    c.DRV_FORMAT_ABGR8888 ≠ c.DRV_FORMAT_XRGB8888 ∧
    c.DRV_FORMAT_ABGR8888 ≠ c.DRV_FORMAT_ARGB8888 ∧
    c.DRV_FORMAT_ABGR8888 ≠ c.DRV_FORMAT_XBGR8888 ∧
    c.DRV_FORMAT_ABGR8888 ≠ c.DRV_FORMAT_XRGB1555 ∧
    c.DRV_FORMAT_ABGR8888 ≠ c.DRV_FORMAT_ARGB1555 ∧
    c.DRV_FORMAT_ABGR8888 ≠ c.DRV_FORMAT_RGB565 ∧
    c.DRV_FORMAT_ABGR8888 ≠ c.DRV_FORMAT_UYVY ∧
    c.DRV_FORMAT_ABGR8888 ≠ c.DRV_FORMAT_YUYV ∧
    c.DRV_FORMAT_ABGR8888 ≠ c.DRV_FORMAT_R8 ∧
    c.DRV_FORMAT_ABGR8888 ≠ c.DRV_FORMAT_GR88 ∧
    c.DRV_FORMAT_ABGR8888 ≠ c.DRV_FORMAT_NV12 :=
  ⟨format_ne_of_index c 3 0 rfl rfl (by decide), format_ne_of_index c 3 1 rfl rfl (by decide),
   format_ne_of_index c 3 2 rfl rfl (by decide), format_ne_of_index c 3 4 rfl rfl (by decide),
   format_ne_of_index c 3 5 rfl rfl (by decide), format_ne_of_index c 3 6 rfl rfl (by decide),
   format_ne_of_index c 3 7 rfl rfl (by decide), format_ne_of_index c 3 8 rfl rfl (by decide),
   format_ne_of_index c 3 9 rfl rfl (by decide), format_ne_of_index c 3 10 rfl rfl (by decide),
   format_ne_of_index c 3 11 rfl rfl (by decide)⟩

/-- NV12 differs from the three other formats of the rockchip table. -/
theorem nv12_ne (c : DrvHeader) :
    c.DRV_FORMAT_NV12 ≠ c.DRV_FORMAT_XRGB8888 ∧
    c.DRV_FORMAT_NV12 ≠ c.DRV_FORMAT_ARGB8888 ∧
    c.DRV_FORMAT_NV12 ≠ c.DRV_FORMAT_ABGR8888 :=
  ⟨format_ne_of_index c 11 0 rfl rfl (by decide), format_ne_of_index c 11 1 rfl rfl (by decide),
   format_ne_of_index c 11 3 rfl rfl (by decide)⟩

/-- C13. Each backend's static capability table equals the spec's enumeration
exactly, as a set of (format, usage-mask) pairs: `backend_i915.format_list`
has the 15 pairs listed for i915 and `backend_rockchip.format_list` the 7
pairs listed for Rockchip, and no other pair is present. In the i915 table
XBGR8888 and ABGR8888 have only the {scanout|cursor|rendering} entry; in the
Rockchip table ABGR8888 has only the first mask; and, the usage bits being
pairwise disjoint, no XBGR8888 or ABGR8888 entry of the i915 table has the
linear bit and no NV12 entry of the Rockchip table has the cursor bit. -/
theorem C13_capability_tables (c : DrvHeader) :
    (∀ p, p ∈ backend_i915_format_list c ↔ p ∈ spec_i915_capabilities c) ∧
    (backend_i915_format_list c).length = 15 ∧
    (∀ p, p ∈ backend_rockchip_format_list c ↔ p ∈ spec_rockchip_capabilities c) ∧
    (backend_rockchip_format_list c).length = 7 ∧
    (∀ m, (c.DRV_FORMAT_XBGR8888, m) ∈ backend_i915_format_list c ↔
      m = c.DRV_BO_USE_SCANOUT ||| c.DRV_BO_USE_CURSOR ||| c.DRV_BO_USE_RENDERING) ∧
    (∀ m, (c.DRV_FORMAT_ABGR8888, m) ∈ backend_i915_format_list c ↔
      m = c.DRV_BO_USE_SCANOUT ||| c.DRV_BO_USE_CURSOR ||| c.DRV_BO_USE_RENDERING) ∧
    (∀ m, (c.DRV_FORMAT_ABGR8888, m) ∈ backend_rockchip_format_list c ↔
      m = c.DRV_BO_USE_SCANOUT ||| c.DRV_BO_USE_CURSOR ||| c.DRV_BO_USE_RENDERING |||
        c.DRV_BO_USE_HW_TEXTURE ||| c.DRV_BO_USE_HW_RENDER ||| c.DRV_BO_USE_HW_2D |||
        c.DRV_BO_USE_SW_READ_RARELY ||| c.DRV_BO_USE_SW_WRITE_RARELY) ∧
    (UsageBitsDisjoint c →
      (∀ m, (c.DRV_FORMAT_XBGR8888, m) ∈ backend_i915_format_list c →
        m &&& c.DRV_BO_USE_LINEAR = 0) ∧
      (∀ m, (c.DRV_FORMAT_ABGR8888, m) ∈ backend_i915_format_list c →
        m &&& c.DRV_BO_USE_LINEAR = 0) ∧
      (∀ m, (c.DRV_FORMAT_NV12, m) ∈ backend_rockchip_format_list c →
        m &&& c.DRV_BO_USE_CURSOR = 0)) := by
  obtain ⟨x0, x1, x3, x4, x5, x6, x7, x8, x9, x10, x11⟩ := xbgr_ne c
  obtain ⟨a0, a1, a2, a4, a5, a6, a7, a8, a9, a10, a11⟩ := abgr_ne c
  obtain ⟨n0, n1, n3⟩ := nv12_ne c
  have hx : ∀ m, (c.DRV_FORMAT_XBGR8888, m) ∈ backend_i915_format_list c ↔
      m = c.DRV_BO_USE_SCANOUT ||| c.DRV_BO_USE_CURSOR ||| c.DRV_BO_USE_RENDERING := by
    intro m
    simp [backend_i915_format_list, x0, x1, x3, x4, x5, x6, x7, x8, x9, x10]
  have ha : ∀ m, (c.DRV_FORMAT_ABGR8888, m) ∈ backend_i915_format_list c ↔
      m = c.DRV_BO_USE_SCANOUT ||| c.DRV_BO_USE_CURSOR ||| c.DRV_BO_USE_RENDERING := by
    intro m
    simp [backend_i915_format_list, a0, a1, a2, a4, a5, a6, a7, a8, a9, a10]
  refine ⟨?_, rfl, ?_, rfl, hx, ha, ?_, ?_⟩
  · intro p
    simp only [backend_i915_format_list, spec_i915_capabilities, List.flatMap_cons,
      List.flatMap_nil, List.map_cons, List.map_nil, List.append_nil, List.cons_append,
      List.nil_append, List.singleton_append]
  · intro p
    simp only [backend_rockchip_format_list, spec_rockchip_capabilities, List.map_cons,
      List.map_nil, List.cons_append, List.nil_append, List.mem_cons, List.mem_singleton,
      List.not_mem_nil, or_false]
    tauto
  · intro m
    simp [backend_rockchip_format_list, a0, a1, a11]
  · intro hd
    simp only [UsageBitsDisjoint, List.pairwise_cons, List.mem_cons, List.mem_singleton,
      forall_eq_or_imp, forall_eq, List.not_mem_nil, List.Pairwise.nil, and_true] at hd
    have hdist : ∀ a b l : Nat, (a ||| b) &&& l = (a &&& l) ||| (b &&& l) := by
      intro a b l
      rw [Nat.and_comm, Nat.and_or_distrib_left, Nat.and_comm l a, Nat.and_comm l b]
    obtain ⟨cR, cL, cHT, cHR, cH2, cRR, cRO, cWR, cWO⟩ := hd.2.1
    have cS : c.DRV_BO_USE_CURSOR &&& c.DRV_BO_USE_SCANOUT = 0 := by
      rw [Nat.and_comm]
      exact hd.1.1
    refine ⟨?_, ?_, ?_⟩
    · intro m hm
      rw [(hx m).mp hm]
      simp only [hdist, hd.1.2.2.1, cL, hd.2.2.1.1, Nat.or_zero]
    · intro m hm
      rw [(ha m).mp hm]
      simp only [hdist, hd.1.2.2.1, cL, hd.2.2.1.1, Nat.or_zero]
    · intro m hm
      have hm' : m = c.DRV_BO_USE_SCANOUT ||| c.DRV_BO_USE_RENDERING |||
            c.DRV_BO_USE_HW_TEXTURE ||| c.DRV_BO_USE_HW_RENDER |||
            c.DRV_BO_USE_HW_2D ||| c.DRV_BO_USE_SW_READ_RARELY |||
            c.DRV_BO_USE_SW_WRITE_RARELY ∨
          m = c.DRV_BO_USE_SCANOUT ||| c.DRV_BO_USE_LINEAR |||
            c.DRV_BO_USE_SW_READ_OFTEN ||| c.DRV_BO_USE_SW_WRITE_OFTEN := by
        simpa [backend_rockchip_format_list, n0, n1, n3] using hm
      rcases hm' with rfl | rfl
      · rw [Nat.and_comm]
        simp only [Nat.and_or_distrib_left, cS, cR, cHT, cHR, cH2, cRR, cWR, Nat.or_zero]
      · rw [Nat.and_comm]
        simp only [Nat.and_or_distrib_left, cS, cL, cRO, cWO, Nat.or_zero]

/-- Concrete instance of C13: with the usage bits at distinct positions and
the four-character format codes, the 15 and the 7 pairs are pairwise distinct,
the bits are disjoint, and no NV12 entry of the Rockchip table has the cursor
bit. -/
theorem C13_capability_tables_witness :
    (backend_i915_format_list drv_h).Nodup ∧
    (backend_rockchip_format_list drv_h).Nodup ∧
    UsageBitsDisjoint drv_h ∧
    (∀ m, (drv_h.DRV_FORMAT_NV12, m) ∈ backend_rockchip_format_list drv_h →
      m &&& drv_h.DRV_BO_USE_CURSOR = 0) :=
  ⟨by decide, by decide, by unfold UsageBitsDisjoint; decide,
    ((C13_capability_tables drv_h).2.2.2.2.2.2.2 (by unfold UsageBitsDisjoint; decide)).2.2⟩

/-! ## C14: stride against aligned width times bytes per pixel -/

/-- The bytes per pixel `drv_i915_bo_create` works with, the stride of a
one-pixel row, is the descriptor's bytes per pixel of plane 0. -/
theorem stride_one_eq_bpp (c : DrvHeader) (format : Nat) :
    drv_stride_from_format c format 1 = drv_bpp_from_format c format 0 := by
  unfold drv_stride_from_format
  simp

/-- The descriptor's bytes per pixel of the formats rockchip supports. -/
theorem bpp_supported (c : DrvHeader) :
    drv_bpp_from_format c c.DRV_FORMAT_NV12 0 = 1 ∧
    drv_bpp_from_format c c.DRV_FORMAT_NV12 1 = 2 ∧
    drv_bpp_from_format c c.DRV_FORMAT_XRGB8888 0 = 4 ∧
    drv_bpp_from_format c c.DRV_FORMAT_ARGB8888 0 = 4 ∧
    drv_bpp_from_format c c.DRV_FORMAT_ABGR8888 0 = 4 := by
  obtain ⟨⟨h1, h2, h3⟩, -, -⟩ := formats_ne c
  unfold drv_bpp_from_format
  refine ⟨by simp, by simp, ?_, ?_, ?_⟩
  · rw [if_neg h1]
    simp
  · rw [if_neg h2]
    simp
  · rw [if_neg h3]
    simp

/-- A call of `i915_align_dimensions` that returns was given a non-zero
`bpp`. -/
theorem align_ok_bpp_ne_zero (fuel : Nat) (gen : Int) (t width height : Nat) (bpp : Int)
    (W H : Nat) (hal : i915_align_dimensions fuel gen t width height bpp = .ok (W, H)) :
    bpp ≠ 0 := by
  intro h0
  unfold i915_align_dimensions at hal
  rw [if_pos h0] at hal
  cases hal

/-- After a call of `drv_i915_bo_create` that returns 0 the dimensions were
aligned to some `(W, H)` and strides[0] is `W × bpp mod 2^32`, with `bpp` one
of 1, 2 and 4. -/
theorem bo_create_ok_stride (c : DrvHeader) (k : Kernel) (lg : Stderr) (fuel : Nat) (gen : Int)
    (w : World) (bo : Bo) (width height format flags : Nat)
    (hok : (drv_i915_bo_create c k lg fuel gen w bo width height format flags).outcome
      = .returned 0) :
    ∃ W H b, i915_align_dimensions fuel gen (drv_i915_bo_create_tiling c flags) width height
        (drv_stride_from_format c format 1) = .ok (W, H) ∧
      (b = 1 ∨ b = 2 ∨ b = 4) ∧ drv_bpp_from_format c format 0 = (b : Int) ∧
      (drv_i915_bo_create c k lg fuel gen w bo width height format flags).bo.strides 0
        = W * b % UINT32 := by
  rw [tiling_eq_spec]
  rcases hal : i915_align_dimensions fuel gen (spec_tiling c flags) width height
      (drv_stride_from_format c format 1) with f | ⟨W, H⟩
  · rw [bo_create_fault c k lg fuel gen w bo width height format flags f hal] at hok
    cases hok
  · have hne := align_ok_bpp_ne_zero _ _ _ _ _ _ W H hal
    obtain ⟨-, hstr, -⟩ := bo_create_cases c k lg fuel gen w bo width height format flags W H hal
    rw [hstr, store_same]
    rw [← stride_one_eq_bpp]
    rcases bpp_values c format with h | h | h | h
    · exact absurd h hne
    · exact ⟨W, H, 1, rfl, Or.inl rfl, by rw [h]; try rfl, by rw [h]; try rfl⟩
    · exact ⟨W, H, 2, rfl, Or.inr (Or.inl rfl), by rw [h]; try rfl, by rw [h]; try rfl⟩
    · exact ⟨W, H, 4, rfl, Or.inr (Or.inr rfl), by rw [h]; try rfl, by rw [h]; try rfl⟩

/-- C14, as stated, fails. Rockchip, NV12 5x5 (the create succeeds): the
aligned width is 8, plane 1 is below the plane count 2 and has bpp 2, and
strides[1] = 8, which is not ≥ 8 × 2. i915, generation 4, XRGB8888 2^30 x 1
(the create succeeds): the aligned width is 2^30, bpp is 4, and strides[0] =
0, which is not ≥ 2^30 × 4. -/
theorem C14_counterexample :
    ((rockchip_bo_create drv_h true SIZE_T_LP64 kernel_ok world0 (bo0 2) 5 5
        drv_h.DRV_FORMAT_NV12 0).outcome = .returned 0 ∧
     ALIGN 5 4 = .ok 8 ∧
     drv_num_planes_from_format drv_h drv_h.DRV_FORMAT_NV12 = 2 ∧
     drv_bpp_from_format drv_h drv_h.DRV_FORMAT_NV12 1 = 2 ∧
     (rockchip_bo_create drv_h true SIZE_T_LP64 kernel_ok world0 (bo0 2) 5 5
        drv_h.DRV_FORMAT_NV12 0).bo.strides 1 = 8 ∧
     ¬ (((rockchip_bo_create drv_h true SIZE_T_LP64 kernel_ok world0 (bo0 2) 5 5
        drv_h.DRV_FORMAT_NV12 0).bo.strides 1 : Int)
          ≥ 8 * drv_bpp_from_format drv_h drv_h.DRV_FORMAT_NV12 1)) ∧
    ((drv_i915_bo_create drv_h kernel_ok stderr_quiet 1 4 world0 (bo0 1) 1073741824 1
        drv_h.DRV_FORMAT_XRGB8888 0).outcome = .returned 0 ∧
     i915_align_dimensions 1 4 (drv_i915_bo_create_tiling drv_h 0) 1073741824 1
        (drv_stride_from_format drv_h drv_h.DRV_FORMAT_XRGB8888 1) = .ok (1073741824, 4) ∧
     drv_bpp_from_format drv_h drv_h.DRV_FORMAT_XRGB8888 0 = 4 ∧
     ¬ (((drv_i915_bo_create drv_h kernel_ok stderr_quiet 1 4 world0 (bo0 1) 1073741824 1
        drv_h.DRV_FORMAT_XRGB8888 0).bo.strides 0 : Int)
          ≥ 1073741824 * drv_bpp_from_format drv_h drv_h.DRV_FORMAT_XRGB8888 0)) :=
  ⟨⟨rfl, rfl, rfl, rfl, rfl, by decide⟩, ⟨rfl, rfl, rfl, by decide⟩⟩

/-- C14, amended. Immediately after any successful create: on i915,
strides[0] ≥ aligned width × bpp(format, 0) whenever that product is below
2^32; on rockchip, for XRGB8888, ARGB8888 and ABGR8888 (whose width is not
aligned) strides[0] ≥ width × bpp(format, 0) whenever that product is below
2^32, and for NV12 strides[0] = strides[1] = aligned width, so that strides[0]
≥ aligned width × bpp(NV12, 0), while for plane 1 (bpp 2, subsampled by 2
horizontally) strides[1] = aligned width × bpp(NV12, 1) / 2. The rockchip
strides are filled in before the ioctl, so they hold whether or not the
create succeeds. -/
theorem C14_stride_lower_bound (c : DrvHeader) (ndebug : Bool) (size_mod : Nat)
    (k : Kernel) (lg : Stderr) (fuel : Nat) (gen : Int) (w : World) (bo : Bo)
    (width height format flags : Nat) :
    ((drv_i915_bo_create c k lg fuel gen w bo width height format flags).outcome = .returned 0 →
      ∃ W H, i915_align_dimensions fuel gen (drv_i915_bo_create_tiling c flags) width height
          (drv_stride_from_format c format 1) = .ok (W, H) ∧
        ((W : Int) * drv_bpp_from_format c format 0 < (UINT32 : Int) →
          (W : Int) * drv_bpp_from_format c format 0
            ≤ ((drv_i915_bo_create c k lg fuel gen w bo width height format flags).bo.strides 0
                : Int))) ∧
    (∀ W, ALIGN width 4 = .ok W →
      (rockchip_bo_create c ndebug size_mod k w bo width height c.DRV_FORMAT_NV12 flags).bo.strides 0
        = W ∧
      (rockchip_bo_create c ndebug size_mod k w bo width height c.DRV_FORMAT_NV12 flags).bo.strides 1
        = W ∧
      (W : Int) * drv_bpp_from_format c c.DRV_FORMAT_NV12 0
        ≤ ((rockchip_bo_create c ndebug size_mod k w bo width height c.DRV_FORMAT_NV12
            flags).bo.strides 0 : Int) ∧
      ((rockchip_bo_create c ndebug size_mod k w bo width height c.DRV_FORMAT_NV12
          flags).bo.strides 1 : Int)
        = (W : Int) * drv_bpp_from_format c c.DRV_FORMAT_NV12 1 / 2) ∧
    (format = c.DRV_FORMAT_XRGB8888 ∨ format = c.DRV_FORMAT_ARGB8888 ∨
        format = c.DRV_FORMAT_ABGR8888 →
      (width : Int) * drv_bpp_from_format c format 0 < (UINT32 : Int) →
      (width : Int) * drv_bpp_from_format c format 0
        ≤ ((rockchip_bo_create c ndebug size_mod k w bo width height format flags).bo.strides 0
            : Int)) := by
  refine ⟨fun hok => ?_, fun W hW => ?_, fun hrgb hlt => ?_⟩
  · obtain ⟨W, H, b, hal, hb, hbpp, hs⟩ :=
      bo_create_ok_stride c k lg fuel gen w bo width height format flags hok
    refine ⟨W, H, hal, ?_⟩
    rw [hbpp, hs]
    intro hlt
    rcases hb with rfl | rfl | rfl <;>
    · simp only [UINT32] at hlt ⊢
      omega
  · rw [rockchip_nv12 c ndebug size_mod k w bo width height flags W _ hW (ALIGN_four height)]
    obtain ⟨-, -, -, hst, -⟩ := alloc_spec size_mod k w
      { bo with
        strides := store (store bo.strides 1 W) 0 W
        sizes := store (store bo.sizes 0
          ((height + 4 - 1) % UINT32 / 4 * 4 % UINT32 * W % UINT32)) 1
          ((height + 4 - 1) % UINT32 / 4 * 4 % UINT32 * W % UINT32 / 2)
        offsets := store (store bo.offsets 0 0) 1
          ((height + 4 - 1) % UINT32 / 4 * 4 % UINT32 * W % UINT32) }
    rw [hst, (bpp_supported c).1, (bpp_supported c).2.1]
    simp only [store_same, store_other _ 0 _ 1 (by decide)]
    refine ⟨trivial, trivial, by omega, by omega⟩
  · rw [rockchip_rgb c ndebug size_mod k w bo width height format flags hrgb]
    obtain ⟨-, -, -, hst, -⟩ := alloc_spec size_mod k w
      { bo with
        strides := store bo.strides 0 (toU32 (drv_stride_from_format c format width))
        sizes := store bo.sizes 0
          (height * toU32 (drv_stride_from_format c format width) % UINT32)
        offsets := store bo.offsets 0 0 }
    rw [hst]
    simp only [store_same]
    have hb : drv_bpp_from_format c format 0 = 4 := by
      rcases hrgb with rfl | rfl | rfl
      · exact (bpp_supported c).2.2.1
      · exact (bpp_supported c).2.2.2.1
      · exact (bpp_supported c).2.2.2.2
    unfold drv_stride_from_format toU32
    rw [hb] at hlt ⊢
    simp only [UINT32] at hlt
    omega

/-- Concrete instances of C14 (amended): rockchip NV12 5x5 has strides[0] =
strides[1] = 8 = 8 × 2 / 2; i915 generation 4 XRGB8888 1920x1080 with flags =
scanout has strides[0] = 7680 = 1920 × 4. -/
theorem C14_stride_lower_bound_witness :
    ((rockchip_bo_create drv_h true SIZE_T_LP64 kernel_ok world0 (bo0 2) 5 5
        drv_h.DRV_FORMAT_NV12 0).bo.strides 0 = 8 ∧
     (rockchip_bo_create drv_h true SIZE_T_LP64 kernel_ok world0 (bo0 2) 5 5
        drv_h.DRV_FORMAT_NV12 0).bo.strides 1 = 8 ∧
     (8 : Int) * drv_bpp_from_format drv_h drv_h.DRV_FORMAT_NV12 0
        ≤ ((rockchip_bo_create drv_h true SIZE_T_LP64 kernel_ok world0 (bo0 2) 5 5
            drv_h.DRV_FORMAT_NV12 0).bo.strides 0 : Int) ∧
     ((rockchip_bo_create drv_h true SIZE_T_LP64 kernel_ok world0 (bo0 2) 5 5
          drv_h.DRV_FORMAT_NV12 0).bo.strides 1 : Int)
        = (8 : Int) * drv_bpp_from_format drv_h drv_h.DRV_FORMAT_NV12 1 / 2) ∧
    (drv_i915_bo_create drv_h kernel_ok stderr_quiet 1 4 world0 (bo0 1) 1920 1080
      drv_h.DRV_FORMAT_XRGB8888 drv_h.DRV_BO_USE_SCANOUT).bo.strides 0 = 7680 :=
  ⟨(C14_stride_lower_bound drv_h true SIZE_T_LP64 kernel_ok stderr_quiet 1 4 world0 (bo0 2) 5 5
      drv_h.DRV_FORMAT_NV12 0).2.1 8 rfl, rfl⟩

/-! ## C15: strides[0] is a multiple of the bytes per pixel -/

/-- C15. After any successful create on either backend, for every supported
format and every width and height (including those for which the 32-bit
multiplication wraps), strides[0] mod bpp(format, 0) = 0, where bpp(format, 0)
is not zero. On i915 this holds for every format on which the create returns
0; on rockchip for the four formats its `bo_create` supports, whether or not
the ioctl succeeds. -/
theorem C15_stride_multiple_of_bpp (c : DrvHeader) (ndebug : Bool) (size_mod : Nat)
    (k : Kernel) (lg : Stderr) (fuel : Nat) (gen : Int) (w : World) (bo : Bo)
    (width height format flags : Nat) :
    ((drv_i915_bo_create c k lg fuel gen w bo width height format flags).outcome = .returned 0 →
      drv_bpp_from_format c format 0 ≠ 0 ∧
      ((drv_i915_bo_create c k lg fuel gen w bo width height format flags).bo.strides 0 : Int)
        % drv_bpp_from_format c format 0 = 0) ∧
    (format = c.DRV_FORMAT_NV12 ∨ format = c.DRV_FORMAT_XRGB8888 ∨
        format = c.DRV_FORMAT_ARGB8888 ∨ format = c.DRV_FORMAT_ABGR8888 →
      drv_bpp_from_format c format 0 ≠ 0 ∧
      ((rockchip_bo_create c ndebug size_mod k w bo width height format flags).bo.strides 0 : Int)
        % drv_bpp_from_format c format 0 = 0) := by
  refine ⟨fun hok => ?_, fun hfmt => ?_⟩
  · obtain ⟨W, H, b, -, hb, hbpp, hs⟩ :=
      bo_create_ok_stride c k lg fuel gen w bo width height format flags hok
    rw [hbpp, hs]
    rcases hb with rfl | rfl | rfl <;>
    · simp only [UINT32]
      constructor <;> omega
  · rcases hfmt with rfl | hrgb
    · rw [rockchip_nv12 c ndebug size_mod k w bo width height flags _ _ (ALIGN_four width)
        (ALIGN_four height), (bpp_supported c).1]
      constructor <;> omega
    · rw [rockchip_rgb c ndebug size_mod k w bo width height format flags hrgb]
      obtain ⟨-, -, -, hst, -⟩ := alloc_spec size_mod k w
        { bo with
          strides := store bo.strides 0 (toU32 (drv_stride_from_format c format width))
          sizes := store bo.sizes 0
            (height * toU32 (drv_stride_from_format c format width) % UINT32)
          offsets := store bo.offsets 0 0 }
      rw [hst]
      simp only [store_same]
      have hb : drv_bpp_from_format c format 0 = 4 := by
        rcases hrgb with rfl | rfl | rfl
        · exact (bpp_supported c).2.2.1
        · exact (bpp_supported c).2.2.2.1
        · exact (bpp_supported c).2.2.2.2
      unfold drv_stride_from_format toU32
      rw [hb]
      constructor <;> omega

/-- Concrete instances of C15, with wrapping products: i915 generation 4,
XRGB8888 2^30 x 1 succeeds with strides[0] = 0, and rockchip XRGB8888 with
width 2^30 + 1 has strides[0] = 4; both are multiples of 4. -/
theorem C15_stride_multiple_of_bpp_witness :
    (drv_i915_bo_create drv_h kernel_ok stderr_quiet 1 4 world0 (bo0 1) 1073741824 1
      drv_h.DRV_FORMAT_XRGB8888 0).bo.strides 0 = 0 ∧
    (rockchip_bo_create drv_h true SIZE_T_LP64 kernel_ok world0 (bo0 1) 1073741825 1
      drv_h.DRV_FORMAT_XRGB8888 0).bo.strides 0 = 4 ∧
    (drv_bpp_from_format drv_h drv_h.DRV_FORMAT_XRGB8888 0 ≠ 0 ∧
      ((drv_i915_bo_create drv_h kernel_ok stderr_quiet 1 4 world0 (bo0 1) 1073741824 1
        drv_h.DRV_FORMAT_XRGB8888 0).bo.strides 0 : Int)
        % drv_bpp_from_format drv_h drv_h.DRV_FORMAT_XRGB8888 0 = 0) :=
  ⟨rfl, rfl, (C15_stride_multiple_of_bpp drv_h true SIZE_T_LP64 kernel_ok stderr_quiet 1 4 world0 (bo0 1)
    1073741824 1 drv_h.DRV_FORMAT_XRGB8888 0).1 rfl⟩

/-! ## C16: the generation of a chipset -/

/-- C16. `get_gen` returns 3 exactly when the device id is one of the ten ids
0x2582, 0x2592, 0x2772, 0x27A2, 0x27AE, 0x29C2, 0x29B2, 0x29D2, 0xA001,
0xA011, and returns 4 for every other integer device id; so the generation
`drv_i915_init` stores is always 3 or 4. -/
theorem C16_get_gen (device_id : Int) :
    (get_gen device_id = 3 ↔
      (device_id = 0x2582 ∨ device_id = 0x2592 ∨ device_id = 0x2772 ∨ device_id = 0x27A2 ∨
       device_id = 0x27AE ∨ device_id = 0x29C2 ∨ device_id = 0x29B2 ∨ device_id = 0x29D2 ∨
       device_id = 0xA001 ∨ device_id = 0xA011)) ∧
    (¬ (device_id = 0x2582 ∨ device_id = 0x2592 ∨ device_id = 0x2772 ∨ device_id = 0x27A2 ∨
       device_id = 0x27AE ∨ device_id = 0x29C2 ∨ device_id = 0x29B2 ∨ device_id = 0x29D2 ∨
       device_id = 0xA001 ∨ device_id = 0xA011) → get_gen device_id = 4) ∧
    (get_gen device_id = 3 ∨ get_gen device_id = 4) ∧
    (∀ (malloc_ok : Bool) (getparam_ret : Int) (g : Int),
      (drv_i915_init malloc_ok getparam_ret device_id).2 = some g → g = 3 ∨ g = 4) := by
  have key : (get_gen device_id = 3 ∧
      (device_id = 0x2582 ∨ device_id = 0x2592 ∨ device_id = 0x2772 ∨ device_id = 0x27A2 ∨
       device_id = 0x27AE ∨ device_id = 0x29C2 ∨ device_id = 0x29B2 ∨ device_id = 0x29D2 ∨
       device_id = 0xA001 ∨ device_id = 0xA011)) ∨
      (get_gen device_id = 4 ∧
      ¬ (device_id = 0x2582 ∨ device_id = 0x2592 ∨ device_id = 0x2772 ∨ device_id = 0x27A2 ∨
       device_id = 0x27AE ∨ device_id = 0x29C2 ∨ device_id = 0x29B2 ∨ device_id = 0x29D2 ∨
       device_id = 0xA001 ∨ device_id = 0xA011)) := by
    unfold get_gen gen3_ids
    simp only [get_gen_loop]
    split_ifs <;> omega
  refine ⟨?_, ?_, ?_, ?_⟩
  · rcases key with ⟨h1, h2⟩ | ⟨h1, h2⟩
    · exact ⟨fun _ => h2, fun _ => h1⟩
    · exact ⟨fun h => by omega, fun h => absurd h h2⟩
  · intro hn
    rcases key with ⟨-, h2⟩ | ⟨h1, -⟩
    · exact absurd h2 hn
    · exact h1
  · rcases key with ⟨h1, -⟩ | ⟨h1, -⟩
    · exact Or.inl h1
    · exact Or.inr h1
  · intro malloc_ok getparam_ret g hg
    have hgen : get_gen device_id = g := by
      unfold drv_i915_init at hg
      split_ifs at hg
      simp at hg
      exact hg
    rw [← hgen]
    rcases key with ⟨h1, -⟩ | ⟨h1, -⟩
    · exact Or.inl h1
    · exact Or.inr h1

/-- Concrete instances of C16: id 0x2582 is generation 3, ids 0x2583, 0, -1
and 0x12582 (which agrees with 0x2582 in its low 16 bits) are generation 4. -/
theorem C16_get_gen_witness :
    get_gen 0x2582 = 3 ∧ get_gen 0xA011 = 3 ∧ get_gen 0x2583 = 4 ∧ get_gen 0 = 4 ∧
    get_gen (-1) = 4 ∧ get_gen 0x12582 = 4 ∧
    drv_i915_init true 0 0x2582 = (0, some 3) ∧ drv_i915_init true (-1) 0x2582 = (-1, none) :=
  ⟨(C16_get_gen 0x2582).1.mpr (Or.inl rfl), rfl, rfl, rfl, rfl, rfl, rfl, rfl⟩

/-! ## C17: the flex YCbCr 4:2:0 format on rockchip -/

/-- A mask is a superset of any of its own parts. -/
theorem and_or_absorb (a b : Nat) : a &&& (a ||| b) = a := by
  apply Nat.eq_of_testBit_eq
  intro i
  rw [Nat.testBit_and, Nat.testBit_or]
  cases a.testBit i <;> cases b.testBit i <;> rfl

/-- C17. On rockchip, for every width, height and flags, a create request for
the flex YCbCr 4:2:0 format, passed through `rockchip_resolve_format` and then
`rockchip_bo_create`, behaves and fills the BO exactly as a direct NV12
request does; and for flags = scanout|linear the resolved pair (NV12, flags)
is covered by an NV12 capability entry whose mask is a superset of the
flags. -/
theorem C17_flex_ycbcr_is_nv12 (c : DrvHeader) (ndebug : Bool) (size_mod : Nat) (k : Kernel) (w : World)
    (bo : Bo) (width height flags : Nat) :
    rockchip_resolve_format c c.DRV_FORMAT_FLEX_YCbCr_420_888 = c.DRV_FORMAT_NV12 ∧
    rockchip_bo_create c ndebug size_mod k w bo width height
        (rockchip_resolve_format c c.DRV_FORMAT_FLEX_YCbCr_420_888) flags
      = rockchip_bo_create c ndebug size_mod k w bo width height c.DRV_FORMAT_NV12 flags ∧
    ∃ entry, entry ∈ backend_rockchip_format_list c ∧ entry.1 = c.DRV_FORMAT_NV12 ∧
      Covers entry (rockchip_resolve_format c c.DRV_FORMAT_FLEX_YCbCr_420_888)
        (c.DRV_BO_USE_SCANOUT ||| c.DRV_BO_USE_LINEAR) := by
  have hres : rockchip_resolve_format c c.DRV_FORMAT_FLEX_YCbCr_420_888
      = c.DRV_FORMAT_NV12 := by
    unfold rockchip_resolve_format
    rw [if_neg (formats_ne c).2.2, if_pos rfl]
  refine ⟨hres, by rw [hres], ?_⟩
  refine ⟨(c.DRV_FORMAT_NV12, c.DRV_BO_USE_SCANOUT ||| c.DRV_BO_USE_LINEAR |||
    c.DRV_BO_USE_SW_READ_OFTEN ||| c.DRV_BO_USE_SW_WRITE_OFTEN), ?_, rfl, ?_⟩
  · simp [backend_rockchip_format_list]
  · refine ⟨hres.symm, ?_⟩
    show (c.DRV_BO_USE_SCANOUT ||| c.DRV_BO_USE_LINEAR) &&&
      (c.DRV_BO_USE_SCANOUT ||| c.DRV_BO_USE_LINEAR |||
        c.DRV_BO_USE_SW_READ_OFTEN ||| c.DRV_BO_USE_SW_WRITE_OFTEN)
      = c.DRV_BO_USE_SCANOUT ||| c.DRV_BO_USE_LINEAR
    rw [Nat.or_assoc (c.DRV_BO_USE_SCANOUT ||| c.DRV_BO_USE_LINEAR)]
    exact and_or_absorb _ _

/-- Concrete instance of C17: flex YCbCr 4:2:0, 640x480, flags =
scanout|linear: after the resolver the create succeeds with plane sizes 307200
and 153600. -/
theorem C17_flex_ycbcr_is_nv12_witness :
    (rockchip_bo_create drv_h true SIZE_T_LP64 kernel_ok world0 (bo0 2) 640 480
      (rockchip_resolve_format drv_h drv_h.DRV_FORMAT_FLEX_YCbCr_420_888)
      (drv_h.DRV_BO_USE_SCANOUT ||| drv_h.DRV_BO_USE_LINEAR)).outcome = .returned 0 ∧
    (rockchip_bo_create drv_h true SIZE_T_LP64 kernel_ok world0 (bo0 2) 640 480
      (rockchip_resolve_format drv_h drv_h.DRV_FORMAT_FLEX_YCbCr_420_888)
      (drv_h.DRV_BO_USE_SCANOUT ||| drv_h.DRV_BO_USE_LINEAR)).bo.sizes 0 = 307200 ∧
    (rockchip_bo_create drv_h true SIZE_T_LP64 kernel_ok world0 (bo0 2) 640 480
      (rockchip_resolve_format drv_h drv_h.DRV_FORMAT_FLEX_YCbCr_420_888)
      (drv_h.DRV_BO_USE_SCANOUT ||| drv_h.DRV_BO_USE_LINEAR)).bo.sizes 1 = 153600 ∧
    rockchip_resolve_format drv_h drv_h.DRV_FORMAT_FLEX_YCbCr_420_888
      = drv_h.DRV_FORMAT_NV12 :=
  ⟨rfl, rfl, rfl,
    (C17_flex_ycbcr_is_nv12 drv_h true SIZE_T_LP64 kernel_ok world0 (bo0 2) 640 480
      (drv_h.DRV_BO_USE_SCANOUT ||| drv_h.DRV_BO_USE_LINEAR)).1⟩

/-! ## C18: termination of the width loop -/

/-- One test of the loop condition of the width loop. -/
theorem loop_succ (fuel w width : Nat) :
    i915_align_dimensions_loop (fuel + 1) w width
      = if w < width then i915_align_dimensions_loop fuel ((w <<< 1) % UINT32) width
        else some w := rfl

/-- More budget does not change what the width loop returns. -/
theorem loop_mono (width : Nat) :
    ∀ (fuel w r : Nat), i915_align_dimensions_loop fuel w width = some r →
      ∀ fuel2, fuel ≤ fuel2 → i915_align_dimensions_loop fuel2 w width = some r := by
  intro fuel
  induction fuel with
  | zero =>
    intro w r h
    simp [i915_align_dimensions_loop] at h
  | succ fuel ih =>
    intro w r h fuel2 hle
    obtain ⟨f, rfl⟩ : ∃ f, fuel2 = f + 1 := ⟨fuel2 - 1, by omega⟩
    unfold i915_align_dimensions_loop at h ⊢
    by_cases hlt : w < width
    · rw [if_pos hlt] at h ⊢
      exact ih _ r h f (by omega)
    · rw [if_neg hlt] at h ⊢
      exact h

/-- Once `w` is 0 and the requested width is not, the width loop never
exits: it runs out of any budget. -/
theorem loop_zero (width : Nat) (hw : 0 < width) :
    ∀ fuel, i915_align_dimensions_loop fuel 0 width = none := by
  intro fuel
  induction fuel with
  | zero => rfl
  | succ fuel ih =>
    unfold i915_align_dimensions_loop
    rw [if_pos hw]
    exact ih

/-- For a requested width above 2^31 the width loop, started at a power of
two `2^j` with `j ≤ 31`, reaches `w = 0` after `32 - j` iterations. -/
theorem loop_wraps (width : Nat) (hw : 2 ^ 31 < width) :
    ∀ (n j : Nat), j + n = 32 → 0 < n →
      ∀ fuel, i915_align_dimensions_loop (n + fuel) (2 ^ j) width
        = i915_align_dimensions_loop fuel 0 width := by
  intro n
  induction n with
  | zero => intro j _ h; omega
  | succ n ih =>
    intro j hj _ fuel
    have hlt : 2 ^ j < width :=
      lt_of_le_of_lt (Nat.pow_le_pow_right (by decide) (by omega)) hw
    have hfuel : n + 1 + fuel = (n + fuel) + 1 := by omega
    rw [hfuel, loop_succ, if_pos hlt, Nat.shiftLeft_eq, pow_one, ← pow_succ]
    by_cases hn : n = 0
    · subst hn
      have hj31 : j = 31 := by omega
      subst hj31
      simp
    · have hmod : 2 ^ (j + 1) % UINT32 = 2 ^ (j + 1) := by
        apply Nat.mod_eq_of_lt
        calc 2 ^ (j + 1) ≤ 2 ^ 31 := Nat.pow_le_pow_right (by decide) (by omega)
          _ < UINT32 := by decide
      rw [hmod]
      exact ih (j + 1) (by omega) (by omega) fuel

/-- For a requested width above 2^31 the width loop, started at a power of
two `2^j` with `j ≤ 31`, runs out of any budget. -/
theorem loop_diverges (width : Nat) (hw : 2 ^ 31 < width) (j : Nat) (hj : j ≤ 31) :
    ∀ fuel, i915_align_dimensions_loop fuel (2 ^ j) width = none := by
  intro fuel
  by_cases hf : fuel < 32 - j
  · -- the budget ends before the wrap
    induction fuel generalizing j with
    | zero => rfl
    | succ fuel ih =>
      have hlt : 2 ^ j < width :=
        lt_of_le_of_lt (Nat.pow_le_pow_right (by decide) hj) hw
      unfold i915_align_dimensions_loop
      rw [if_pos hlt, Nat.shiftLeft_eq, pow_one, ← pow_succ]
      have hmod : 2 ^ (j + 1) % UINT32 = 2 ^ (j + 1) := by
        apply Nat.mod_eq_of_lt
        calc 2 ^ (j + 1) ≤ 2 ^ 31 := Nat.pow_le_pow_right (by decide) (by omega)
          _ < UINT32 := by decide
      rw [hmod]
      exact ih (j + 1) (by omega) (by omega)
  · obtain ⟨f, rfl⟩ : ∃ f, fuel = (32 - j) + f := ⟨fuel - (32 - j), by omega⟩
    rw [loop_wraps width hw (32 - j) j (by omega) (by omega) f]
    exact loop_zero width (by omega) f

/-- C18. For generation 3 and bpp in {1, 2, 4}, the width-doubling loop of
`i915_align_dimensions` (w starts at the width-alignment and is shifted left
while w < width, in 32-bit unsigned arithmetic) terminates if and only if the
requested width is ≤ 2^31: for every such width it stops, for any budget of
at least 33 tests, at a power of two w ≤ 2^31 that is the first value of the
doubling to reach the width (so nothing wrapped); for every width > 2^31 the
value w wraps to 0 after finitely many iterations and the loop never exits,
whatever the budget, and neither does `i915_align_dimensions`. -/
theorem C18_width_loop_termination (tiling_mode width bpp : Nat)
    (hbpp : bpp = 1 ∨ bpp = 2 ∨ bpp = 4) :
    ((∃ fuel W, i915_align_dimensions_loop fuel
        (i915_alignment 3 tiling_mode bpp).1 width = some W) ↔ width ≤ 2 ^ 31) ∧
    (width ≤ 2 ^ 31 → ∃ k, k ≤ 31 ∧
      (i915_alignment 3 tiling_mode bpp).1 ≤ 2 ^ k ∧ width ≤ 2 ^ k ∧
      (2 ^ k = (i915_alignment 3 tiling_mode bpp).1 ∨ 2 ^ (k - 1) < width) ∧
      ∀ fuel, 33 ≤ fuel → i915_align_dimensions_loop fuel
        (i915_alignment 3 tiling_mode bpp).1 width = some (2 ^ k)) ∧
    (2 ^ 31 < width →
      (∀ fuel, i915_align_dimensions_loop fuel
        (i915_alignment 3 tiling_mode bpp).1 width = none) ∧
      (∃ n, ∀ fuel, i915_align_dimensions_loop (n + fuel)
        (i915_alignment 3 tiling_mode bpp).1 width
          = i915_align_dimensions_loop fuel 0 width) ∧
      (∀ fuel, i915_align_dimensions_loop fuel 0 width = none) ∧
      (∀ fuel height, i915_align_dimensions fuel 3 tiling_mode width height bpp
        = .error .outOfFuel)) := by
  obtain ⟨hal, ⟨j, hj, hwa⟩, -, -⟩ := alignment_gen3 tiling_mode bpp hbpp
  rw [hal, hwa]
  have hstop : width ≤ 2 ^ 31 → ∃ k, k ≤ 31 ∧ 2 ^ j ≤ 2 ^ k ∧ width ≤ 2 ^ k ∧
      (2 ^ k = 2 ^ j ∨ 2 ^ (k - 1) < width) ∧
      ∀ fuel, 33 ≤ fuel → i915_align_dimensions_loop fuel (2 ^ j) width = some (2 ^ k) := by
    intro hw
    obtain ⟨k, hk1, hk2, hk3, hk4, hk5⟩ := loop_pow2 width hw 33 j (by omega) (by omega)
    refine ⟨k, hk2, Nat.pow_le_pow_right (by decide) hk1, hk4, ?_, ?_⟩
    · rcases hk5 with rfl | h
      · exact Or.inl rfl
      · exact Or.inr h
    · intro fuel hfuel
      exact loop_mono width 33 _ _ hk3 fuel hfuel
  have hdiv : 2 ^ 31 < width →
      ∀ fuel, i915_align_dimensions_loop fuel (2 ^ j) width = none :=
    fun hw => loop_diverges width hw j (by omega)
  refine ⟨⟨?_, ?_⟩, hstop, fun hw => ⟨hdiv hw, ⟨32 - j, ?_⟩, ?_, ?_⟩⟩
  · rintro ⟨fuel, W, hW⟩
    by_contra hcon
    rw [hdiv (by omega) fuel] at hW
    cases hW
  · intro hw
    obtain ⟨k, -, -, -, -, hk⟩ := hstop hw
    exact ⟨33, 2 ^ k, hk 33 (le_refl _)⟩
  · exact loop_wraps width hw (32 - j) j (by omega) (by omega)
  · exact loop_zero width (by omega)
  · intro fuel height
    have hb0 : (bpp : Int) ≠ 0 := by omega
    unfold i915_align_dimensions
    rw [if_neg hb0]
    simp only [hal, hwa]
    rw [if_neg (by decide), hdiv hw fuel]
    cases ALIGN height (spec_alignment_gen3 tiling_mode bpp).2 <;> rfl

/-- Concrete instances of C18 (XRGB8888, no tiling, width-alignment 16): for
width 2^31 the loop stops at 2^31; for width 2^31 + 1 it runs out of a budget
of 100 tests, having reached w = 0. -/
theorem C18_width_loop_termination_witness :
    i915_align_dimensions_loop 33 16 2147483648 = some 2147483648 ∧
    i915_align_dimensions_loop 100 16 2147483649 = none ∧
    (2147483648 <<< 1) % UINT32 = 0 ∧
    (∀ fuel, i915_align_dimensions_loop fuel
      (i915_alignment 3 I915_TILING_NONE ((4 : Nat) : Int)).1 2147483649 = none) :=
  ⟨rfl, rfl, rfl,
    ((C18_width_loop_termination I915_TILING_NONE 2147483649 4 (by decide)).2.2
      (by decide)).1⟩

/-! ## C19: aligning twice -/

/-- What `ALIGN` returns for a divisor of 2^32 is a fixed point of it. -/
theorem ALIGN_fixed (a b r : Nat) (hb : 0 < b) (hdiv : b ∣ UINT32)
    (h : ALIGN a b = .ok r) : ALIGN r b = .ok r := by
  unfold ALIGN at h
  rw [if_neg (by omega)] at h
  injection h with h
  have hx : (a + b - 1) % UINT32 < UINT32 := Nat.mod_lt _ (by decide)
  have hle : (a + b - 1) % UINT32 / b * b ≤ (a + b - 1) % UINT32 := Nat.div_mul_le_self _ _
  have hr : r = (a + b - 1) % UINT32 / b * b := by
    rw [← h]
    exact Nat.mod_eq_of_lt (lt_of_le_of_lt hle hx)
  have hfit : RoundsIn32 b r := ⟨r, by rw [hr]; exact lt_of_le_of_lt hle hx,
    by rw [hr]; exact Dvd.intro_left _ rfl, le_refl _⟩
  obtain ⟨r2, h2, hd, hge, hmin⟩ := ALIGN_least r b hb hdiv hfit
  have : r2 = r :=
    le_antisymm (hmin r (by rw [hr]; exact Dvd.intro_left _ rfl) (le_refl _)) hge
  rw [h2, this]

/-- What the width loop returns, started at a power of two `2^j` with
`j ≤ 31`, is at least `2^j`, and the loop run again towards that value stops
at it. -/
theorem loop_fixed (width W : Nat) :
    ∀ (fuel j : Nat), j ≤ 31 → i915_align_dimensions_loop fuel (2 ^ j) width = some W →
      2 ^ j ≤ W ∧ i915_align_dimensions_loop fuel (2 ^ j) W = some W := by
  intro fuel
  induction fuel with
  | zero =>
    intro j _ h
    simp [i915_align_dimensions_loop] at h
  | succ fuel ih =>
    intro j hj h
    rw [loop_succ] at h ⊢
    by_cases hlt : 2 ^ j < width
    · rw [if_pos hlt, Nat.shiftLeft_eq, pow_one, ← pow_succ] at h
      by_cases hj31 : j = 31
      · subst hj31
        have h0 : 2 ^ (31 + 1) % UINT32 = 0 := by decide
        rw [h0, loop_zero width (by omega) fuel] at h
        cases h
      · have hmod : 2 ^ (j + 1) % UINT32 = 2 ^ (j + 1) := by
          apply Nat.mod_eq_of_lt
          calc 2 ^ (j + 1) ≤ 2 ^ 31 := Nat.pow_le_pow_right (by decide) (by omega)
            _ < UINT32 := by decide
        rw [hmod] at h
        obtain ⟨hle, hfix⟩ := ih (j + 1) (by omega) h
        have hjW : 2 ^ j < W :=
          lt_of_lt_of_le (Nat.pow_lt_pow_right (by decide) (by omega)) hle
        refine ⟨le_of_lt hjW, ?_⟩
        rw [if_pos hjW, Nat.shiftLeft_eq, pow_one, ← pow_succ, hmod]
        exact hfix
    · rw [if_neg hlt] at h
      injection h with h
      subst h
      exact ⟨le_refl _, by rw [if_neg (lt_irrefl _)]⟩

/-- On generation ≥ 4 `i915_align_dimensions` returns `(W, H)` exactly when
the two `ALIGN`s return `W` and `H`. -/
theorem align_gen4_iff (fuel : Nat) (gen : Int) (hgen : 4 ≤ gen) (t width height : Nat)
    (bpp : Int) (hb0 : bpp ≠ 0) (W H : Nat) :
    i915_align_dimensions fuel gen t width height bpp = .ok (W, H) ↔
      ALIGN width (i915_alignment gen t bpp).1 = .ok W ∧
      ALIGN height (i915_alignment gen t bpp).2 = .ok H := by
  unfold i915_align_dimensions
  rw [if_neg hb0]
  simp only
  rw [if_pos (by omega)]
  rcases ALIGN width (i915_alignment gen t bpp).1 with f1 | w1 <;>
    rcases ALIGN height (i915_alignment gen t bpp).2 with f2 | h1 <;> simp

/-- On generation ≤ 3 `i915_align_dimensions` returns `(W, H)` exactly when
the width loop returns `W` and `ALIGN` returns `H`. -/
theorem align_gen3_iff (fuel : Nat) (gen : Int) (hgen : gen ≤ 3) (t width height : Nat)
    (bpp : Int) (hb0 : bpp ≠ 0) (W H : Nat) :
    i915_align_dimensions fuel gen t width height bpp = .ok (W, H) ↔
      i915_align_dimensions_loop fuel (i915_alignment gen t bpp).1 width = some W ∧
      ALIGN height (i915_alignment gen t bpp).2 = .ok H := by
  unfold i915_align_dimensions
  rw [if_neg hb0]
  simp only
  rw [if_neg (by omega)]
  rcases i915_align_dimensions_loop fuel (i915_alignment gen t bpp).1 width with _ | w1 <;>
    rcases ALIGN height (i915_alignment gen t bpp).2 with f2 | h1 <;> simp

/-- C19. `i915_align_dimensions` is idempotent: for every generation in
{3, 4} (and above), tiling mode and bpp in {1, 2, 4}, whenever aligning
(width, height) returns (W, H), aligning (W, H) again with the same
generation, tiling mode and bpp returns (W, H) unchanged; and the first
alignment does return, for any loop budget of at least 33, for every
(width, height) whose rounded values fit in 32 bits (on generation 3: width
≤ 2^31 and the rounded height fits). -/
theorem C19_align_idempotent (fuel : Nat) (gen : Int) (tiling_mode width height bpp : Nat)
    (hgen : gen = 3 ∨ 4 ≤ gen) (hbpp : bpp = 1 ∨ bpp = 2 ∨ bpp = 4) :
    (∀ W H, i915_align_dimensions fuel gen tiling_mode width height bpp = .ok (W, H) →
      i915_align_dimensions fuel gen tiling_mode W H bpp = .ok (W, H)) ∧
    (33 ≤ fuel →
      ((4 ≤ gen ∧ RoundsIn32 (spec_alignment_gen4 tiling_mode bpp).1 width ∧
          RoundsIn32 (spec_alignment_gen4 tiling_mode bpp).2 height) ∨
        (gen = 3 ∧ width ≤ 2 ^ 31 ∧
          RoundsIn32 (spec_alignment_gen3 tiling_mode bpp).2 height)) →
      ∃ W H, i915_align_dimensions fuel gen tiling_mode width height bpp = .ok (W, H) ∧
        i915_align_dimensions fuel gen tiling_mode W H bpp = .ok (W, H)) := by
  have hb0 : (bpp : Int) ≠ 0 := by omega
  have hidem : ∀ W H, i915_align_dimensions fuel gen tiling_mode width height bpp
      = .ok (W, H) → i915_align_dimensions fuel gen tiling_mode W H bpp = .ok (W, H) := by
    intro W H h
    rcases hgen with rfl | hgen
    · obtain ⟨hal, ⟨j, hj, hwa⟩, hh0, hhd⟩ := alignment_gen3 tiling_mode bpp hbpp
      rw [align_gen3_iff fuel 3 (by decide) _ _ _ _ hb0] at h ⊢
      rw [hal] at h ⊢
      rw [hwa] at h ⊢
      exact ⟨(loop_fixed width W fuel j (by omega) h.1).2,
        ALIGN_fixed height _ H hh0 hhd h.2⟩
    · obtain ⟨hal, hw0, hwd, hh0, hhd⟩ := alignment_gen4 gen hgen tiling_mode bpp hbpp
      rw [align_gen4_iff fuel gen hgen _ _ _ _ hb0] at h ⊢
      rw [hal] at h ⊢
      exact ⟨ALIGN_fixed width _ W hw0 hwd h.1, ALIGN_fixed height _ H hh0 hhd h.2⟩
  refine ⟨hidem, fun hfuel hfit => ?_⟩
  have hret : ∃ W H, i915_align_dimensions fuel gen tiling_mode width height bpp
      = .ok (W, H) := by
    rcases hfit with ⟨hg, hw, hh⟩ | ⟨rfl, hw, hh⟩
    · obtain ⟨hal, hw0, hwd, hh0, hhd⟩ := alignment_gen4 gen hg tiling_mode bpp hbpp
      obtain ⟨W, hW, -⟩ := ALIGN_least width _ hw0 hwd hw
      obtain ⟨H, hH, -⟩ := ALIGN_least height _ hh0 hhd hh
      refine ⟨W, H, ?_⟩
      rw [align_gen4_iff fuel gen hg _ _ _ _ hb0, hal]
      exact ⟨hW, hH⟩
    · obtain ⟨hal, ⟨j, hj, hwa⟩, hh0, hhd⟩ := alignment_gen3 tiling_mode bpp hbpp
      obtain ⟨H, hH, -⟩ := ALIGN_least height _ hh0 hhd hh
      obtain ⟨k, -, -, hk, -⟩ := loop_pow2 width hw fuel j (by omega) (by omega)
      refine ⟨2 ^ k, H, ?_⟩
      rw [align_gen3_iff fuel 3 (by decide) _ _ _ _ hb0, hal, hwa]
      exact ⟨hk, hH⟩
  obtain ⟨W, H, h⟩ := hret
  exact ⟨W, H, h, hidem W H h⟩

/-- Concrete instances of C19 (XRGB8888, bpp 4): generation 3, Y tiling,
100x1 aligns to 128x8 and 128x8 aligns to itself; generation 4, X tiling,
1921x1081 aligns to 2048x1088 and 2048x1088 aligns to itself. -/
theorem C19_align_idempotent_witness :
    i915_align_dimensions 33 3 I915_TILING_Y 100 1 4 = .ok (128, 8) ∧
    i915_align_dimensions 33 3 I915_TILING_Y 128 8 ((4 : Nat) : Int) = .ok (128, 8) ∧
    i915_align_dimensions 33 4 I915_TILING_X 1921 1081 4 = .ok (2048, 1088) ∧
    i915_align_dimensions 33 4 I915_TILING_X 2048 1088 4 = .ok (2048, 1088) :=
  ⟨rfl, (C19_align_idempotent 33 3 I915_TILING_Y 100 1 4 (Or.inl rfl) (by decide)).1
    128 8 rfl, rfl, rfl⟩

/-! ## C20: the formats rockchip accepts -/

/-- The `default:` branch of `rockchip_bo_create`: for a format that is none
of the four case labels no ioctl is issued and the BO is not touched. -/
theorem rockchip_default_branch (c : DrvHeader) (ndebug : Bool) (size_mod : Nat) (k : Kernel) (w : World)
    (bo : Bo) (width height format flags : Nat)
    (h1 : format ≠ c.DRV_FORMAT_NV12) (h2 : format ≠ c.DRV_FORMAT_XRGB8888)
    (h3 : format ≠ c.DRV_FORMAT_ARGB8888) (h4 : format ≠ c.DRV_FORMAT_ABGR8888) :
    rockchip_bo_create c ndebug size_mod k w bo width height format flags
      = if ndebug = true then ⟨.returned (-EINVAL), bo, w⟩ else ⟨.fault .assertFail, bo, w⟩ := by
  unfold rockchip_bo_create
  rw [if_neg h1, if_neg (by simp [h2, h3, h4])]

/-- The formats that appear in `backend_rockchip.format_list`. -/
theorem rockchip_table_formats (c : DrvHeader) (format : Nat) :
    format ∈ (backend_rockchip_format_list c).map Prod.fst ↔
      (format = c.DRV_FORMAT_XRGB8888 ∨ format = c.DRV_FORMAT_ARGB8888 ∨
       format = c.DRV_FORMAT_ABGR8888 ∨ format = c.DRV_FORMAT_NV12) := by
  simp only [backend_rockchip_format_list, List.map_cons, List.map_nil, List.mem_cons,
    List.mem_singleton, List.not_mem_nil, or_false]
  tauto

/-- C20. The set of formats that `rockchip_bo_create` accepts (does not send
to its unsupported-format branch: these are the formats for which it issues
an ioctl) is exactly the set of formats that appear in
`backend_rockchip.format_list`, namely {XRGB8888, ARGB8888, ABGR8888, NV12};
XBGR8888, the format `rockchip_resolve_format` returns for the
implementation-defined flex format, is in neither, so a request for the
implementation-defined flex format resolves to a format that has no
capability entry and that `rockchip_bo_create` treats as unsupported (no
ioctl, BO untouched, `-EINVAL` with `NDEBUG` and an abort at `assert(0)`
without). -/
theorem C20_accepted_formats (c : DrvHeader) (ndebug : Bool) (size_mod : Nat) (k : Kernel) (w : World)
    (bo : Bo) (width height format flags : Nat) :
    ((rockchip_bo_create c ndebug size_mod k w bo width height format flags).world.trace ≠ w.trace ↔
      format ∈ (backend_rockchip_format_list c).map Prod.fst) ∧
    (format ∈ (backend_rockchip_format_list c).map Prod.fst ↔
      (format = c.DRV_FORMAT_XRGB8888 ∨ format = c.DRV_FORMAT_ARGB8888 ∨
       format = c.DRV_FORMAT_ABGR8888 ∨ format = c.DRV_FORMAT_NV12)) ∧
    rockchip_resolve_format c c.DRV_FORMAT_FLEX_IMPLEMENTATION_DEFINED
      = c.DRV_FORMAT_XBGR8888 ∧
    c.DRV_FORMAT_XBGR8888 ∉ (backend_rockchip_format_list c).map Prod.fst ∧
    (∀ m, (c.DRV_FORMAT_XBGR8888, m) ∉ backend_rockchip_format_list c) ∧
    (rockchip_bo_create c ndebug size_mod k w bo width height
      (rockchip_resolve_format c c.DRV_FORMAT_FLEX_IMPLEMENTATION_DEFINED) flags).world = w ∧
    (rockchip_bo_create c ndebug size_mod k w bo width height
      (rockchip_resolve_format c c.DRV_FORMAT_FLEX_IMPLEMENTATION_DEFINED) flags).bo = bo ∧
    (rockchip_bo_create c ndebug size_mod k w bo width height
      (rockchip_resolve_format c c.DRV_FORMAT_FLEX_IMPLEMENTATION_DEFINED) flags).outcome
      = (if ndebug = true then .returned (-EINVAL) else .fault .assertFail) := by
  obtain ⟨x0, x1, x3, -, -, -, -, -, -, -, x11⟩ := xbgr_ne c
  have hres : rockchip_resolve_format c c.DRV_FORMAT_FLEX_IMPLEMENTATION_DEFINED
      = c.DRV_FORMAT_XBGR8888 := by
    unfold rockchip_resolve_format
    rw [if_pos rfl]
  have hnot : c.DRV_FORMAT_XBGR8888 ∉ (backend_rockchip_format_list c).map Prod.fst := by
    rw [rockchip_table_formats]
    simp [x0, x1, x3, x11]
  have hdef := rockchip_default_branch c ndebug size_mod k w bo width height
    c.DRV_FORMAT_XBGR8888 flags x11 x0 x1 x3
  refine ⟨?_, rockchip_table_formats c format, hres, hnot, ?_, ?_, ?_, ?_⟩
  · rw [rockchip_table_formats]
    constructor
    · intro htr
      by_contra hcon
      simp only [not_or] at hcon
      rw [rockchip_default_branch c ndebug size_mod k w bo width height format flags
        hcon.2.2.2 hcon.1 hcon.2.1 hcon.2.2.1] at htr
      cases ndebug <;> simp at htr
    · intro hfmt
      have hfmt2 : format = c.DRV_FORMAT_NV12 ∨ format = c.DRV_FORMAT_XRGB8888 ∨
          format = c.DRV_FORMAT_ARGB8888 ∨ format = c.DRV_FORMAT_ABGR8888 := by tauto
      obtain ⟨bo1, heq, -⟩ := rockchip_supported c ndebug size_mod k w bo width height format flags hfmt2
      rw [heq, (alloc_spec size_mod k w bo1).1]
      simp
  · intro m hm
    exact hnot (List.mem_map_of_mem Prod.fst hm)
  · rw [hres, hdef]
    cases ndebug <;> rfl
  · rw [hres, hdef]
    cases ndebug <;> rfl
  · rw [hres, hdef]
    cases ndebug <;> rfl

/-- Concrete instance of C20: a request for the implementation-defined flex
format resolves to XBGR8888; compiled with `NDEBUG` the create returns
`-EINVAL` = -22 without any ioctl, while an XRGB8888 request issues one. -/
theorem C20_accepted_formats_witness :
    (rockchip_bo_create drv_h true SIZE_T_LP64 kernel_ok world0 (bo0 1) 16 16
      (rockchip_resolve_format drv_h drv_h.DRV_FORMAT_FLEX_IMPLEMENTATION_DEFINED)
      0).outcome = .returned (-22) ∧
    (rockchip_bo_create drv_h true SIZE_T_LP64 kernel_ok world0 (bo0 1) 16 16
      drv_h.DRV_FORMAT_XRGB8888 0).world.trace = [.ROCKCHIP_GEM_CREATE 1024] ∧
    (rockchip_bo_create drv_h true SIZE_T_LP64 kernel_ok world0 (bo0 1) 16 16
      (rockchip_resolve_format drv_h drv_h.DRV_FORMAT_FLEX_IMPLEMENTATION_DEFINED)
      0).world = world0 :=
  ⟨rfl, rfl, (C20_accepted_formats drv_h true SIZE_T_LP64 kernel_ok world0 (bo0 1) 16 16 0 0).2.2.2.2.2.1⟩

end Minigbm
